import Mathlib

/-!
# Semihosting relay of the Black Magic Debug probe

A shallow embedding of `src/target/semihosting.c`: the reply decoder, the
reply wait loop, the host I/O backends of the two builds and the per-call
handlers, and of the watchdog handling of `src/target/esp32c3.c`, followed by
theorems about them.

Conventions.  A C `uint32_t` is a `Nat` below `2 ^ 32`, a C `int32_t`/`int`
is an `Int` between `-2 ^ 31` and `2 ^ 31 - 1`; conversions between the two
are the explicit `to_uint32` and `to_int32`.  A C string or packet buffer is a
`List Char`; reading it as a string stops at the first NUL.
-/

namespace Semihosting

/-! ## Machine integers -/

/-- Value of an integer expression stored to a `uint32_t`: reduction modulo `2 ^ 32`. -/
def to_uint32 (i : Int) : Nat := (i % 4294967296).toNat

/-- Value of a 32-bit pattern read as `int32_t` (two's complement). -/
def to_int32 (n : Nat) : Int :=
  if n % 4294967296 < 2147483648 then ((n % 4294967296 : Nat) : Int)
  else ((n % 4294967296 : Nat) : Int) - 4294967296

/-- Conversion of an integer to `int32_t`, wrapping as the ARM and x86 compilers do. -/
def wrap_int32 (i : Int) : Int := to_int32 (to_uint32 i)

def UINT32_MAX : Nat := 4294967295

def INT32_MAX : Int := 2147483647

/-! ## C strings -/

/-- The characters of the C string that starts at offset `off` of buffer `buf`
(`buf + off` read up to, not including, the first NUL). -/
def c_str (buf : List Char) (off : Nat) : List Char :=
  (buf.drop off).takeWhile (fun c => c != '\x00')

/-- The byte `buf[i]`; the buffer is NUL terminated, so a position past its
stored characters reads as NUL. -/
def char_at (buf : List Char) (i : Nat) : Char := buf.getD i '\x00'

/-! ## The C library `sscanf`, for the format `"%x,%x,%c"` -/

/-- The C library `isspace` in the "C" locale. -/
def isspace (c : Char) : Bool :=
  c == ' ' || c == '\t' || c == '\n' || c == '\x0b' || c == '\x0c' || c == '\r'

/-- Value of a hexadecimal digit, `none` for any other character. -/
def hex_digit (c : Char) : Option Nat :=
  if '0' ≤ c ∧ c ≤ '9' then some (c.toNat - '0'.toNat)
  else if 'a' ≤ c ∧ c ≤ 'f' then some (c.toNat - 'a'.toNat + 10)
  else if 'A' ≤ c ∧ c ≤ 'F' then some (c.toNat - 'A'.toNat + 10)
  else none

/-- Skip leading white space, as every `scanf` conversion but `%c` does. -/
def skip_space : List Char → List Char
  | [] => []
  | c :: cs => if isspace c then skip_space cs else c :: cs

/-- Accumulate the longest run of hexadecimal digits, most significant first. -/
def scan_digits (acc : Nat) : List Char → Nat × List Char
  | [] => (acc, [])
  | c :: cs =>
    match hex_digit c with
    | some d => scan_digits (acc * 16 + d) cs
    | none => (acc, c :: cs)

/-- Drop an optional `0x`/`0X` when a hexadecimal digit follows it (the subject
sequence of `strtoul` in base 16). -/
def skip_0x : List Char → List Char
  | '0' :: x :: d :: cs =>
    if (x == 'x' || x == 'X') && (hex_digit d).isSome then d :: cs else '0' :: x :: d :: cs
  | cs => cs

/-- The digits of a `%x` item: at least one hexadecimal digit, after the optional
`0x`.  Result: their value and the unread input. -/
def scan_magnitude (s : List Char) : Option (Nat × List Char) :=
  match skip_0x s with
  | [] => none
  | c :: cs =>
    match hex_digit c with
    | none => none
    | some _ => some (scan_digits 0 (c :: cs))

/-- One `%x` conversion into an `unsigned int`, as `strtoul` with a 32-bit `unsigned long`
converts it: white space is skipped, an optional sign is accepted, a value
that does not fit is replaced by `ULONG_MAX`, and a `-` negates a value that
fits modulo `2 ^ 32`.  Result: the stored value and the unread input, or
`none` when nothing matches. -/
def scan_hex (s : List Char) : Option (Nat × List Char) :=
  match skip_space s with
  | '-' :: cs =>
    match scan_magnitude cs with
    | some (v, rest) => some (if v > UINT32_MAX then UINT32_MAX else to_uint32 (-(v : Int)), rest)
    | none => none
  | '+' :: cs =>
    match scan_magnitude cs with
    | some (v, rest) => some (min v UINT32_MAX, rest)
    | none => none
  | cs =>
    match scan_magnitude cs with
    | some (v, rest) => some (min v UINT32_MAX, rest)
    | none => none

/-- Outcome of `sscanf(s, "%x,%x,%c", &retcode, &errno_, &ctrl_c_flag)`: the
returned count and the three variables after the call. -/
structure scan_result where
  items : Int
  retcode : Nat
  errno_ : Nat
  ctrl_c_flag : Char
deriving DecidableEq, Repr

/-- The C library `sscanf` for the format `"%x,%x,%c"`, given the values the three
variables hold before the call.  Returns `EOF` (-1) when the input ends before
the first conversion, otherwise the number of items assigned; a variable
whose item was not assigned keeps its value. -/
def sscanf_x_x_c (s : List Char) (retcode errno_ : Nat) (ctrl_c_flag : Char) : scan_result :=
  match skip_space s with
  | [] => ⟨-1, retcode, errno_, ctrl_c_flag⟩
  | _ :: _ =>
    match scan_hex s with
    | none => ⟨0, retcode, errno_, ctrl_c_flag⟩
    | some (r, s1) =>
      match s1 with
      | ',' :: s2 =>
        match scan_hex s2 with
        | none => ⟨1, r, errno_, ctrl_c_flag⟩
        | some (e, s3) =>
          match s3 with
          | ',' :: c :: _ => ⟨3, r, e, c⟩
          | _ => ⟨2, r, e, ctrl_c_flag⟩
      | _ => ⟨1, r, errno_, ctrl_c_flag⟩

/-! ## Target controller and the reply decoder -/

/-- The fields of `target_controller_s` the relay uses. -/
structure target_controller_s where
  interrupted : Bool
  errno_ : Nat
deriving DecidableEq, Repr

/-- Modelled from the spec: the "unknown" error code of the relay protocol.
`target.h`, which declares it, is not among the sources; 9999 is the value
the GDB File-I/O protocol assigns to `EUNKNOWN`. -/
def TARGET_EUNKNOWN : Nat := 9999

/-- The function `semihosting_reply` (probe build): decode the `F` reply packet held in
`pbuf`.  Returns the call's return code and the updated controller. -/
def semihosting_reply (tc : target_controller_s) (pbuf : List Char) (len : Int) :
    Int × target_controller_s :=
  let _ := len
  let retcode_is_negative := char_at pbuf 1 == '-'
  let scan := sscanf_x_x_c (c_str pbuf (if retcode_is_negative then 2 else 1)) 0 0 '\x00'
  if scan.items < 1 then
    (-1, { tc with interrupted := false, errno_ := TARGET_EUNKNOWN })
  else
    let tc1 := { tc with errno_ := if scan.items ≥ 2 then scan.errno_ else 0 }
    let tc2 := { tc1 with interrupted := scan.items == 3 && scan.ctrl_c_flag == 'C' }
    (to_int32 (if retcode_is_negative then to_uint32 (-(scan.retcode : Int)) else scan.retcode),
        tc2)

/-! ## Target state and the GDB link -/

/-- A value of the function pointers `target->mem_read` and `target->mem_write`: the
target's own routine (identified by a number), or the probe-local routine
`probe_mem_read` / `probe_mem_write`. -/
inductive mem_accessor where
  | target (id : Nat)
  | probe
deriving DecidableEq, Repr

/-- What the dispatcher asks of the target besides register and memory access: the
two `tc_printf` messages of the exit calls and `target_halt_resume`. -/
inductive target_event where
  | printf_exit (code : Nat)
  | printf_exit_extended (high low : Nat)
  | halt_resume (step : Bool)
deriving DecidableEq, Repr

/-- The part of `target_s` the relay uses, together with the state `ext` private to
the rest of the debugger.  Target memory `mem` is a byte per address; an
access to an address in `mem_fault` raises the sticky error flag `mem_err`.
`probe_mem` is the address space of the debugger itself, which the
probe-local accessors copy from and to.  `regs` are the core registers,
`cmdline` the characters of the stored command line (without terminator),
`heapinfo` the bytes of the heap descriptor and `events` the requests made
of the target, in order. -/
structure target_s (σ : Type) where
  tc : target_controller_s
  stdout_redirected : Bool
  mem : Nat → Nat
  mem_fault : Nat → Bool
  mem_err : Bool
  mem_read : mem_accessor
  mem_write : mem_accessor
  probe_mem : Nat → Nat
  regs : Nat → Nat
  cmdline : List Nat
  heapinfo : List Nat
  events : List target_event
  ext : σ

/-- A File-I/O request as `gdb_putpacket_f` sends it, kept as the call name and the
argument values rather than as the formatted text. -/
inductive fileio_request where
  | open (path path_len flags mode : Nat)
  | close (fd : Int)
  | read (fd : Int) (buf count : Nat)
  | write (fd : Int) (buf count : Nat)
  | lseek (fd : Int) (offset : Int) (flag : Nat)
  | rename (oldpath old_len newpath new_len : Nat)
  | unlink (path path_len : Nat)
  | stat (path path_len buf : Nat)
  | fstat (fd : Int) (buf : Nat)
  | gettimeofday (tv tz : Nat)
  | isatty (fd : Int)
  | system (cmd cmd_len : Nat)
deriving DecidableEq, Repr

/-- The transport to GDB and the debug serial port, as the relay sees them:
`inbound` holds the packets `gdb_getpacket` will deliver, in order; the other
fields record, in order, the requests sent, the packets handed to
`gdb_main_loop` and the chunks handed to `debug_serial_send_stdout`. -/
structure gdb_link where
  inbound : List (List Char)
  sent : List fileio_request
  forwarded : List (List Char)
  serial : List (List Nat)
deriving DecidableEq, Repr

/-- What one call of `gdb_main_loop` leaves behind: its return value, the packet
buffer after processing and the target. -/
structure main_loop_out (σ : Type) where
  result : Int
  packet_buffer : List Char
  target : target_s σ

/-- The external `gdb_main_loop(tc, packet_buffer, GDB_PACKET_BUFFER_SIZE, size, true)`:
any function of the target, the packet buffer and the packet size. -/
abbrev main_loop (σ : Type) := target_s σ → List Char → Nat → main_loop_out σ

/-- The test `size == 1U && packet_buffer[0] == '\x04'` of the wait loop. -/
def is_escape (packet : List Char) : Bool :=
  packet.length == 1 && char_at packet 0 == '\x04'

/-- The loop of `semihosting_get_gdb_response`, over the packets still to arrive; `none`
when the packets run out, the call then blocks in `gdb_getpacket`. -/
def get_gdb_response_loop {σ : Type} (gdb_main_loop : main_loop σ) :
    List (List Char) → target_s σ → List (List Char) →
      Option (Int × target_s σ × List (List Char) × List (List Char))
  | [], _, _ => none
  | packet :: inbound, t, forwarded =>
    if is_escape packet then some (-1, t, inbound, forwarded)
    else
      let out := gdb_main_loop t packet packet.length
      if char_at out.packet_buffer 0 == 'F' then
        some (out.result, out.target, inbound, forwarded ++ [packet])
      else get_gdb_response_loop gdb_main_loop inbound out.target (forwarded ++ [packet])

/-- The function `semihosting_get_gdb_response`: service packets until the `F` reply arrives. -/
def semihosting_get_gdb_response {σ : Type} (gdb_main_loop : main_loop σ) (t : target_s σ)
    (l : gdb_link) : Option (Int × target_s σ × gdb_link) :=
  match get_gdb_response_loop gdb_main_loop l.inbound t l.forwarded with
  | none => none
  | some (result, t1, inbound, forwarded) =>
    some (result, t1, { l with inbound := inbound, forwarded := forwarded })

/-- Modelled from the spec: the main loop's treatment of a reply.  `gdb_main.c` is not
among the sources; with a call outstanding, a packet that begins with the
reply marker `F` is given to the Reply Decoder and its result returned, the
buffer left as it is; any other packet goes to the handler `other`. -/
def gdb_main_loop_model {σ : Type} (other : main_loop σ) : main_loop σ :=
  fun t packet_buffer size =>
    if char_at packet_buffer 0 == 'F' then
      let r := semihosting_reply t.tc packet_buffer size
      { result := r.1, packet_buffer := packet_buffer, target := { t with tc := r.2 } }
    else other t packet_buffer size

/-- Packets up to the reply, as the specification words them: none of `packets` is
the escape packet and none, handed to the main loop in order from target
state `t`, leaves a buffer that begins with `F`. -/
def all_unrelated {σ : Type} (gdb_main_loop : main_loop σ) : target_s σ → List (List Char) → Prop
  | _, [] => True
  | t, packet :: packets =>
    is_escape packet = false ∧
    char_at (gdb_main_loop t packet packet.length).packet_buffer 0 ≠ 'F' ∧
    all_unrelated gdb_main_loop (gdb_main_loop t packet packet.length).target packets

/-- The target after the main loop has processed `packets` in order. -/
def target_after {σ : Type} (gdb_main_loop : main_loop σ) : target_s σ → List (List Char) → target_s
    σ
  | t, [] => t
  | t, packet :: packets =>
    target_after gdb_main_loop (gdb_main_loop t packet packet.length).target packets

/-! ## Requests, constants and target memory access -/

/-- The decoded request `semihosting_s`: call number, register 1 and the four
parameter words. -/
structure semihosting_s where
  syscall : Nat
  r1 : Nat
  params : Fin 4 → Nat

def TARGET_NULL : Nat := 0

def STDIN_FILENO : Int := 0

def STDOUT_FILENO : Int := 1

def STDERR_FILENO : Int := 2

/-- Modelled from the spec: the open flags of the relay protocol.  `target.h` is not
among the sources; the values are those of the GDB File-I/O protocol. -/
def TARGET_O_RDONLY : Nat := 0

def TARGET_O_WRONLY : Nat := 1

def TARGET_O_RDWR : Nat := 2

def TARGET_O_APPEND : Nat := 8

def TARGET_O_CREAT : Nat := 512

def TARGET_O_TRUNC : Nat := 1024

/-- Modelled from the spec: the absolute seek of the relay protocol (GDB File-I/O
`SEEK_SET`). -/
def TARGET_SEEK_SET : Nat := 0

/-- The host's own open flags of the direct build, with the values of Linux
`<fcntl.h>`. -/
def O_RDONLY : Nat := 0

def O_WRONLY : Nat := 1

def O_RDWR : Nat := 2

def O_CREAT : Nat := 64

def O_TRUNC : Nat := 512

def O_APPEND : Nat := 1024

def SEEK_SET : Nat := 0

/-- Modelled from the spec: size of the chunk buffer of the redirected console
write.  The header that defines the macro is not among the sources. -/
def STDOUT_READ_BUF_SIZE : Nat := 64

/-- The bytes at `len` consecutive addresses from `src`, target addresses wrapping
at `2 ^ 32`. -/
def mem_bytes (mem : Nat → Nat) (src len : Nat) : List Nat :=
  (List.range len).map (fun i => mem ((src + i) % 4294967296))

/-- Whether one of `len` consecutive target addresses from `addr` faults. -/
def range_faults (fault : Nat → Bool) (addr len : Nat) : Bool :=
  (List.range len).any (fun i => fault ((addr + i) % 4294967296))

/-- Memory after storing `data` at consecutive addresses from `dest`. -/
def store_bytes (mem : Nat → Nat) (dest : Nat) (data : List Nat) : Nat → Nat :=
  fun a =>
    match (List.range data.length).find? (fun i => (dest + i) % 4294967296 == a) with
    | some i => data.getD i 0
    | none => mem a

/-- Modelled from the spec: `target_mem_read`, the read primitive of the target
abstraction ("read arbitrary-length memory by address, with a side-channel
error flag"), called through the accessor installed in the target.  The
probe-local accessor copies from the debugger's own memory. -/
def target_mem_read {σ : Type} (t : target_s σ) (src len : Nat) : List Nat × target_s σ :=
  match t.mem_read with
  | mem_accessor.probe => ((List.range len).map (fun i => t.probe_mem (src + i)), t)
  | mem_accessor.target _ =>
    (mem_bytes t.mem src len, { t with mem_err := t.mem_err || range_faults t.mem_fault src len })

/-- Modelled from the spec: `target_mem_write`, the write primitive of the target
abstraction; the result is `true` when the access failed, and a failed
access stores nothing. -/
def target_mem_write {σ : Type} (t : target_s σ) (dest : Nat) (data : List Nat) :
    Bool × target_s σ :=
  match t.mem_write with
  | mem_accessor.probe =>
    (false, { t with probe_mem := fun a =>
      if dest ≤ a ∧ a < dest + data.length then data.getD (a - dest) 0 else t.probe_mem a })
  | mem_accessor.target _ =>
    if range_faults t.mem_fault dest data.length then (true, { t with mem_err := true })
    else (false, { t with mem := store_bytes t.mem dest data })

/-- Modelled from the spec: `target_check_error` ("memory_access_had_error"), which
reports the error flag and clears it. -/
def target_check_error {σ : Type} (t : target_s σ) : Bool × target_s σ :=
  (t.mem_err, { t with mem_err := false })

/-- The C library `strncmp` on byte strings: compare at most `n` bytes, stopping after
a NUL; a byte past the end of a list reads as NUL. -/
def strncmp : List Nat → List Nat → Nat → Int
  | _, _, 0 => 0
  | a, b, n + 1 =>
    if a.headD 0 ≠ b.headD 0 then (a.headD 0 : Int) - (b.headD 0 : Int)
    else if a.headD 0 = 0 then 0
    else strncmp a.tail b.tail n

/-- The bytes of the string literal `":tt"`. -/
def console_name : List Nat := [58, 116, 116]

/-- Modelled from the spec: `read_be4` of `buffer_utils.h`, the big-endian 32-bit value
at byte offset `offset` of a buffer. -/
def read_be4 (bytes : List Nat) (offset : Nat) : Nat :=
  bytes.getD offset 0 * 16777216 + bytes.getD (offset + 1) 0 * 65536
    + bytes.getD (offset + 2) 0 * 256 + bytes.getD (offset + 3) 0

/-- The C array read `table[i]`.  The source does not check the index; a read past
the end of the table yields `beyond i`, whatever word lies there. -/
def table_at (table : List Nat) (beyond : Nat → Nat) (i : Nat) : Nat :=
  match table[i]? with
  | some v => v
  | none => beyond i

/-! ## Call numbers, error codes, registers and words -/

/-- Modelled from the spec: the call numbers of the call convention.  The header
`semihosting_internal.h` is not among the sources; the values are those of
the ARM semihosting specification, which the positions of the names in
`semihosting_names` repeat. -/
def SEMIHOSTING_SYS_OPEN : Nat := 1

def SEMIHOSTING_SYS_CLOSE : Nat := 2

def SEMIHOSTING_SYS_WRITEC : Nat := 3

def SEMIHOSTING_SYS_WRITE0 : Nat := 4

def SEMIHOSTING_SYS_WRITE : Nat := 5

def SEMIHOSTING_SYS_READ : Nat := 6

def SEMIHOSTING_SYS_READC : Nat := 7

def SEMIHOSTING_SYS_ISERROR : Nat := 8

def SEMIHOSTING_SYS_ISTTY : Nat := 9

def SEMIHOSTING_SYS_SEEK : Nat := 10

def SEMIHOSTING_SYS_FLEN : Nat := 12

def SEMIHOSTING_SYS_TMPNAM : Nat := 13

def SEMIHOSTING_SYS_REMOVE : Nat := 14

def SEMIHOSTING_SYS_RENAME : Nat := 15

def SEMIHOSTING_SYS_CLOCK : Nat := 16

def SEMIHOSTING_SYS_TIME : Nat := 17

def SEMIHOSTING_SYS_SYSTEM : Nat := 18

def SEMIHOSTING_SYS_ERRNO : Nat := 19

def SEMIHOSTING_SYS_GET_CMDLINE : Nat := 21

def SEMIHOSTING_SYS_HEAPINFO : Nat := 22

def SEMIHOSTING_SYS_EXIT : Nat := 24

def SEMIHOSTING_SYS_EXIT_EXTENDED : Nat := 32

def SEMIHOSTING_SYS_ELAPSED : Nat := 48

def SEMIHOSTING_SYS_TICKFREQ : Nat := 49

/-- Modelled from the spec: the canonical error codes of the relay protocol.
`target.h` is not among the sources; the values are those of the GDB
File-I/O protocol. -/
def TARGET_EPERM : Int := 1

def TARGET_ENOENT : Int := 2

def TARGET_EINTR : Int := 4

def TARGET_EIO : Int := 5

def TARGET_EBADF : Int := 9

def TARGET_EACCES : Int := 13

def TARGET_EFAULT : Int := 14

def TARGET_EBUSY : Int := 16

def TARGET_EEXIST : Int := 17

def TARGET_ENODEV : Int := 19

def TARGET_ENOTDIR : Int := 20

def TARGET_EISDIR : Int := 21

def TARGET_EINVAL : Int := 22

def TARGET_ENFILE : Int := 23

def TARGET_EMFILE : Int := 24

def TARGET_EFBIG : Int := 27

def TARGET_ENOSPC : Int := 28

def TARGET_ESPIPE : Int := 29

def TARGET_EROFS : Int := 30

def TARGET_ENOSYS : Int := 88

def TARGET_ENAMETOOLONG : Int := 91

def UINT64_MAX : Nat := 18446744073709551615

/-- The `uint32_t` stored little-endian at byte offset `offset` of a buffer, as the
probe and the host (both little-endian) read a word copied from target
memory. -/
def le_word (bytes : List Nat) (offset : Nat) : Nat :=
  bytes.getD offset 0 % 256 + bytes.getD (offset + 1) 0 % 256 * 256
    + bytes.getD (offset + 2) 0 % 256 * 65536 + bytes.getD (offset + 3) 0 % 256 * 16777216

/-- The four bytes of a `uint32_t` in memory, little-endian. -/
def le_bytes (w : Nat) : List Nat :=
  [w % 256, w / 256 % 256, w / 65536 % 256, w / 16777216 % 256]

/-- Modelled from the spec: `read_be8` of `buffer_utils.h`, the big-endian 64-bit value
at byte offset `offset` of a buffer. -/
def read_be8 (bytes : List Nat) (offset : Nat) : Nat :=
  read_be4 bytes offset * 4294967296 + read_be4 bytes (offset + 4)

/-- The C library `strlen` on a byte array: the number of bytes before the first NUL. -/
def strlen (bytes : List Nat) : Nat := (bytes.takeWhile (fun b => b != 0)).length

/-- Modelled from the spec: `target_reg_read` of the target abstraction, for a 32-bit
core register. -/
def target_reg_read {σ : Type} (t : target_s σ) (reg : Nat) : Nat := t.regs reg % 4294967296

/-- Modelled from the spec: `target_reg_write` of the target abstraction, for a 32-bit
core register. -/
def target_reg_write {σ : Type} (t : target_s σ) (reg : Nat) (value : Nat) : target_s σ :=
  { t with regs := fun r => if r = reg then value % 4294967296 else t.regs r }

/-- Modelled from the spec: `target_mem_read8`, one byte read through `target_mem_read`. -/
def target_mem_read8 {σ : Type} (t : target_s σ) (addr : Nat) : Nat × target_s σ :=
  ((target_mem_read t addr 1).1.headD 0, (target_mem_read t addr 1).2)

/-- Modelled from the spec: `tc_printf` of the exit calls, recorded as an event. -/
def tc_printf {σ : Type} (t : target_s σ) (message : target_event) : target_s σ :=
  { t with events := t.events ++ [message] }

/-- Modelled from the spec: `target_halt_resume` ("request_halt_resume(step)"), recorded as
an event. -/
def target_halt_resume {σ : Type} (t : target_s σ) (step : Bool) : target_s σ :=
  { t with events := t.events ++ [target_event.halt_resume step] }

/-! ## Code common to both builds -/

/-- Modelled from the spec: the type `semihosting_time_s`, whose declaration is not among
the sources: the time of day as microseconds (64 bits) and seconds
(32 bits), in the order the initialisers of `semihosting_get_time` give them. -/
structure semihosting_time_s where
  microseconds : Nat
  seconds : Nat
deriving DecidableEq, Repr

/-- The end of `semihosting_clock`, after the `#endif`, common to both builds: clamp the
origin `time0_sec`, subtract it, convert to centiseconds in 32-bit arithmetic
and mask.  Result: the value returned and the new `time0_sec`. -/
def semihosting_clock_tail (time0_sec seconds microseconds : Nat) : Int × Nat :=
  let time0_sec := if time0_sec > seconds then seconds else time0_sec
  let seconds := to_uint32 ((seconds : Int) - (time0_sec : Int))
  let centiseconds := (seconds * 100 % 4294967296 + microseconds / 10000) % 4294967296
  (to_int32 (centiseconds &&& 2147483647), time0_sec)

/-- The first steps of `cortexm_hostio_request`: clear the interrupted flag, read the call
number from register 0 and register 1, and, unless the call is exit, the
four parameter words at the address in register 1.  For exit the parameter
words are not read (and not used); they stand as zero. -/
def read_request {σ : Type} (t : target_s σ) : semihosting_s × target_s σ :=
  let t0 := { t with tc := { t.tc with interrupted := false } }
  let syscall := target_reg_read t0 0
  let r1 := target_reg_read t0 1
  if syscall ≠ SEMIHOSTING_SYS_EXIT then
    let rd := target_mem_read t0 r1 16
    ({ syscall := syscall, r1 := r1,
       params := ![le_word rd.1 0, le_word rd.1 4, le_word rd.1 8, le_word rd.1 12] }, rd.2)
  else ({ syscall := syscall, r1 := r1, params := ![0, 0, 0, 0] }, t0)

/-- The case `SEMIHOSTING_SYS_GET_CMDLINE` of `cortexm_hostio_request`. -/
def sys_get_cmdline {σ : Type} (t : target_s σ) (request : semihosting_s) : Int × target_s σ :=
  let buf_ptr := request.params 0
  let buf_len := request.params 1
  let cmdline := t.cmdline ++ [0]
  if strlen cmdline + 1 > buf_len then (-1, t)
  else
    let wr := target_mem_write t buf_ptr (cmdline.take (strlen cmdline + 1))
    if wr.1 then (-1, wr.2)
    else
      let retval := le_bytes buf_ptr ++ le_bytes ((strlen cmdline + 1) % 4294967296)
      let wr2 := target_mem_write wr.2 request.r1 retval
      if wr2.1 then (-1, wr2.2) else (0, wr2.2)

/-- The case `SEMIHOSTING_SYS_ISERROR` of `cortexm_hostio_request`. -/
def sys_iserror (request : semihosting_s) : Int :=
  let error := to_int32 (request.params 0)
  if error = TARGET_EPERM ∨ error = TARGET_ENOENT ∨ error = TARGET_EINTR ∨ error = TARGET_EIO ∨
      error = TARGET_EBADF ∨ error = TARGET_EACCES ∨ error = TARGET_EFAULT ∨
      error = TARGET_EBUSY ∨ error = TARGET_EEXIST ∨ error = TARGET_ENODEV ∨
      error = TARGET_ENOTDIR ∨ error = TARGET_EISDIR ∨ error = TARGET_EINVAL ∨
      error = TARGET_ENFILE ∨ error = TARGET_EMFILE ∨ error = TARGET_EFBIG ∨
      error = TARGET_ENOSPC ∨ error = TARGET_ESPIPE ∨ error = TARGET_EROFS ∨
      error = TARGET_ENOSYS ∨ error = TARGET_ENAMETOOLONG ∨ error = (TARGET_EUNKNOWN : Int)
  then 1 else 0

/-- The case `SEMIHOSTING_SYS_HEAPINFO` of `cortexm_hostio_request`; the result of the write
is not looked at and the return value stays 0. -/
def sys_heapinfo {σ : Type} (t : target_s σ) (request : semihosting_s) : Int × target_s σ :=
  (0, (target_mem_write t request.r1 t.heapinfo).2)

/-- The case `SEMIHOSTING_SYS_TMPNAM` of `cortexm_hostio_request`. -/
def sys_tmpnam {σ : Type} (t : target_s σ) (request : semihosting_s) : Int × target_s σ :=
  let buf_ptr := request.params 0
  let target_id := to_int32 (request.params 1)
  let buf_size := to_int32 (request.params 2)
  let fnam : List Nat := [116, 101, 109, 112, 88, 88, 46, 116, 109, 112, 0]
  if buf_ptr = 0 then (-1, t)
  else if buf_size ≤ 0 then (-1, t)
  else if target_id < 0 ∨ target_id > 255 then (-1, t)
  else
    let fnam := fnam.set 5 ((65 + (target_id.toNat &&& 15)) % 256)
    let fnam := fnam.set 4 ((65 + (target_id.toNat >>> 4 &&& 15)) % 256)
    if strlen fnam + 1 > to_uint32 buf_size then (-1, t)
    else
      let wr := target_mem_write t buf_ptr (fnam.take (strlen fnam + 1))
      if wr.1 then (-1, wr.2) else (0, wr.2)

/-! ## The relayed build (`PC_HOSTED == 0`) -/

namespace Probe

/-- The call `gdb_putpacket_f` for a File-I/O request. -/
def gdb_putpacket_f (l : gdb_link) (request : fileio_request) : gdb_link :=
  { l with sent := l.sent ++ [request] }

def hostio_open {σ : Type} (gdb_main_loop : main_loop σ) (t : target_s σ) (l : gdb_link)
    (path path_len flags mode : Nat) : Option (Int × target_s σ × gdb_link) :=
  semihosting_get_gdb_response gdb_main_loop t
    (gdb_putpacket_f l (fileio_request.open path path_len flags mode))

def hostio_close {σ : Type} (gdb_main_loop : main_loop σ) (t : target_s σ) (l : gdb_link)
    (fd : Int) : Option (Int × target_s σ × gdb_link) :=
  semihosting_get_gdb_response gdb_main_loop t (gdb_putpacket_f l (fileio_request.close fd))

def hostio_read {σ : Type} (gdb_main_loop : main_loop σ) (t : target_s σ) (l : gdb_link)
    (fd : Int) (buf count : Nat) : Option (Int × target_s σ × gdb_link) :=
  semihosting_get_gdb_response gdb_main_loop t (gdb_putpacket_f l (fileio_request.read fd buf
      count))

def hostio_write {σ : Type} (gdb_main_loop : main_loop σ) (t : target_s σ) (l : gdb_link)
    (fd : Int) (buf count : Nat) : Option (Int × target_s σ × gdb_link) :=
  semihosting_get_gdb_response gdb_main_loop t (gdb_putpacket_f l (fileio_request.write fd buf
      count))

def hostio_lseek {σ : Type} (gdb_main_loop : main_loop σ) (t : target_s σ) (l : gdb_link)
    (fd : Int) (offset : Int) (flag : Nat) : Option (Int × target_s σ × gdb_link) :=
  semihosting_get_gdb_response gdb_main_loop t
    (gdb_putpacket_f l (fileio_request.lseek fd offset flag))

def hostio_fstat {σ : Type} (gdb_main_loop : main_loop σ) (t : target_s σ) (l : gdb_link)
    (fd : Int) (buf : Nat) : Option (Int × target_s σ × gdb_link) :=
  semihosting_get_gdb_response gdb_main_loop t (gdb_putpacket_f l (fileio_request.fstat fd buf))

def hostio_isatty {σ : Type} (gdb_main_loop : main_loop σ) (t : target_s σ) (l : gdb_link)
    (fd : Int) : Option (Int × target_s σ × gdb_link) :=
  semihosting_get_gdb_response gdb_main_loop t (gdb_putpacket_f l (fileio_request.isatty fd))

/-- The call `debug_serial_send_stdout(tmp, cnt)`. -/
def debug_serial_send_stdout (l : gdb_link) (chunk : List Nat) : gdb_link :=
  { l with serial := l.serial ++ [chunk] }

/-- The `while (count)` loop of `tc_write`; `fuel` bounds the number of iterations and
`none` means it ran out. -/
def tc_write_loop {σ : Type} : Nat → target_s σ → gdb_link → Nat → Nat →
    Option (target_s σ × gdb_link)
  | fuel, t, l, buf, count =>
    if count = 0 then some (t, l)
    else
      match fuel with
      | 0 => none
      | fuel + 1 =>
        let cnt := if STDOUT_READ_BUF_SIZE > count then count else STDOUT_READ_BUF_SIZE
        let rd := target_mem_read t buf cnt
        tc_write_loop fuel rd.2 (debug_serial_send_stdout l rd.1) ((buf + cnt) % 4294967296)
          (count - cnt)

/-- The function `tc_write`: console output goes to the debug serial port when redirected,
any other write is relayed.  Every iteration of the loop consumes at least
one byte, so `count` iterations suffice. -/
def tc_write {σ : Type} (gdb_main_loop : main_loop σ) (t : target_s σ) (l : gdb_link)
    (fd : Int) (buf count : Nat) : Option (Int × target_s σ × gdb_link) :=
  if t.stdout_redirected && (fd == STDOUT_FILENO || fd == STDERR_FILENO) then
    match tc_write_loop count t l buf count with
    | none => none
    | some (t1, l1) => some (0, t1, l1)
  else hostio_write gdb_main_loop t l fd buf count

/-- The table `open_mode_flags` of `semihosting_open`, relayed build. -/
def open_mode_flags : List Nat :=
  [TARGET_O_RDONLY,
   TARGET_O_RDWR,
   TARGET_O_WRONLY ||| TARGET_O_CREAT ||| TARGET_O_TRUNC,
   TARGET_O_RDWR ||| TARGET_O_CREAT ||| TARGET_O_TRUNC,
   TARGET_O_WRONLY ||| TARGET_O_CREAT ||| TARGET_O_APPEND,
   TARGET_O_RDWR ||| TARGET_O_CREAT ||| TARGET_O_APPEND]

/-- The function `semihosting_open`, relayed build. -/
def semihosting_open {σ : Type} (gdb_main_loop : main_loop σ) (beyond : Nat → Nat)
    (t : target_s σ) (l : gdb_link) (request : semihosting_s) :
    Option (Int × target_s σ × gdb_link) :=
  let file_name_taddr := request.params 0
  let file_name_length := request.params 2
  let open_mode := table_at open_mode_flags beyond (request.params 1 >>> 1)
  let rd := target_mem_read t file_name_taddr 4
  if strncmp rd.1 console_name 4 = 0 then
    let result : Int :=
      if open_mode = TARGET_O_RDONLY then STDIN_FILENO
      else if open_mode &&& TARGET_O_TRUNC ≠ 0 then STDOUT_FILENO
      else STDERR_FILENO
    some (result + 1, rd.2, l)
  else
    match hostio_open gdb_main_loop rd.2 l file_name_taddr
        ((file_name_length + 1) % 4294967296) open_mode 420 with
    | none => none
    | some (result, t1, l1) =>
      if result ≠ -1 then some (wrap_int32 (result + 1), t1, l1) else some (result, t1, l1)

/-- The function `semihosting_close`, relayed build. -/
def semihosting_close {σ : Type} (gdb_main_loop : main_loop σ) (t : target_s σ) (l : gdb_link)
    (request : semihosting_s) : Option (Int × target_s σ × gdb_link) :=
  let fd := to_int32 (to_uint32 ((request.params 0 : Int) - 1))
  hostio_close gdb_main_loop t l fd

/-- The function `semihosting_read`, relayed build. -/
def semihosting_read {σ : Type} (gdb_main_loop : main_loop σ) (t : target_s σ) (l : gdb_link)
    (request : semihosting_s) : Option (Int × target_s σ × gdb_link) :=
  let buf_taddr := request.params 1
  if buf_taddr = TARGET_NULL then some (-1, t, l)
  else
    let buf_len := request.params 2
    if buf_len = 0 then some (0, t, l)
    else
      let fd := to_int32 (to_uint32 ((request.params 0 : Int) - 1))
      match hostio_read gdb_main_loop t l fd buf_taddr buf_len with
      | none => none
      | some (result, t1, l1) =>
        if result ≥ 0 then some (to_int32 (to_uint32 ((buf_len : Int) - result)), t1, l1)
        else some (result, t1, l1)

/-- The function `semihosting_write`, relayed build. -/
def semihosting_write {σ : Type} (gdb_main_loop : main_loop σ) (t : target_s σ) (l : gdb_link)
    (request : semihosting_s) : Option (Int × target_s σ × gdb_link) :=
  let fd := to_int32 (to_uint32 ((request.params 0 : Int) - 1))
  let buf_taddr := request.params 1
  if buf_taddr = TARGET_NULL then some (-1, t, l)
  else
    let buf_len := request.params 2
    if buf_len = 0 then some (0, t, l)
    else
      match tc_write gdb_main_loop t l fd buf_taddr buf_len with
      | none => none
      | some (result, t1, l1) =>
        if result ≥ 0 then some (to_int32 (to_uint32 ((buf_len : Int) - result)), t1, l1)
        else some (result, t1, l1)

/-- The function `semihosting_isatty`, relayed build. -/
def semihosting_isatty {σ : Type} (gdb_main_loop : main_loop σ) (t : target_s σ) (l : gdb_link)
    (request : semihosting_s) : Option (Int × target_s σ × gdb_link) :=
  let fd := to_int32 (to_uint32 ((request.params 0 : Int) - 1))
  hostio_isatty gdb_main_loop t l fd

/-- The function `semihosting_seek`, relayed build; `off_t` and `long` are 32 bits wide on the
probe. -/
def semihosting_seek {σ : Type} (gdb_main_loop : main_loop σ) (t : target_s σ) (l : gdb_link)
    (request : semihosting_s) : Option (Int × target_s σ × gdb_link) :=
  let fd := to_int32 (to_uint32 ((request.params 0 : Int) - 1))
  let pos := to_int32 (request.params 1)
  match hostio_lseek gdb_main_loop t l fd pos TARGET_SEEK_SET with
  | none => none
  | some (result, t1, l1) => some (if result = pos then 0 else -1, t1, l1)

/-- The function `semihosting_file_length`, relayed build.  `fio_stat` is the address, in the
probe's memory, of the 64-byte local buffer of that name. -/
def semihosting_file_length {σ : Type} (gdb_main_loop : main_loop σ) (fio_stat : Nat)
    (t : target_s σ) (l : gdb_link) (request : semihosting_s) :
    Option (Int × target_s σ × gdb_link) :=
  let fd := to_int32 (to_uint32 ((request.params 0 : Int) - 1))
  let saved_mem_read := t.mem_read
  let saved_mem_write := t.mem_write
  let t0 := { t with mem_read := mem_accessor.probe, mem_write := mem_accessor.probe }
  match hostio_fstat gdb_main_loop t0 l fd fio_stat with
  | none => none
  | some (stat_result, t1, l1) =>
    let t2 := { t1 with mem_read := saved_mem_read, mem_write := saved_mem_write }
    let bytes := (List.range 64).map (fun i => t2.probe_mem (fio_stat + i))
    let result := read_be4 bytes 32
    let word7_is_zero := (List.range 4).all (fun i => bytes.getD (28 + i) 0 % 256 == 0)
    if stat_result ≠ 0 ∨ ¬ word7_is_zero ∨ result &&& 2147483648 ≠ 0 then some (-1, t2, l1)
    else some (to_int32 result, t2, l1)

def hostio_rename {σ : Type} (gdb_main_loop : main_loop σ) (t : target_s σ) (l : gdb_link)
    (oldpath old_len newpath new_len : Nat) : Option (Int × target_s σ × gdb_link) :=
  semihosting_get_gdb_response gdb_main_loop t
    (gdb_putpacket_f l (fileio_request.rename oldpath old_len newpath new_len))

def hostio_unlink {σ : Type} (gdb_main_loop : main_loop σ) (t : target_s σ) (l : gdb_link)
    (path path_len : Nat) : Option (Int × target_s σ × gdb_link) :=
  semihosting_get_gdb_response gdb_main_loop t (gdb_putpacket_f l (fileio_request.unlink path
      path_len))

def hostio_stat {σ : Type} (gdb_main_loop : main_loop σ) (t : target_s σ) (l : gdb_link)
    (path path_len buf : Nat) : Option (Int × target_s σ × gdb_link) :=
  semihosting_get_gdb_response gdb_main_loop t
    (gdb_putpacket_f l (fileio_request.stat path path_len buf))

def hostio_gettimeofday {σ : Type} (gdb_main_loop : main_loop σ) (t : target_s σ) (l : gdb_link)
    (tv tz : Nat) : Option (Int × target_s σ × gdb_link) :=
  semihosting_get_gdb_response gdb_main_loop t (gdb_putpacket_f l (fileio_request.gettimeofday tv
      tz))

def hostio_system {σ : Type} (gdb_main_loop : main_loop σ) (t : target_s σ) (l : gdb_link)
    (cmd cmd_len : Nat) : Option (Int × target_s σ × gdb_link) :=
  semihosting_get_gdb_response gdb_main_loop t (gdb_putpacket_f l (fileio_request.system cmd
      cmd_len))

/-- The function `semihosting_writec`, relayed build. -/
def semihosting_writec {σ : Type} (gdb_main_loop : main_loop σ) (t : target_s σ) (l : gdb_link)
    (request : semihosting_s) : Option (Int × target_s σ × gdb_link) :=
  let ch_taddr := request.r1
  if ch_taddr = TARGET_NULL then some (-1, t, l)
  else tc_write gdb_main_loop t l STDERR_FILENO ch_taddr 1

/-- The `for` loop of `semihosting_write0`, relayed build: advance to the first NUL, or stop
at a memory error.  `fuel` bounds the number of bytes looked at and `none`
means it ran out.  Result: the end address. -/
def write0_scan {σ : Type} : Nat → target_s σ → Nat → Option (Nat × target_s σ)
  | 0, _, _ => none
  | fuel + 1, t, str_end_taddr =>
    let rd := target_mem_read8 t str_end_taddr
    if rd.1 ≠ 0 then
      let chk := target_check_error rd.2
      if chk.1 then some (str_end_taddr, chk.2)
      else write0_scan fuel chk.2 ((str_end_taddr + 1) % 4294967296)
    else some (str_end_taddr, rd.2)

/-- The function `semihosting_write0`, relayed build. -/
def semihosting_write0 {σ : Type} (gdb_main_loop : main_loop σ) (fuel : Nat) (t : target_s σ)
    (l : gdb_link) (request : semihosting_s) : Option (Int × target_s σ × gdb_link) :=
  let str_begin_taddr := request.r1
  if str_begin_taddr = TARGET_NULL then some (-1, t, l)
  else
    match write0_scan fuel t str_begin_taddr with
    | none => none
    | some (str_end_taddr, t1) =>
      let len := to_int32 (to_uint32 ((str_end_taddr : Int) - (str_begin_taddr : Int)))
      if len ≥ 0 then
        match tc_write gdb_main_loop t1 l STDERR_FILENO str_begin_taddr len.toNat with
        | none => none
        | some (result, t2, l2) => if result ≠ len then some (-1, t2, l2) else some (0, t2, l2)
      else some (0, t1, l)

/-- The function `semihosting_rename`, relayed build. -/
def semihosting_rename {σ : Type} (gdb_main_loop : main_loop σ) (t : target_s σ) (l : gdb_link)
    (request : semihosting_s) : Option (Int × target_s σ × gdb_link) :=
  hostio_rename gdb_main_loop t l (request.params 0) ((request.params 1 + 1) % 4294967296)
    (request.params 2) ((request.params 3 + 1) % 4294967296)

/-- The function `semihosting_remove`, relayed build. -/
def semihosting_remove {σ : Type} (gdb_main_loop : main_loop σ) (t : target_s σ) (l : gdb_link)
    (request : semihosting_s) : Option (Int × target_s σ × gdb_link) :=
  hostio_unlink gdb_main_loop t l (request.params 0) ((request.params 1 + 1) % 4294967296)

/-- The function `semihosting_system`, relayed build. -/
def semihosting_system {σ : Type} (gdb_main_loop : main_loop σ) (t : target_s σ) (l : gdb_link)
    (request : semihosting_s) : Option (Int × target_s σ × gdb_link) :=
  hostio_system gdb_main_loop t l (request.params 0) ((request.params 1 + 1) % 4294967296)

/-- The function `semihosting_get_time`.  `time_value` is the address, in the probe's memory, of
the 12-byte local buffer of that name. -/
def semihosting_get_time {σ : Type} (gdb_main_loop : main_loop σ) (time_value : Nat)
    (t : target_s σ) (l : gdb_link) : Option (semihosting_time_s × target_s σ × gdb_link) :=
  let saved_mem_read := t.mem_read
  let saved_mem_write := t.mem_write
  let t0 := { t with mem_read := mem_accessor.probe, mem_write := mem_accessor.probe }
  match hostio_gettimeofday gdb_main_loop t0 l time_value TARGET_NULL with
  | none => none
  | some (result, t1, l1) =>
    let t2 := { t1 with mem_read := saved_mem_read, mem_write := saved_mem_write }
    if result ≠ 0 then some ({ microseconds := UINT64_MAX, seconds := UINT32_MAX }, t2, l1)
    else
      let bytes := (List.range 12).map (fun i => t2.probe_mem (time_value + i))
      some ({ microseconds := read_be8 bytes 4, seconds := read_be4 bytes 0 }, t2, l1)

/-- The function `semihosting_clock`, relayed build; the last component of the result is the
static `time0_sec` after the call. -/
def semihosting_clock {σ : Type} (gdb_main_loop : main_loop σ) (time_value : Nat)
    (t : target_s σ) (l : gdb_link) (time0_sec : Nat) :
    Option (Int × target_s σ × gdb_link × Nat) :=
  match semihosting_get_time gdb_main_loop time_value t l with
  | none => none
  | some (current_time, t1, l1) =>
    if current_time.seconds = UINT32_MAX ∧ current_time.microseconds = UINT64_MAX then
      some (to_int32 current_time.seconds, t1, l1, time0_sec)
    else
      let seconds := current_time.seconds
      let microseconds := current_time.microseconds % 4294967296
      let r := semihosting_clock_tail time0_sec seconds microseconds
      some (r.1, t1, l1, r.2)

/-- The function `semihosting_time`, relayed build. -/
def semihosting_time {σ : Type} (gdb_main_loop : main_loop σ) (time_value : Nat)
    (t : target_s σ) (l : gdb_link) : Option (Int × target_s σ × gdb_link) :=
  match semihosting_get_time gdb_main_loop time_value t l with
  | none => none
  | some (current_time, t1, l1) => some (to_int32 current_time.seconds, t1, l1)

/-- The function `semihosting_readc`, relayed build.  `ch` is the address, in the probe's memory,
of the local byte of that name, which starts as `?`. -/
def semihosting_readc {σ : Type} (gdb_main_loop : main_loop σ) (ch : Nat) (t : target_s σ)
    (l : gdb_link) : Option (Int × target_s σ × gdb_link) :=
  let saved_mem_read := t.mem_read
  let saved_mem_write := t.mem_write
  let t0 := { t with mem_read := mem_accessor.probe, mem_write := mem_accessor.probe,
                     probe_mem := fun a => if a = ch then 63 else t.probe_mem a }
  match hostio_read gdb_main_loop t0 l STDIN_FILENO ch 1 with
  | none => none
  | some (result, t1, l1) =>
    let t2 := { t1 with mem_read := saved_mem_read, mem_write := saved_mem_write }
    if result = 1 then some ((t2.probe_mem ch % 256 : Nat), t2, l1) else some (-1, t2, l1)

/-- What the relayed handlers need besides the target and the link: the words
that follow the open-mode table and the addresses of the local buffers. -/
structure probe_locals where
  beyond : Nat → Nat
  fio_stat : Nat
  time_value : Nat
  ch : Nat

/-- The `switch` of `cortexm_hostio_request`, relayed build: the return value `ret`, the target,
the link and `time0_sec` after the handler. -/
def dispatch {σ : Type} (gdb_main_loop : main_loop σ) (env : probe_locals) (fuel : Nat)
    (t : target_s σ) (l : gdb_link) (time0_sec : Nat) (request : semihosting_s) :
    Option (Int × target_s σ × gdb_link × Nat) :=
  let keep := fun (x : Int × target_s σ × gdb_link) => (x.1, x.2.1, x.2.2, time0_sec)
  if request.syscall = SEMIHOSTING_SYS_OPEN then
    (semihosting_open gdb_main_loop env.beyond t l request).map keep
  else if request.syscall = SEMIHOSTING_SYS_CLOSE then
    (semihosting_close gdb_main_loop t l request).map keep
  else if request.syscall = SEMIHOSTING_SYS_READ then
    (semihosting_read gdb_main_loop t l request).map keep
  else if request.syscall = SEMIHOSTING_SYS_WRITE then
    (semihosting_write gdb_main_loop t l request).map keep
  else if request.syscall = SEMIHOSTING_SYS_WRITEC then
    (semihosting_writec gdb_main_loop t l request).map keep
  else if request.syscall = SEMIHOSTING_SYS_WRITE0 then
    (semihosting_write0 gdb_main_loop fuel t l request).map keep
  else if request.syscall = SEMIHOSTING_SYS_ISTTY then
    (semihosting_isatty gdb_main_loop t l request).map keep
  else if request.syscall = SEMIHOSTING_SYS_SEEK then
    (semihosting_seek gdb_main_loop t l request).map keep
  else if request.syscall = SEMIHOSTING_SYS_RENAME then
    (semihosting_rename gdb_main_loop t l request).map keep
  else if request.syscall = SEMIHOSTING_SYS_REMOVE then
    (semihosting_remove gdb_main_loop t l request).map keep
  else if request.syscall = SEMIHOSTING_SYS_SYSTEM then
    (semihosting_system gdb_main_loop t l request).map keep
  else if request.syscall = SEMIHOSTING_SYS_FLEN then
    (semihosting_file_length gdb_main_loop env.fio_stat t l request).map keep
  else if request.syscall = SEMIHOSTING_SYS_CLOCK then
    semihosting_clock gdb_main_loop env.time_value t l time0_sec
  else if request.syscall = SEMIHOSTING_SYS_TIME then
    (semihosting_time gdb_main_loop env.time_value t l).map keep
  else if request.syscall = SEMIHOSTING_SYS_READC then
    (semihosting_readc gdb_main_loop env.ch t l).map keep
  else if request.syscall = SEMIHOSTING_SYS_ERRNO then
    some (to_int32 t.tc.errno_, t, l, time0_sec)
  else if request.syscall = SEMIHOSTING_SYS_EXIT then
    some (0, target_halt_resume (tc_printf t (target_event.printf_exit request.r1)) true, l,
      time0_sec)
  else if request.syscall = SEMIHOSTING_SYS_EXIT_EXTENDED then
    some (0, target_halt_resume (tc_printf t
      (target_event.printf_exit_extended (request.params 1) (request.params 0))) true, l, time0_sec)
  else if request.syscall = SEMIHOSTING_SYS_GET_CMDLINE then
    some ((sys_get_cmdline t request).1, (sys_get_cmdline t request).2, l, time0_sec)
  else if request.syscall = SEMIHOSTING_SYS_ISERROR then
    some (sys_iserror request, t, l, time0_sec)
  else if request.syscall = SEMIHOSTING_SYS_HEAPINFO then
    some ((sys_heapinfo t request).1, (sys_heapinfo t request).2, l, time0_sec)
  else if request.syscall = SEMIHOSTING_SYS_TMPNAM then
    some ((sys_tmpnam t request).1, (sys_tmpnam t request).2, l, time0_sec)
  else if request.syscall = SEMIHOSTING_SYS_ELAPSED ∨
      request.syscall = SEMIHOSTING_SYS_TICKFREQ then
    some (-1, t, l, time0_sec)
  else some (0, t, l, time0_sec)

/-- The function `cortexm_hostio_request`, relayed build: decode the request, dispatch, write
the result to register 0 and return the interrupted flag.  The other
components of the result are the target, the link and `time0_sec` after the
call. -/
def cortexm_hostio_request {σ : Type} (gdb_main_loop : main_loop σ) (env : probe_locals)
    (fuel : Nat) (t : target_s σ) (l : gdb_link) (time0_sec : Nat) :
    Option (Bool × target_s σ × gdb_link × Nat) :=
  let rq := read_request t
  match dispatch gdb_main_loop env fuel rq.2 l time0_sec rq.1 with
  | none => none
  | some (ret, t1, l1, time0) =>
    some (t1.tc.interrupted, target_reg_write t1 0 (to_uint32 ret), l1, time0)

end Probe

/-! ## The direct build (`PC_HOSTED == 1`) -/

namespace Hosted

/-- A call of the host's C library made by a handler, with its arguments. -/
inductive os_call where
  | malloc (size : Nat)
  | open (file_name : List Nat) (flags mode : Nat)
  | close (fd : Int)
  | read (fd : Int) (count : Nat)
  | write (fd : Int) (data : List Nat)
  | isatty (fd : Int)
  | lseek (fd : Int) (offset : Int) (whence : Nat)
  | fstat (fd : Int)
  | fputc_stderr (ch : Nat)
  | rename (old_file_name new_file_name : List Nat)
  | remove (file_name : List Nat)
  | system (cmd : List Nat)
  | gettimeofday
  | time
  | getchar
deriving DecidableEq, Repr

/-- The host operating system, as far as the handlers observe it.  Each answer may
depend on the calls made so far: `ret` is a call's return value, `block` the
initial contents of a block `malloc` hands out (`none` when it fails),
`read_data` the bytes a successful `read` stores, `st_size` the size
`fstat` reports, `tv` the pair `tv_sec`, `tv_usec` that `gettimeofday` stores
and `errno` the value of the C library `errno`. -/
structure host_os where
  ret : List os_call → os_call → Int
  block : List os_call → Nat → Option (List Nat)
  read_data : List os_call → Int → Nat → List Nat
  st_size : List os_call → Int → Int
  tv : List os_call → Int × Int
  errno : List os_call → Int

/-- The characters of a byte buffer read as a C string. -/
def c_string (bytes : List Nat) : List Nat := bytes.takeWhile (fun b => b != 0)

/-- The function `semihosting_read_string`: the string at `string_taddr`, or `none` for `NULL`. -/
def semihosting_read_string {σ : Type} (os : host_os) (t : target_s σ) (calls : List os_call)
    (string_taddr string_length : Nat) : Option (List Nat) × target_s σ × List os_call :=
  if string_taddr = TARGET_NULL ∨ string_length = 0 then (none, t, calls)
  else
    let size := (string_length + 1) % 4294967296
    match os.block calls size with
    | none => (none, t, calls ++ [os_call.malloc size])
    | some _ =>
      let rd := target_mem_read t string_taddr size
      let chk := target_check_error rd.2
      if chk.1 then (none, chk.2, calls ++ [os_call.malloc size])
      else (some (c_string (rd.1.take string_length)), chk.2, calls ++ [os_call.malloc size])

/-- The table `open_mode_flags` of `semihosting_open`, direct build. -/
def open_mode_flags : List Nat :=
  [O_RDONLY,
   O_RDWR,
   O_WRONLY ||| O_CREAT ||| O_TRUNC,
   O_RDWR ||| O_CREAT ||| O_TRUNC,
   O_WRONLY ||| O_CREAT ||| O_APPEND,
   O_RDWR ||| O_CREAT ||| O_APPEND]

/-- The function `semihosting_open`, direct build. -/
def semihosting_open {σ : Type} (os : host_os) (beyond : Nat → Nat) (t : target_s σ)
    (calls : List os_call) (request : semihosting_s) : Int × target_s σ × List os_call :=
  let file_name_taddr := request.params 0
  let file_name_length := request.params 2
  let open_mode := table_at open_mode_flags beyond (request.params 1 >>> 1)
  let rd := target_mem_read t file_name_taddr 4
  if strncmp rd.1 console_name 4 = 0 then
    let result : Int :=
      if open_mode = TARGET_O_RDONLY then STDIN_FILENO
      else if open_mode &&& TARGET_O_TRUNC ≠ 0 then STDOUT_FILENO
      else STDERR_FILENO
    (result + 1, rd.2, calls)
  else
    match semihosting_read_string os rd.2 calls file_name_taddr file_name_length with
    | (none, t1, calls1) => (-1, t1, calls1)
    | (some file_name, t1, calls1) =>
      let call := os_call.open file_name open_mode 420
      let result := wrap_int32 (os.ret calls1 call)
      if result ≠ -1 then (wrap_int32 (result + 1), t1, calls1 ++ [call])
      else (result, t1, calls1 ++ [call])

/-- The function `semihosting_close`, direct build. -/
def semihosting_close {σ : Type} (os : host_os) (t : target_s σ) (calls : List os_call)
    (request : semihosting_s) : Int × target_s σ × List os_call :=
  let fd := to_int32 (to_uint32 ((request.params 0 : Int) - 1))
  (wrap_int32 (os.ret calls (os_call.close fd)), t, calls ++ [os_call.close fd])

/-- The function `semihosting_read`, direct build; `ssize_t` is wider than 32 bits on the host. -/
def semihosting_read {σ : Type} (os : host_os) (t : target_s σ) (calls : List os_call)
    (request : semihosting_s) : Int × target_s σ × List os_call :=
  let buf_taddr := request.params 1
  if buf_taddr = TARGET_NULL then (-1, t, calls)
  else
    let buf_len := request.params 2
    if buf_len = 0 then (0, t, calls)
    else
      let fd := to_int32 (to_uint32 ((request.params 0 : Int) - 1))
      match os.block calls buf_len with
      | none => (-1, t, calls ++ [os_call.malloc buf_len])
      | some garbage =>
        let calls1 := calls ++ [os_call.malloc buf_len]
        let call := os_call.read fd buf_len
        let result := os.ret calls1 call
        let data := (os.read_data calls1 fd buf_len).take result.toNat
        let buf := (data ++ garbage.drop data.length).take buf_len
        let wr := target_mem_write t buf_taddr buf
        let chk := target_check_error wr.2
        if chk.1 then (-1, chk.2, calls1 ++ [call])
        else if result ≥ 0 then (wrap_int32 ((buf_len : Int) - result), chk.2, calls1 ++ [call])
        else (wrap_int32 result, chk.2, calls1 ++ [call])

/-- The function `semihosting_write`, direct build. -/
def semihosting_write {σ : Type} (os : host_os) (t : target_s σ) (calls : List os_call)
    (request : semihosting_s) : Int × target_s σ × List os_call :=
  let fd := to_int32 (to_uint32 ((request.params 0 : Int) - 1))
  let buf_taddr := request.params 1
  if buf_taddr = TARGET_NULL then (-1, t, calls)
  else
    let buf_len := request.params 2
    if buf_len = 0 then (0, t, calls)
    else
      match os.block calls buf_len with
      | none => (-1, t, calls ++ [os_call.malloc buf_len])
      | some _ =>
        let calls1 := calls ++ [os_call.malloc buf_len]
        let rd := target_mem_read t buf_taddr buf_len
        let chk := target_check_error rd.2
        if chk.1 then (-1, chk.2, calls1)
        else
          let call := os_call.write fd rd.1
          let result := wrap_int32 (os.ret calls1 call)
          if result ≥ 0 then (to_int32 (to_uint32 ((buf_len : Int) - result)), chk.2, calls1 ++
              [call])
          else (result, chk.2, calls1 ++ [call])

/-- The function `semihosting_isatty`, direct build. -/
def semihosting_isatty {σ : Type} (os : host_os) (t : target_s σ) (calls : List os_call)
    (request : semihosting_s) : Int × target_s σ × List os_call :=
  let fd := to_int32 (to_uint32 ((request.params 0 : Int) - 1))
  (wrap_int32 (os.ret calls (os_call.isatty fd)), t, calls ++ [os_call.isatty fd])

/-- The function `semihosting_seek`, direct build; `off_t` is wider than 32 bits on the host. -/
def semihosting_seek {σ : Type} (os : host_os) (t : target_s σ) (calls : List os_call)
    (request : semihosting_s) : Int × target_s σ × List os_call :=
  let fd := to_int32 (to_uint32 ((request.params 0 : Int) - 1))
  let pos : Int := request.params 1
  let call := os_call.lseek fd pos SEEK_SET
  (if os.ret calls call = pos then 0 else -1, t, calls ++ [call])

/-- The function `semihosting_file_length`, direct build. -/
def semihosting_file_length {σ : Type} (os : host_os) (t : target_s σ) (calls : List os_call)
    (request : semihosting_s) : Int × target_s σ × List os_call :=
  let fd := to_int32 (to_uint32 ((request.params 0 : Int) - 1))
  let call := os_call.fstat fd
  if os.ret calls call ≠ 0 ∨ os.st_size calls fd > INT32_MAX then (-1, t, calls ++ [call])
  else (wrap_int32 (os.st_size calls fd), t, calls ++ [call])

/-- The function `semihosting_writec`, direct build. -/
def semihosting_writec {σ : Type} (t : target_s σ) (calls : List os_call)
    (request : semihosting_s) : Int × target_s σ × List os_call :=
  let ch_taddr := request.r1
  if ch_taddr = TARGET_NULL then (-1, t, calls)
  else
    let rd := target_mem_read8 t ch_taddr
    let chk := target_check_error rd.2
    if chk.1 then (-1, chk.2, calls)
    else (0, chk.2, calls ++ [os_call.fputc_stderr rd.1])

/-- The `for` loop of `semihosting_write0`, direct build: print the bytes up to the first NUL,
or stop at a memory error.  `fuel` bounds the number of bytes looked at and
`none` means it ran out. -/
def write0_loop {σ : Type} : Nat → target_s σ → List os_call → Nat →
    Option (target_s σ × List os_call)
  | 0, _, _, _ => none
  | fuel + 1, t, calls, char_taddr =>
    let chk := target_check_error t
    if chk.1 then some (chk.2, calls)
    else
      let rd := target_mem_read8 chk.2 char_taddr
      if rd.1 = 0 then some (rd.2, calls)
      else write0_loop fuel rd.2 (calls ++ [os_call.fputc_stderr rd.1])
        ((char_taddr + 1) % 4294967296)

/-- The function `semihosting_write0`, direct build. -/
def semihosting_write0 {σ : Type} (fuel : Nat) (t : target_s σ) (calls : List os_call)
    (request : semihosting_s) : Option (Int × target_s σ × List os_call) :=
  let str_begin_taddr := request.r1
  if str_begin_taddr = TARGET_NULL then some (-1, t, calls)
  else
    match write0_loop fuel t calls str_begin_taddr with
    | none => none
    | some (t1, calls1) => some (0, t1, calls1)

/-- The function `semihosting_rename`, direct build. -/
def semihosting_rename {σ : Type} (os : host_os) (t : target_s σ) (calls : List os_call)
    (request : semihosting_s) : Int × target_s σ × List os_call :=
  match semihosting_read_string os t calls (request.params 0) (request.params 1) with
  | (none, t1, calls1) => (-1, t1, calls1)
  | (some old_file_name, t1, calls1) =>
    match semihosting_read_string os t1 calls1 (request.params 2) (request.params 3) with
    | (none, t2, calls2) => (-1, t2, calls2)
    | (some new_file_name, t2, calls2) =>
      let call := os_call.rename old_file_name new_file_name
      (wrap_int32 (os.ret calls2 call), t2, calls2 ++ [call])

/-- The function `semihosting_remove`, direct build. -/
def semihosting_remove {σ : Type} (os : host_os) (t : target_s σ) (calls : List os_call)
    (request : semihosting_s) : Int × target_s σ × List os_call :=
  match semihosting_read_string os t calls (request.params 0) (request.params 1) with
  | (none, t1, calls1) => (-1, t1, calls1)
  | (some file_name, t1, calls1) =>
    let call := os_call.remove file_name
    (wrap_int32 (os.ret calls1 call), t1, calls1 ++ [call])

/-- The function `semihosting_system`, direct build. -/
def semihosting_system {σ : Type} (os : host_os) (t : target_s σ) (calls : List os_call)
    (request : semihosting_s) : Int × target_s σ × List os_call :=
  match semihosting_read_string os t calls (request.params 0) (request.params 1) with
  | (none, t1, calls1) => (-1, t1, calls1)
  | (some cmd, t1, calls1) =>
    let call := os_call.system cmd
    (wrap_int32 (os.ret calls1 call), t1, calls1 ++ [call])

/-- The function `semihosting_clock`, direct build; the last component of the result is the
static `time0_sec` after the call. -/
def semihosting_clock {σ : Type} (os : host_os) (t : target_s σ) (calls : List os_call)
    (time0_sec : Nat) : Int × target_s σ × List os_call × Nat :=
  if os.ret calls os_call.gettimeofday ≠ 0 then (-1, t, calls ++ [os_call.gettimeofday], time0_sec)
  else
    let seconds := to_uint32 (os.tv calls).1
    let microseconds := to_uint32 (os.tv calls).2
    let r := semihosting_clock_tail time0_sec seconds microseconds
    (r.1, t, calls ++ [os_call.gettimeofday], r.2)

/-- The function `semihosting_time`, direct build. -/
def semihosting_time {σ : Type} (os : host_os) (t : target_s σ) (calls : List os_call) :
    Int × target_s σ × List os_call :=
  (wrap_int32 (os.ret calls os_call.time), t, calls ++ [os_call.time])

/-- The function `semihosting_readc`, direct build. -/
def semihosting_readc {σ : Type} (os : host_os) (t : target_s σ) (calls : List os_call) :
    Int × target_s σ × List os_call :=
  (wrap_int32 (os.ret calls os_call.getchar), t, calls ++ [os_call.getchar])

/-- The `switch` of `cortexm_hostio_request`, direct build: the return value `ret`, the target,
the host calls made and `time0_sec` after the handler. -/
def dispatch {σ : Type} (os : host_os) (beyond : Nat → Nat) (fuel : Nat) (t : target_s σ)
    (calls : List os_call) (time0_sec : Nat) (request : semihosting_s) :
    Option (Int × target_s σ × List os_call × Nat) :=
  let keep := fun (x : Int × target_s σ × List os_call) => (x.1, x.2.1, x.2.2, time0_sec)
  if request.syscall = SEMIHOSTING_SYS_OPEN then
    some (keep (semihosting_open os beyond t calls request))
  else if request.syscall = SEMIHOSTING_SYS_CLOSE then
    some (keep (semihosting_close os t calls request))
  else if request.syscall = SEMIHOSTING_SYS_READ then
    some (keep (semihosting_read os t calls request))
  else if request.syscall = SEMIHOSTING_SYS_WRITE then
    some (keep (semihosting_write os t calls request))
  else if request.syscall = SEMIHOSTING_SYS_WRITEC then
    some (keep (semihosting_writec t calls request))
  else if request.syscall = SEMIHOSTING_SYS_WRITE0 then
    (semihosting_write0 fuel t calls request).map keep
  else if request.syscall = SEMIHOSTING_SYS_ISTTY then
    some (keep (semihosting_isatty os t calls request))
  else if request.syscall = SEMIHOSTING_SYS_SEEK then
    some (keep (semihosting_seek os t calls request))
  else if request.syscall = SEMIHOSTING_SYS_RENAME then
    some (keep (semihosting_rename os t calls request))
  else if request.syscall = SEMIHOSTING_SYS_REMOVE then
    some (keep (semihosting_remove os t calls request))
  else if request.syscall = SEMIHOSTING_SYS_SYSTEM then
    some (keep (semihosting_system os t calls request))
  else if request.syscall = SEMIHOSTING_SYS_FLEN then
    some (keep (semihosting_file_length os t calls request))
  else if request.syscall = SEMIHOSTING_SYS_CLOCK then
    some (semihosting_clock os t calls time0_sec)
  else if request.syscall = SEMIHOSTING_SYS_TIME then
    some (keep (semihosting_time os t calls))
  else if request.syscall = SEMIHOSTING_SYS_READC then
    some (keep (semihosting_readc os t calls))
  else if request.syscall = SEMIHOSTING_SYS_ERRNO then
    some (wrap_int32 (os.errno calls), t, calls, time0_sec)
  else if request.syscall = SEMIHOSTING_SYS_EXIT then
    some (0, target_halt_resume (tc_printf t (target_event.printf_exit request.r1)) true, calls,
      time0_sec)
  else if request.syscall = SEMIHOSTING_SYS_EXIT_EXTENDED then
    some (0, target_halt_resume (tc_printf t
      (target_event.printf_exit_extended (request.params 1) (request.params 0))) true, calls,
      time0_sec)
  else if request.syscall = SEMIHOSTING_SYS_GET_CMDLINE then
    some ((sys_get_cmdline t request).1, (sys_get_cmdline t request).2, calls, time0_sec)
  else if request.syscall = SEMIHOSTING_SYS_ISERROR then
    some (sys_iserror request, t, calls, time0_sec)
  else if request.syscall = SEMIHOSTING_SYS_HEAPINFO then
    some ((sys_heapinfo t request).1, (sys_heapinfo t request).2, calls, time0_sec)
  else if request.syscall = SEMIHOSTING_SYS_TMPNAM then
    some ((sys_tmpnam t request).1, (sys_tmpnam t request).2, calls, time0_sec)
  else if request.syscall = SEMIHOSTING_SYS_ELAPSED ∨
      request.syscall = SEMIHOSTING_SYS_TICKFREQ then
    some (-1, t, calls, time0_sec)
  else some (0, t, calls, time0_sec)

/-- The function `cortexm_hostio_request`, direct build: decode the request, dispatch, write
the result to register 0 and return the interrupted flag.  The other
components of the result are the target, the host calls made and
`time0_sec` after the call. -/
def cortexm_hostio_request {σ : Type} (os : host_os) (beyond : Nat → Nat) (fuel : Nat)
    (t : target_s σ) (calls : List os_call) (time0_sec : Nat) :
    Option (Bool × target_s σ × List os_call × Nat) :=
  let rq := read_request t
  match dispatch os beyond fuel rq.2 calls time0_sec rq.1 with
  | none => none
  | some (ret, t1, calls1, time0) =>
    some (t1.tc.interrupted, target_reg_write t1 0 (to_uint32 ret), calls1, time0)

end Hosted

/-! ## The ESP32-C3 watchdogs (`src/target/esp32c3.c`) -/

def ESP32_C3_RTC_BASE : Nat := 0x60008000

def ESP32_C3_RTC_WDT_CONFIG0 : Nat := ESP32_C3_RTC_BASE + 0x090

def ESP32_C3_RTC_WDT_WRITE_PROT : Nat := ESP32_C3_RTC_BASE + 0x0a8

def ESP32_C3_RTC_SWD_CONFIG : Nat := ESP32_C3_RTC_BASE + 0x0ac

def ESP32_C3_RTC_SWD_WRITE_PROT : Nat := ESP32_C3_RTC_BASE + 0x0b0

def ESP32_C3_WDT_WRITE_PROT_KEY : Nat := 0x50d83aa1

def ESP32_C3_RTC_SWD_WRITE_PROT_KEY : Nat := 0x8f1d312a

def ESP32_C3_RTC_SWD_CONFIG_DISABLE : Nat := 0x40000002

def ESP32_C3_TIMG0_BASE : Nat := 0x6001f000

def ESP32_C3_TIMG0_WDT_CONFIG0 : Nat := ESP32_C3_TIMG0_BASE + 0x048

def ESP32_C3_TIMG0_WDT_WRITE_PROT : Nat := ESP32_C3_TIMG0_BASE + 0x064

def ESP32_C3_TIMG1_BASE : Nat := 0x60020000

def ESP32_C3_TIMG1_WDT_CONFIG0 : Nat := ESP32_C3_TIMG1_BASE + 0x048

def ESP32_C3_TIMG1_WDT_WRITE_PROT : Nat := ESP32_C3_TIMG1_BASE + 0x064

/-- The private structure `esp32c3_priv_s`, which `target->target_storage` points to: the
four saved watchdog configuration words. -/
structure esp32c3_priv_s where
  wdt_config : Fin 4 → Nat

/-- Modelled from the spec: `target_mem_write32`, a little-endian 32-bit store through
`target_mem_write`; the caller does not look at the result. -/
def target_mem_write32 {σ : Type} (t : target_s σ) (addr value : Nat) : target_s σ :=
  (target_mem_write t addr (le_bytes value)).2

/-- Modelled from the spec: `target_mem_read32`, a little-endian 32-bit load through
`target_mem_read`. -/
def target_mem_read32 {σ : Type} (t : target_s σ) (addr : Nat) : Nat × target_s σ :=
  (le_word (target_mem_read t addr 4).1 0, (target_mem_read t addr 4).2)

/-- Modelled from the spec: `riscv_halt_resume` of the RISC-V debug support, recorded as
an event. -/
def riscv_halt_resume {σ : Type} (t : target_s σ) (step : Bool) : target_s σ :=
  { t with events := t.events ++ [target_event.halt_resume step] }

/-- The function `esp32c3_disable_wdts`: unlock each watchdog, save its configuration word
and write the disabling value. -/
def esp32c3_disable_wdts {σ : Type} (t : target_s σ) (priv : esp32c3_priv_s) :
    target_s σ × esp32c3_priv_s :=
  let t := target_mem_write32 t ESP32_C3_TIMG0_WDT_WRITE_PROT ESP32_C3_WDT_WRITE_PROT_KEY
  let rd := target_mem_read32 t ESP32_C3_TIMG0_WDT_CONFIG0
  let priv := { priv with wdt_config := Function.update priv.wdt_config 0 rd.1 }
  let t := target_mem_write32 rd.2 ESP32_C3_TIMG0_WDT_CONFIG0 0
  let t := target_mem_write32 t ESP32_C3_TIMG1_WDT_WRITE_PROT ESP32_C3_WDT_WRITE_PROT_KEY
  let rd := target_mem_read32 t ESP32_C3_TIMG1_WDT_CONFIG0
  let priv := { priv with wdt_config := Function.update priv.wdt_config 1 rd.1 }
  let t := target_mem_write32 rd.2 ESP32_C3_TIMG1_WDT_CONFIG0 0
  let t := target_mem_write32 t ESP32_C3_RTC_WDT_WRITE_PROT ESP32_C3_WDT_WRITE_PROT_KEY
  let rd := target_mem_read32 t ESP32_C3_RTC_WDT_CONFIG0
  let priv := { priv with wdt_config := Function.update priv.wdt_config 2 rd.1 }
  let t := target_mem_write32 rd.2 ESP32_C3_RTC_WDT_CONFIG0 0
  let t := target_mem_write32 t ESP32_C3_RTC_SWD_WRITE_PROT ESP32_C3_RTC_SWD_WRITE_PROT_KEY
  let rd := target_mem_read32 t ESP32_C3_RTC_SWD_CONFIG
  let priv := { priv with wdt_config := Function.update priv.wdt_config 3 rd.1 }
  let t := target_mem_write32 rd.2 ESP32_C3_RTC_SWD_CONFIG ESP32_C3_RTC_SWD_CONFIG_DISABLE
  (t, priv)

/-- The function `esp32c3_restore_wdts`: write the saved words back and lock each watchdog. -/
def esp32c3_restore_wdts {σ : Type} (t : target_s σ) (priv : esp32c3_priv_s) : target_s σ :=
  let t := target_mem_write32 t ESP32_C3_TIMG0_WDT_CONFIG0 (priv.wdt_config 0)
  let t := target_mem_write32 t ESP32_C3_TIMG0_WDT_WRITE_PROT 0
  let t := target_mem_write32 t ESP32_C3_TIMG1_WDT_CONFIG0 (priv.wdt_config 1)
  let t := target_mem_write32 t ESP32_C3_TIMG1_WDT_WRITE_PROT 0
  let t := target_mem_write32 t ESP32_C3_RTC_WDT_CONFIG0 (priv.wdt_config 2)
  let t := target_mem_write32 t ESP32_C3_RTC_WDT_WRITE_PROT 0
  let t := target_mem_write32 t ESP32_C3_RTC_SWD_CONFIG (priv.wdt_config 2)
  let t := target_mem_write32 t ESP32_C3_RTC_SWD_WRITE_PROT 0
  t

/-- The function `esp32c3_halt_resume`. -/
def esp32c3_halt_resume {σ : Type} (t : target_s σ) (priv : esp32c3_priv_s) (step : Bool) :
    target_s σ :=
  let t := if !step then esp32c3_restore_wdts t priv else t
  riscv_halt_resume t step


/-! ## The open-mode table, as the specification words it -/

/-- Entry `i` of the Open-Mode Table of the specification, over the flag values of a
build: 0 read-only, 1 read-write, 2 write-only + create + truncate,
3 read-write + create + truncate, 4 write-only + create + append,
5 read-write + create + append. -/
def open_mode_entry (rdonly wronly rdwr creat trunc append : Nat) (i : Nat) : Nat :=
  match i with
  | 0 => rdonly
  | 1 => rdwr
  | 2 => wronly ||| creat ||| trunc
  | 3 => rdwr ||| creat ||| trunc
  | 4 => wronly ||| creat ||| append
  | _ => rdwr ||| creat ||| append

/-! ## Runs of clock queries, as the specification words them -/

/-- A sequence of successful clock queries: each observation is a pair of wall-clock
seconds and microseconds, handed in order to the end of `semihosting_clock`
starting from the origin `time0_sec`.  Result: the values returned, in order,
and the origin after the last query. -/
def clock_queries (time0_sec : Nat) : List (Nat × Nat) → List Int × Nat
  | [] => ([], time0_sec)
  | observation :: rest =>
    ((semihosting_clock_tail time0_sec observation.1 observation.2).1
        :: (clock_queries (semihosting_clock_tail time0_sec observation.1 observation.2).2 rest).1,
      (clock_queries (semihosting_clock_tail time0_sec observation.1 observation.2).2 rest).2)

/-! ## The temporary name, as the specification words it -/

/-- The 11 bytes `temp`, c1, c2, `.tmp`, NUL of the specification, with
`c1 = 'A' + (id >> 4)` and `c2 = 'A' + (id & 15)`. -/
def tmpnam_name (id : Nat) : List Nat :=
  [116, 101, 109, 112, 65 + id >>> 4, 65 + (id &&& 15), 46, 116, 109, 112, 0]

/-! ## The canonical error codes, as the specification words them -/

/-- The 22 canonical error codes of the specification. -/
def canonical_errors : List Int :=
  [TARGET_EPERM, TARGET_ENOENT, TARGET_EINTR, TARGET_EIO, TARGET_EBADF, TARGET_EACCES,
   TARGET_EFAULT, TARGET_EBUSY, TARGET_EEXIST, TARGET_ENODEV, TARGET_ENOTDIR, TARGET_EISDIR,
   TARGET_EINVAL, TARGET_ENFILE, TARGET_EMFILE, TARGET_EFBIG, TARGET_ENOSPC, TARGET_ESPIPE,
   TARGET_EROFS, TARGET_ENOSYS, TARGET_ENAMETOOLONG, (TARGET_EUNKNOWN : Int)]

/-! ## The handled calls, as the specification words them -/

/-- The call identifiers `cortexm_hostio_request` has a case for. -/
def handled_calls : List Nat :=
  [SEMIHOSTING_SYS_OPEN, SEMIHOSTING_SYS_CLOSE, SEMIHOSTING_SYS_WRITEC, SEMIHOSTING_SYS_WRITE0,
   SEMIHOSTING_SYS_WRITE, SEMIHOSTING_SYS_READ, SEMIHOSTING_SYS_READC, SEMIHOSTING_SYS_ISERROR,
   SEMIHOSTING_SYS_ISTTY, SEMIHOSTING_SYS_SEEK, SEMIHOSTING_SYS_FLEN, SEMIHOSTING_SYS_TMPNAM,
   SEMIHOSTING_SYS_REMOVE, SEMIHOSTING_SYS_RENAME, SEMIHOSTING_SYS_CLOCK, SEMIHOSTING_SYS_TIME,
   SEMIHOSTING_SYS_SYSTEM, SEMIHOSTING_SYS_ERRNO, SEMIHOSTING_SYS_GET_CMDLINE,
   SEMIHOSTING_SYS_HEAPINFO, SEMIHOSTING_SYS_EXIT, SEMIHOSTING_SYS_EXIT_EXTENDED,
   SEMIHOSTING_SYS_ELAPSED, SEMIHOSTING_SYS_TICKFREQ]


/-! ## Sample states for the worked examples -/

/-- A halted target with zeroed memory, no fault, no call outstanding. -/
def sample_target : target_s Unit :=
  { tc := { interrupted := false, errno_ := 0 }, stdout_redirected := false,
    mem := fun _ => 0, mem_fault := fun _ => false, mem_err := false,
    mem_read := mem_accessor.target 0, mem_write := mem_accessor.target 0,
    probe_mem := fun _ => 0, regs := fun _ => 0, cmdline := [], heapinfo := List.replicate 16 0,
    events := [], ext := () }

/-- A link with nothing received and nothing sent. -/
def sample_link : gdb_link := { inbound := [], sent := [], forwarded := [], serial := [] }

/-- A handler for ordinary packets that answers 0 and changes nothing. -/
def sample_other : main_loop Unit :=
  fun t packet_buffer _ => { result := 0, packet_buffer := packet_buffer, target := t }

/-- A request with the given call number and parameter words, register 1 zero. -/
def sample_request (syscall p0 p1 p2 p3 : Nat) : semihosting_s :=
  { syscall := syscall, r1 := 0, params := ![p0, p1, p2, p3] }

/-- A host that opens every file as descriptor 3, reads and writes every byte asked
for, hands out blocks filled with 0xAA, reports every file as 10 bytes
long and tells a time of day that advances by one second with every call
made. -/
def sample_os : Hosted.host_os :=
  { ret := fun _ call =>
      match call with
      | Hosted.os_call.open _ _ _ => 3
      | Hosted.os_call.read _ count => count
      | Hosted.os_call.write _ data => data.length
      | _ => 0,
    block := fun _ size => some (List.replicate size 170),
    read_data := fun _ _ count => List.replicate count 65,
    st_size := fun _ _ => 10,
    tv := fun calls => (1000 + calls.length, 250000),
    errno := fun _ => 0 }

/-- A halted target whose register 0 holds the call number `syscall`, whose
register 1 holds the address 256, and whose memory holds the four parameter
words at that address. -/
def sample_call (syscall p0 p1 p2 p3 : Nat) : target_s Unit :=
  { sample_target with
    regs := fun r => if r = 0 then syscall else if r = 1 then 256 else 0,
    mem := store_bytes (fun _ => 0) 256 (le_bytes p0 ++ le_bytes p1 ++ le_bytes p2 ++ le_bytes p3) }

/-- The locals of the relayed handlers at addresses 512, 640 and 704 of the probe's
memory; the words after the open-mode table read as 0. -/
def sample_locals : Probe.probe_locals :=
  { beyond := fun _ => 0, fio_stat := 512, time_value := 640, ch := 704 }

/-- The four watchdog configuration registers, in the order of `wdt_config`. -/
def wdt_config_registers : List Nat :=
  [ESP32_C3_TIMG0_WDT_CONFIG0, ESP32_C3_TIMG1_WDT_CONFIG0, ESP32_C3_RTC_WDT_CONFIG0,
   ESP32_C3_RTC_SWD_CONFIG]

/-- The words the four watchdog configuration registers of a target hold. -/
def wdt_config_words {σ : Type} (t : target_s σ) : List Nat :=
  wdt_config_registers.map (fun addr => (target_mem_read32 t addr).1)

/-- A target whose four watchdog configuration registers hold 0x11, 0x22, 0x33 and
0x44. -/
def sample_wdt_target : target_s Unit :=
  { sample_target with
    mem := fun a =>
      if a = ESP32_C3_TIMG0_WDT_CONFIG0 then 0x11
      else if a = ESP32_C3_TIMG1_WDT_CONFIG0 then 0x22
      else if a = ESP32_C3_RTC_WDT_CONFIG0 then 0x33
      else if a = ESP32_C3_RTC_SWD_CONFIG then 0x44
      else 0 }


/-! ## The reply format, as the specification words it -/

/-- Positional value of a string of hexadecimal digits. -/
def hex_value (ds : List Char) : Nat :=
  ds.foldl (fun acc c => acc * 16 + (hex_digit c).getD 0) 0

/-- A non-empty string of hexadecimal digits. -/
def is_hex_digits (ds : List Char) : Prop :=
  ds ≠ [] ∧ ∀ c ∈ ds, (hex_digit c).isSome = true

instance (ds : List Char) : Decidable (is_hex_digits ds) := by
  unfold is_hex_digits
  infer_instance

/-- The optional part `[,errno[,C]]` of a reply body: nothing, or a comma and the
digits of the error code, then optionally a comma and the break marker `C`. -/
def reply_tail (errno_ : Option (List Char)) (ctrl_c : Bool) : List Char :=
  match errno_ with
  | none => []
  | some e => ',' :: e ++ (if ctrl_c then [',', 'C'] else [])

/-- The reply body `retcode[,errno[,C]]` of the specification: an optional `-`, the
digits of the return code, then the optional part. -/
def reply_body (negative : Bool) (retcode : List Char) (errno_ : Option (List Char))
    (ctrl_c : Bool) : List Char :=
  (if negative then ['-'] else []) ++ (retcode ++ reply_tail errno_ ctrl_c)

/-- Number of fields `semihosting_reply` parses out of the packet in `pbuf`: the value
its call of `sscanf` returns. -/
def reply_items (pbuf : List Char) : Int :=
  (sscanf_x_x_c (c_str pbuf (if char_at pbuf 1 == '-' then 2 else 1)) 0 0 '\x00').items

/-- The third field `semihosting_reply` parses out of the packet in `pbuf`. -/
def reply_third (pbuf : List Char) : Char :=
  (sscanf_x_x_c (c_str pbuf (if char_at pbuf 1 == '-' then 2 else 1)) 0 0 '\x00').ctrl_c_flag

/-- The first field `semihosting_reply` parses out of the packet in `pbuf`: the value its
call of `sscanf` stores in `retcode` (0 when nothing is stored). -/
def reply_retcode (pbuf : List Char) : Nat :=
  (sscanf_x_x_c (c_str pbuf (if char_at pbuf 1 == '-' then 2 else 1)) 0 0 '\x00').retcode

/-! ## The relay exchange of a call, as the specification words it -/

/-- The calls that perform no relay exchange in the relayed build. -/
def local_calls : List Nat :=
  [SEMIHOSTING_SYS_ISERROR, SEMIHOSTING_SYS_TMPNAM, SEMIHOSTING_SYS_GET_CMDLINE,
   SEMIHOSTING_SYS_HEAPINFO, SEMIHOSTING_SYS_ERRNO, SEMIHOSTING_SYS_ELAPSED,
   SEMIHOSTING_SYS_TICKFREQ]

/-- Whether the reply in `pbuf` carries the break marker: three fields are parsed and
the third is `C`. -/
def carries_break_marker (pbuf : List Char) : Bool :=
  reply_items pbuf == 3 && reply_third pbuf == 'C'

/-- A handler of the relayed build that started with target `t` and link `l` and
returned with `t1` and `l1` performed at most one relay exchange: either it
left the controller alone and read no packet, or the controller and the
packets still to arrive are those one call of `semihosting_get_gdb_response`
left, made with the controller and the inbound packets as they were at the
start. -/
def exchange_outcome {σ : Type} (gdb_main_loop : main_loop σ) (t : target_s σ) (l : gdb_link)
    (t1 : target_s σ) (l1 : gdb_link) : Prop :=
  (t1.tc = t.tc ∧ l1.inbound = l.inbound) ∨
  ∃ (t0 : target_s σ) (l0 : gdb_link) (r : Int) (t2 : target_s σ) (l2 : gdb_link),
    t0.tc = t.tc ∧ l0.inbound = l.inbound ∧
    semihosting_get_gdb_response gdb_main_loop t0 l0 = some (r, t2, l2) ∧
    t1.tc = t2.tc ∧ l1.inbound = l2.inbound


end Semihosting

/-! # Theorems -/

namespace Semihosting

/-! ## Lemmas on the scanner -/

theorem hex_digit_not_special (c : Char) (h : (hex_digit c).isSome = true) :
    c ∉ [' ', '\t', '\n', '\x0b', '\x0c', '\r', 'x', 'X', ',', '-', '+', '\x00'] := by
  intro hmem
  simp only [List.mem_cons, List.mem_singleton, List.not_mem_nil, or_false] at hmem
  rcases hmem with h1 | h1 | h1 | h1 | h1 | h1 | h1 | h1 | h1 | h1 | h1 | h1 <;>
    (subst h1; revert h; decide)

theorem hex_digit_comma : hex_digit ',' = none := by decide

theorem scan_digits_run (ds rest : List Char) (acc : Nat)
    (hds : ∀ c ∈ ds, (hex_digit c).isSome = true)
    (hrest : rest = [] ∨ ∃ t, rest = ',' :: t) :
    scan_digits acc (ds ++ rest)
      = (ds.foldl (fun a c => a * 16 + (hex_digit c).getD 0) acc, rest) := by
  induction ds generalizing acc with
  | nil =>
    rcases hrest with rfl | ⟨t, rfl⟩
    · simp [scan_digits]
    · simp [scan_digits, hex_digit_comma]
  | cons d ds ih =>
    have hd := hds d (by simp)
    obtain ⟨v, hv⟩ := Option.isSome_iff_exists.mp hd
    simp only [List.cons_append, scan_digits, hv, List.foldl_cons, Option.getD_some]
    exact ih _ (fun c hc => hds c (by simp [hc]))

theorem skip_0x_id (s : List Char)
    (h : ∀ x, s.get? 1 = some x → x ≠ 'x' ∧ x ≠ 'X') : skip_0x s = s := by
  unfold skip_0x
  split
  · rename_i x d cs
    have hx := h x (by simp)
    simp [hx.1, hx.2]
  · rfl

theorem hex_digit_not_x (c : Char) (h : (hex_digit c).isSome = true) : c ≠ 'x' ∧ c ≠ 'X' := by
  have := hex_digit_not_special c h
  simp only [List.mem_cons, List.mem_singleton, List.not_mem_nil, or_false, not_or] at this
  exact ⟨this.2.2.2.2.2.2.1, this.2.2.2.2.2.2.2.1⟩

theorem second_char_not_x (d : Char) (ds rest : List Char)
    (hds : ∀ c ∈ d :: ds, (hex_digit c).isSome = true)
    (hrest : rest = [] ∨ ∃ t, rest = ',' :: t) :
    ∀ x, (d :: ds ++ rest).get? 1 = some x → x ≠ 'x' ∧ x ≠ 'X' := by
  intro x hx
  cases ds with
  | nil =>
    rcases hrest with rfl | ⟨t, rfl⟩
    · simp at hx
    · simp at hx
      subst hx
      exact ⟨by decide, by decide⟩
  | cons e ds =>
    simp at hx
    subst hx
    exact hex_digit_not_x _ (hds _ (by simp))

theorem scan_magnitude_run (ds rest : List Char) (h : is_hex_digits ds)
    (hrest : rest = [] ∨ ∃ t, rest = ',' :: t) :
    scan_magnitude (ds ++ rest) = some (hex_value ds, rest) := by
  obtain ⟨hne, hds⟩ := h
  cases ds with
  | nil => exact absurd rfl hne
  | cons d ds =>
    have hd := hds d (by simp)
    obtain ⟨v, hv⟩ := Option.isSome_iff_exists.mp hd
    unfold scan_magnitude
    rw [skip_0x_id _ (second_char_not_x d ds rest hds hrest)]
    simp only [List.cons_append, hv]
    have := scan_digits_run (d :: ds) rest 0 hds hrest
    simp only [List.cons_append] at this
    simp only [this, hex_value]

theorem skip_space_digits (d : Char) (s : List Char) (hd : (hex_digit d).isSome = true) :
    skip_space (d :: s) = d :: s := by
  have := hex_digit_not_special d hd
  simp only [List.mem_cons, List.mem_singleton, List.not_mem_nil, or_false, not_or] at this
  simp [skip_space, isspace, this]

theorem scan_hex_run (ds rest : List Char) (h : is_hex_digits ds)
    (hrest : rest = [] ∨ ∃ t, rest = ',' :: t) :
    scan_hex (ds ++ rest) = some (min (hex_value ds) UINT32_MAX, rest) := by
  have hm := scan_magnitude_run ds rest h hrest
  obtain ⟨hne, hds⟩ := h
  cases ds with
  | nil => exact absurd rfl hne
  | cons d ds =>
    have hd := hds d (by simp)
    have hs := hex_digit_not_special d hd
    simp only [List.mem_cons, List.mem_singleton, List.not_mem_nil, or_false, not_or] at hs
    unfold scan_hex
    rw [List.cons_append, skip_space_digits d _ hd]
    rw [List.cons_append] at hm
    split
    · rename_i heq
      exact absurd (List.cons.inj heq).1 hs.2.2.2.2.2.2.2.2.2.1
    · rename_i heq
      exact absurd (List.cons.inj heq).1 hs.2.2.2.2.2.2.2.2.2.2.1
    · rw [hm]

theorem sscanf_one_field (rd : List Char) (h : is_hex_digits rd) (a b : Nat) (c : Char) :
    sscanf_x_x_c rd a b c = ⟨1, min (hex_value rd) UINT32_MAX, b, c⟩ := by
  have hs := scan_hex_run rd [] h (Or.inl rfl)
  rw [List.append_nil] at hs
  obtain ⟨hne, hds⟩ := h
  cases rd with
  | nil => exact absurd rfl hne
  | cons d ds =>
    unfold sscanf_x_x_c
    rw [skip_space_digits d _ (hds d (by simp)), hs]

theorem sscanf_two_fields (rd ed : List Char) (h : is_hex_digits rd) (he : is_hex_digits ed)
    (a b : Nat) (c : Char) :
    sscanf_x_x_c (rd ++ ',' :: ed) a b c
      = ⟨2, min (hex_value rd) UINT32_MAX, min (hex_value ed) UINT32_MAX, c⟩ := by
  have hs := scan_hex_run rd (',' :: ed) h (Or.inr ⟨_, rfl⟩)
  have hs2 := scan_hex_run ed [] he (Or.inl rfl)
  rw [List.append_nil] at hs2
  obtain ⟨hne, hds⟩ := h
  cases rd with
  | nil => exact absurd rfl hne
  | cons d ds =>
    unfold sscanf_x_x_c
    rw [List.cons_append, skip_space_digits d _ (hds d (by simp)), ← List.cons_append, hs]
    simp only [hs2, List.cons_append]

theorem sscanf_three_fields (rd ed : List Char) (h : is_hex_digits rd) (he : is_hex_digits ed)
    (x : Char) (t : List Char) (a b : Nat) (c : Char) :
    sscanf_x_x_c (rd ++ ',' :: (ed ++ ',' :: x :: t)) a b c
      = ⟨3, min (hex_value rd) UINT32_MAX, min (hex_value ed) UINT32_MAX, x⟩ := by
  have hs := scan_hex_run rd (',' :: (ed ++ ',' :: x :: t)) h (Or.inr ⟨_, rfl⟩)
  have hs2 := scan_hex_run ed (',' :: x :: t) he (Or.inr ⟨_, rfl⟩)
  obtain ⟨hne, hds⟩ := h
  cases rd with
  | nil => exact absurd rfl hne
  | cons d ds =>
    unfold sscanf_x_x_c
    rw [List.cons_append, skip_space_digits d _ (hds d (by simp)), ← List.cons_append, hs]
    simp only [hs2, List.cons_append]

theorem takeWhile_no_nul (s : List Char) (h : ∀ c ∈ s, c ≠ '\x00') :
    s.takeWhile (fun c => c != '\x00') = s := by
  induction s with
  | nil => rfl
  | cons c cs ih =>
    have hc := h c (by simp)
    simp only [List.takeWhile_cons, bne_iff_ne, ne_eq, hc, not_false_eq_true, if_true]
    rw [ih (fun x hx => h x (by simp [hx]))]

theorem hex_digits_no_nul (ds : List Char) (h : ∀ c ∈ ds, (hex_digit c).isSome = true) :
    ∀ c ∈ ds, c ≠ '\x00' := by
  intro c hc
  have := hex_digit_not_special c (h c hc)
  simp only [List.mem_cons, List.mem_singleton, List.not_mem_nil, or_false, not_or] at this
  exact this.2.2.2.2.2.2.2.2.2.2.2

theorem to_int32_small (v : Nat) (h : v < 2147483648) : to_int32 v = (v : Int) := by
  unfold to_int32
  have : v % 4294967296 = v := Nat.mod_eq_of_lt (by omega)
  rw [this, if_pos h]

theorem to_int32_neg_small (v : Nat) (h : v < 2147483648) :
    to_int32 (to_uint32 (-(v : Int))) = -(v : Int) := by
  unfold to_int32 to_uint32
  split <;> omega

theorem reply_body_no_nul (rd : List Char) (eo : Option (List Char)) (cc : Bool)
    (hr : is_hex_digits rd) (he : ∀ e, eo = some e → is_hex_digits e) :
    ∀ c ∈ rd ++ reply_tail eo cc, c ≠ '\x00' := by
  intro c hc
  rcases List.mem_append.mp hc with h | h
  · exact hex_digits_no_nul rd hr.2 c h
  · cases eo with
    | none => simp [reply_tail] at h
    | some e =>
      have hne := hex_digits_no_nul e (he e rfl).2
      cases cc
      · simp [reply_tail] at h
        rcases h with rfl | h
        · decide
        · exact hne c h
      · simp [reply_tail] at h
        rcases h with rfl | h | rfl | rfl
        · decide
        · exact hne c h
        · decide
        · decide

theorem sscanf_reply_body (rd : List Char) (eo : Option (List Char)) (cc : Bool)
    (hr : is_hex_digits rd) (he : ∀ e, eo = some e → is_hex_digits e) :
    sscanf_x_x_c (rd ++ reply_tail eo cc) 0 0 '\x00'
      = ⟨(match eo with | none => 1 | some _ => if cc then 3 else 2),
          min (hex_value rd) UINT32_MAX,
          (match eo with | none => 0 | some e => min (hex_value e) UINT32_MAX),
          (if eo.isSome && cc then 'C' else '\x00')⟩ := by
  cases eo with
  | none =>
    simp only [reply_tail, List.append_nil]
    rw [sscanf_one_field rd hr]
    simp
  | some e =>
    cases cc
    · simp only [reply_tail, List.append_nil, Bool.false_eq_true, if_false]
      rw [sscanf_two_fields rd e hr (he e rfl)]
      simp
    · simp only [reply_tail, if_true]
      have := sscanf_three_fields rd e hr (he e rfl) 'C' [] 0 0 '\x00'
      simp only [List.cons_append] at this ⊢
      rw [this]
      simp

theorem c_str_reply (negative : Bool) (rd : List Char) (eo : Option (List Char)) (cc : Bool)
    (hr : is_hex_digits rd) (he : ∀ e, eo = some e → is_hex_digits e) :
    (char_at ('F' :: reply_body negative rd eo cc) 1 == '-') = negative ∧
    c_str ('F' :: reply_body negative rd eo cc) (if negative then 2 else 1)
      = rd ++ reply_tail eo cc := by
  have hnn := takeWhile_no_nul _ (reply_body_no_nul rd eo cc hr he)
  unfold reply_body
  cases negative
  · obtain ⟨hne, hds⟩ := hr
    cases rd with
    | nil => exact absurd rfl hne
    | cons d ds =>
      have hs := hex_digit_not_special d (hds d (by simp))
      simp only [List.mem_cons, List.mem_singleton, List.not_mem_nil, or_false, not_or] at hs
      refine ⟨?_, ?_⟩
      · simp [char_at, hs.2.2.2.2.2.2.2.2.2.1]
      · simpa [c_str] using hnn
  · refine ⟨?_, ?_⟩
    · simp [char_at]
    · simpa [c_str] using hnn

/-- What `semihosting_reply` makes of a reply body of the form `retcode[,errno[,C]]`. -/
theorem semihosting_reply_body (tc : target_controller_s) (len : Int) (negative : Bool)
    (rd : List Char) (eo : Option (List Char)) (cc : Bool)
    (hr : is_hex_digits rd) (he : ∀ e, eo = some e → is_hex_digits e) :
    semihosting_reply tc ('F' :: reply_body negative rd eo cc) len
      = (to_int32 (if negative then to_uint32 (-((min (hex_value rd) UINT32_MAX : Nat) : Int))
                    else min (hex_value rd) UINT32_MAX),
          { interrupted := eo.isSome && cc,
            errno_ := (match eo with | none => 0 | some e => min (hex_value e) UINT32_MAX) }) := by
  obtain ⟨h1, h2⟩ := c_str_reply negative rd eo cc hr he
  unfold semihosting_reply
  simp only [h1]
  rw [h2, sscanf_reply_body rd eo cc hr he]
  cases eo with
  | none => simp
  | some e => cases cc <;> simp

theorem scan_hex_no_match (c : Char) (rest : List Char) (hc : hex_digit c = none)
    (hsp : isspace c = false) (hplus : c ≠ '+') (hminus : c ≠ '-') :
    skip_space (c :: rest) = c :: rest ∧ scan_hex (c :: rest) = none := by
  have h1 : skip_space (c :: rest) = c :: rest := by simp [skip_space, hsp]
  have h0 : c ≠ '0' := by
    intro h
    subst h
    revert hc
    decide
  have h2 : scan_magnitude (c :: rest) = none := by
    unfold scan_magnitude
    have : skip_0x (c :: rest) = c :: rest := by
      unfold skip_0x
      split
      · rename_i heq
        exact absurd (List.cons.inj heq).1 h0
      · rfl
    rw [this]
    simp only [hc]
  refine ⟨h1, ?_⟩
  unfold scan_hex
  rw [h1]
  split
  · rename_i heq
    exact absurd (List.cons.inj heq).1 hminus
  · rename_i heq
    exact absurd (List.cons.inj heq).1 hplus
  · rw [h2]

theorem sscanf_no_match (s : List Char) (a b : Nat) (f : Char)
    (h : s = [] ∨ ∃ c rest, s = c :: rest ∧ hex_digit c = none ∧ isspace c = false ∧
      c ≠ '+' ∧ c ≠ '-') :
    (sscanf_x_x_c s a b f).items < 1 := by
  rcases h with rfl | ⟨c, rest, rfl, hc, hsp, hplus, hminus⟩
  · simp [sscanf_x_x_c, skip_space]
  · obtain ⟨h1, h2⟩ := scan_hex_no_match c rest hc hsp hplus hminus
    unfold sscanf_x_x_c
    rw [h1, h2]
    simp

theorem takeWhile_head (c : Char) (rest : List Char) :
    (c :: rest).takeWhile (fun x => x != '\x00') = []
      ∨ ∃ t, (c :: rest).takeWhile (fun x => x != '\x00') = c :: t := by
  by_cases h : c = '\x00'
  · left
    simp [h]
  · right
    exact ⟨rest.takeWhile (fun x => x != '\x00'), by simp [h]⟩

/-- A body whose first character, after an optional `-`, is neither a
hexadecimal digit nor white space nor a sign yields no field. -/
theorem reply_items_no_number (c : Char) (rest : List Char) (hc : hex_digit c = none)
    (hsp : isspace c = false) (hplus : c ≠ '+') (hminus : c ≠ '-') :
    reply_items ('F' :: c :: rest) < 1 ∧ reply_items ('F' :: '-' :: c :: rest) < 1 := by
  constructor
  · unfold reply_items
    have : (char_at ('F' :: c :: rest) 1 == '-') = false := by simp [char_at, hminus]
    rw [this]
    apply sscanf_no_match
    simp only [Bool.false_eq_true, if_false, c_str, List.drop_succ_cons, List.drop_zero]
    rcases takeWhile_head c rest with h | ⟨t, h⟩
    · exact Or.inl h
    · exact Or.inr ⟨c, t, h, hc, hsp, hplus, hminus⟩
  · unfold reply_items
    have : (char_at ('F' :: '-' :: c :: rest) 1 == '-') = true := by simp [char_at]
    rw [this]
    apply sscanf_no_match
    simp only [if_true, c_str, List.drop_succ_cons, List.drop_zero]
    rcases takeWhile_head c rest with h | ⟨t, h⟩
    · exact Or.inl h
    · exact Or.inr ⟨c, t, h, hc, hsp, hplus, hminus⟩

/-! ## The reply decoder -/

/-- C1 (as amended): for a reply packet `F` followed by a body `retcode[,errno[,C]]`
whose return code is an optional `-` and hexadecimal digits of magnitude below
`2 ^ 31` and whose error code, when present, is hexadecimal digits of value
below `2 ^ 32`, `semihosting_reply` returns the return code with its sign and sets
the controller's errno to the error code field, or to 0 when that field is
absent.  In particular `0` gives 0 with errno 0, `-5,2` gives -5 with errno 2
and `7,0,C` gives 7 with errno 0. -/
theorem semihosting_reply_returns_fields (tc : target_controller_s) (len : Int)
    (negative : Bool) (retcode : List Char) (errno_ : Option (List Char)) (ctrl_c : Bool)
    (hr : is_hex_digits retcode) (hmag : hex_value retcode < 2147483648)
    (he : ∀ e, errno_ = some e → is_hex_digits e ∧ hex_value e < 4294967296) :
    ((semihosting_reply tc ('F' :: reply_body negative retcode errno_ ctrl_c) len).1
        = (if negative then -(hex_value retcode : Int) else (hex_value retcode : Int)) ∧
      (semihosting_reply tc ('F' :: reply_body negative retcode errno_ ctrl_c) len).2.errno_
        = (match errno_ with | none => 0 | some e => hex_value e)) ∧
    ((semihosting_reply tc ['F', '0'] len).1 = 0 ∧
      (semihosting_reply tc ['F', '0'] len).2.errno_ = 0) ∧
    ((semihosting_reply tc ['F', '-', '5', ',', '2'] len).1 = -5 ∧
      (semihosting_reply tc ['F', '-', '5', ',', '2'] len).2.errno_ = 2) ∧
    ((semihosting_reply tc ['F', '7', ',', '0', ',', 'C'] len).1 = 7 ∧
      (semihosting_reply tc ['F', '7', ',', '0', ',', 'C'] len).2.errno_ = 0) := by
  refine ⟨?_, ?_, ?_, ?_⟩
  · rw [semihosting_reply_body tc len negative retcode errno_ ctrl_c hr (fun e h => (he e h).1)]
    have hmin : min (hex_value retcode) UINT32_MAX = hex_value retcode :=
      Nat.min_eq_left (by unfold UINT32_MAX; omega)
    constructor
    · simp only [hmin]
      cases negative
      · simpa using to_int32_small _ hmag
      · simpa using to_int32_neg_small _ hmag
    · cases errno_ with
      | none => rfl
      | some e =>
        have := (he e rfl).2
        exact Nat.min_eq_left (by unfold UINT32_MAX; omega)
  · have h := semihosting_reply_body tc len false ['0'] none false (by decide) (by simp)
    have e : 'F' :: reply_body false ['0'] none false = ['F', '0'] := by decide
    rw [e] at h
    rw [h]
    exact ⟨by decide, rfl⟩
  · have h := semihosting_reply_body tc len true ['5'] (some ['2']) false (by decide)
      (fun e he => by cases he; decide)
    have e : 'F' :: reply_body true ['5'] (some ['2']) false = ['F', '-', '5', ',', '2'] := by
      decide
    rw [e] at h
    rw [h]
    exact ⟨by decide, by decide⟩
  · have h := semihosting_reply_body tc len false ['7'] (some ['0']) true (by decide)
      (fun e he => by cases he; decide)
    have e : 'F' :: reply_body false ['7'] (some ['0']) true = ['F', '7', ',', '0', ',', 'C'] := by
      decide
    rw [e] at h
    rw [h]
    exact ⟨by decide, by decide⟩

/-- C1, witness: the reply `F-1f,c,C` (return code -31, errno 12). -/
theorem semihosting_reply_returns_fields_witness :
    is_hex_digits ['1', 'f'] ∧ hex_value ['1', 'f'] < 2147483648 ∧
    (semihosting_reply ⟨true, 7⟩ ('F' :: reply_body true ['1', 'f'] (some ['c']) true) 8).1 = -31 ∧
    (semihosting_reply ⟨true, 7⟩ ('F' :: reply_body true ['1', 'f'] (some ['c']) true) 8).2.errno_
      = 12 :=
  ⟨by decide, by decide,
    (semihosting_reply_returns_fields ⟨true, 7⟩ 8 true ['1', 'f'] (some ['c']) true (by decide)
      (by decide) (fun e he => by cases he; decide)).1⟩

/-- C1, counterexample to the claim as stated: in the reply `F0,100000000` the
errno field is hexadecimal digits (value `2 ^ 32`), yet the controller's 32-bit
errno does not hold that value after the call. -/
theorem semihosting_reply_wide_errno :
    is_hex_digits ['0'] ∧ hex_value ['0'] < 2147483648 ∧
    is_hex_digits ['1', '0', '0', '0', '0', '0', '0', '0', '0'] ∧
    hex_value ['1', '0', '0', '0', '0', '0', '0', '0', '0'] = 4294967296 ∧
    (semihosting_reply ⟨false, 0⟩
        ('F' :: reply_body false ['0'] (some ['1', '0', '0', '0', '0', '0', '0', '0', '0']) false)
        12).2.errno_ ≠ hex_value ['1', '0', '0', '0', '0', '0', '0', '0', '0'] := by
  decide

/-- C2: a reply packet whose body yields zero parsed fields makes `semihosting_reply`
return -1, clear the interrupted flag and set errno to `TARGET_EUNKNOWN`, whatever
the two fields held before; an empty body, a lone `-`, and a body that starts
(after an optional `-`) with a character that cannot begin a number are such
packets. -/
theorem semihosting_reply_malformed (tc : target_controller_s) (pbuf : List Char) (len : Int)
    (h : reply_items pbuf < 1) :
    semihosting_reply tc pbuf len = (-1, { interrupted := false, errno_ := TARGET_EUNKNOWN }) ∧
    reply_items ['F'] < 1 ∧ reply_items ['F', '-'] < 1 ∧
    (∀ (c : Char) (rest : List Char), hex_digit c = none → isspace c = false → c ≠ '+' →
      c ≠ '-' → reply_items ('F' :: c :: rest) < 1 ∧ reply_items ('F' :: '-' :: c :: rest) < 1) :=
          by
  refine ⟨?_, by decide, by decide, reply_items_no_number⟩
  unfold reply_items at h
  unfold semihosting_reply
  simp only [h, if_true]

/-- C2, witness: the packet `F-` with the flag set and errno 5 beforehand. -/
theorem semihosting_reply_malformed_witness :
    reply_items ['F', '-'] < 1 ∧
    semihosting_reply ⟨true, 5⟩ ['F', '-'] 2 = (-1, { interrupted := false, errno_ := 9999 }) :=
  ⟨by decide, (semihosting_reply_malformed ⟨true, 5⟩ ['F', '-'] 2 (by decide)).1⟩

/-- C3: when a reply parses with at least one field, `semihosting_reply` sets the
interrupted flag to true exactly when three fields were parsed and the third is
`C` (so it is false for one or two fields and for a third character other than
`C`), whatever the flag held before; for a body `retcode[,errno[,C]]` that is
exactly when the errno field and the marker are both present. -/
theorem semihosting_reply_interrupted (tc : target_controller_s) (pbuf : List Char) (len : Int)
    (h : 1 ≤ reply_items pbuf) :
    ((semihosting_reply tc pbuf len).2.interrupted = true
      ↔ (reply_items pbuf = 3 ∧ reply_third pbuf = 'C')) ∧
    (∀ (negative : Bool) (retcode : List Char) (errno_ : Option (List Char)) (ctrl_c : Bool),
      is_hex_digits retcode → (∀ e, errno_ = some e → is_hex_digits e) →
      (semihosting_reply tc ('F' :: reply_body negative retcode errno_ ctrl_c) len).2.interrupted
        = (errno_.isSome && ctrl_c)) := by
  constructor
  · unfold reply_items at h
    unfold reply_items reply_third
    unfold semihosting_reply
    have h2 : ¬ ((sscanf_x_x_c (c_str pbuf (if (char_at pbuf 1 == '-') = true then 2 else 1))
        0 0 '\x00').items < 1) := by omega
    simp only [h2, if_false]
    simp
  · intro negative retcode errno_ ctrl_c hr he
    rw [semihosting_reply_body tc len negative retcode errno_ ctrl_c hr he]

/-- C3, witness: `F7,0,C` sets the flag, `F7,0,D` and `F7,0` clear it. -/
theorem semihosting_reply_interrupted_witness :
    1 ≤ reply_items ['F', '7', ',', '0', ',', 'C'] ∧
    (semihosting_reply ⟨false, 0⟩ ['F', '7', ',', '0', ',', 'C'] 6).2.interrupted = true ∧
    (semihosting_reply ⟨true, 0⟩ ['F', '7', ',', '0', ',', 'D'] 6).2.interrupted = false ∧
    (semihosting_reply ⟨true, 0⟩ ['F', '7', ',', '0'] 4).2.interrupted = false := by
  refine ⟨by decide, ?_, by decide, by decide⟩
  exact ((semihosting_reply_interrupted ⟨false, 0⟩ ['F', '7', ',', '0', ',', 'C'] 6
    (by decide)).1).2 (by decide)

/-! ## The reply wait loop -/

theorem get_gdb_response_loop_unrelated {σ : Type} (ml : main_loop σ)
    (pre inbound : List (List Char)) (t : target_s σ) (forwarded : List (List Char))
    (h : all_unrelated ml t pre) :
    get_gdb_response_loop ml (pre ++ inbound) t forwarded
      = get_gdb_response_loop ml inbound (target_after ml t pre) (forwarded ++ pre) := by
  induction pre generalizing t forwarded with
  | nil => simp [target_after]
  | cons p ps ih =>
    obtain ⟨h1, h2, h3⟩ := h
    simp only [List.cons_append, get_gdb_response_loop, h1, Bool.false_eq_true, if_false,
      beq_iff_eq, h2, target_after]
    have hrec := ih _ (forwarded ++ [p]) h3
    simpa using hrec

/-- C4: when the inbound packets are `pre` followed by `reply` (and possibly more),
none of them is the escape packet and `reply` is the first whose buffer begins
with `F` once processed, `semihosting_get_gdb_response` hands `pre` and then `reply` to
the main loop, each once and in arrival order, leaves the later packets
unread and returns the main loop's result for `reply`.  With a main loop that
decodes replies, `[unrelated, unrelated, reply]` returns the reply's decoded
result. -/
theorem get_gdb_response_returns_reply {σ : Type} (gdb_main_loop : main_loop σ) (t : target_s σ)
    (l : gdb_link) (pre : List (List Char)) (reply : List Char) (later : List (List Char))
    (hpre : all_unrelated gdb_main_loop t pre)
    (hesc : is_escape reply = false)
    (hreply : char_at (gdb_main_loop (target_after gdb_main_loop t pre) reply
      reply.length).packet_buffer 0 = 'F') :
    semihosting_get_gdb_response gdb_main_loop t { l with inbound := pre ++ reply :: later }
      = some ((gdb_main_loop (target_after gdb_main_loop t pre) reply reply.length).result,
          (gdb_main_loop (target_after gdb_main_loop t pre) reply reply.length).target,
          { l with inbound := later, forwarded := l.forwarded ++ (pre ++ [reply]) }) ∧
    (∀ (other : main_loop σ) (u1 u2 : List Char),
      all_unrelated (gdb_main_loop_model other) t [u1, u2] →
      semihosting_get_gdb_response (gdb_main_loop_model other) t
          { l with inbound := [u1, u2, ['F', '7', ',', '0', ',', 'C']] }
        = some (7,
            { target_after (gdb_main_loop_model other) t [u1, u2] with
              tc := { interrupted := true, errno_ := 0 } },
            { l with inbound := [], forwarded := l.forwarded ++ [u1, u2, ['F', '7', ',', '0', ',', 'C']] }))
                := by
  constructor
  · unfold semihosting_get_gdb_response
    simp only []
    rw [get_gdb_response_loop_unrelated gdb_main_loop pre _ t _ hpre]
    simp [get_gdb_response_loop, hesc, hreply]
  · intro other u1 u2 hu
    unfold semihosting_get_gdb_response
    simp only []
    have := get_gdb_response_loop_unrelated (gdb_main_loop_model other) [u1, u2]
      [['F', '7', ',', '0', ',', 'C']] t l.forwarded hu
    simp only [List.cons_append, List.nil_append] at this
    rw [this]
    have hdec : semihosting_reply (target_after (gdb_main_loop_model other) t [u1, u2]).tc
        ['F', '7', ',', '0', ',', 'C'] 6 = (7, { interrupted := true, errno_ := 0 }) := by
      have h := semihosting_reply_body (target_after (gdb_main_loop_model other) t [u1, u2]).tc
        6 false ['7'] (some ['0']) true (by decide) (fun e he => by cases he; decide)
      have e : 'F' :: reply_body false ['7'] (some ['0']) true
          = ['F', '7', ',', '0', ',', 'C'] := by decide
      rw [e] at h
      rw [h]
      decide
    have hne : is_escape ['F', '7', ',', '0', ',', 'C'] = false := by decide
    have hF : char_at ['F', '7', ',', '0', ',', 'C'] 0 = 'F' := by decide
    simp only [get_gdb_response_loop, hne, Bool.false_eq_true, if_false, gdb_main_loop_model, hF,
      beq_self_eq_true, if_true]
    simp [hdec]

/-- C4, witness: two memory packets, the reply `F-1,2`, then one more packet. -/
theorem get_gdb_response_returns_reply_witness :
    all_unrelated (gdb_main_loop_model sample_other) sample_target [['m', '0'], ['X', '1']] ∧
    (semihosting_get_gdb_response (gdb_main_loop_model sample_other) sample_target
        { sample_link with inbound := [['m', '0'], ['X', '1']] ++ ['F', '-', '1', ',', '2'] :: [['m']] }).map
        (fun r => (r.1, r.2.1.tc, r.2.2))
      = some (-1, { interrupted := false, errno_ := 2 },
          { inbound := [['m']], sent := [],
            forwarded := [['m', '0'], ['X', '1'], ['F', '-', '1', ',', '2']], serial := [] }) := by
  refine ⟨⟨by decide, by decide, by decide, by decide, trivial⟩, ?_⟩
  rw [(get_gdb_response_returns_reply (gdb_main_loop_model sample_other) sample_target sample_link
    [['m', '0'], ['X', '1']] ['F', '-', '1', ',', '2'] [['m']]
    ⟨by decide, by decide, by decide, by decide, trivial⟩ (by decide) (by decide)).1]
  decide

theorem is_escape_iff (packet : List Char) : is_escape packet = true ↔ packet = ['\x04'] := by
  constructor
  · intro h
    match packet, h with
    | [c], h =>
      simp [is_escape, char_at] at h
      rw [h]
  · intro h
    subst h
    decide

/-- C5: when an escape packet (one byte, 0x04) arrives after packets `pre` none of
which is a reply, `semihosting_get_gdb_response` returns -1 having handed only `pre`
to the main loop: neither the escape packet nor any later packet is forwarded
or read; when the escape packet comes first, nothing at all is forwarded. -/
theorem get_gdb_response_escape {σ : Type} (gdb_main_loop : main_loop σ) (t : target_s σ)
    (l : gdb_link) (pre : List (List Char)) (later : List (List Char))
    (hpre : all_unrelated gdb_main_loop t pre) :
    semihosting_get_gdb_response gdb_main_loop t { l with inbound := pre ++ ['\x04'] :: later }
      = some (-1, target_after gdb_main_loop t pre,
          { l with inbound := later, forwarded := l.forwarded ++ pre }) ∧
    semihosting_get_gdb_response gdb_main_loop t { l with inbound := ['\x04'] :: later }
      = some (-1, t, { l with inbound := later }) ∧
    (∀ packet : List Char, is_escape packet = true ↔ packet = ['\x04']) := by
  refine ⟨?_, ?_, is_escape_iff⟩
  · unfold semihosting_get_gdb_response
    simp only []
    rw [get_gdb_response_loop_unrelated gdb_main_loop pre _ t _ hpre]
    have : is_escape ['\x04'] = true := by decide
    simp [get_gdb_response_loop, this]
  · unfold semihosting_get_gdb_response
    have : is_escape ['\x04'] = true := by decide
    simp [get_gdb_response_loop, this]

/-- C5, witness: one memory packet, the escape packet, then a reply that is never
read. -/
theorem get_gdb_response_escape_witness :
    all_unrelated (gdb_main_loop_model sample_other) sample_target [['m', '0']] ∧
    (semihosting_get_gdb_response (gdb_main_loop_model sample_other) sample_target
        { sample_link with inbound := [['m', '0']] ++ ['\x04'] :: [['F', '0']] }).map
        (fun r => (r.1, r.2.2))
      = some (-1, { inbound := [['F', '0']], sent := [], forwarded := [['m', '0']], serial := [] })
          := by
  refine ⟨⟨by decide, by decide, trivial⟩, ?_⟩
  rw [(get_gdb_response_escape (gdb_main_loop_model sample_other) sample_target sample_link
    [['m', '0']] [['F', '0']] ⟨by decide, by decide, trivial⟩).1]
  decide

/-! ## Handles -/

theorem wrap_int32_id (r : Int) (hlo : -2147483648 ≤ r) (hhi : r ≤ 2147483647) :
    wrap_int32 r = r := by
  unfold wrap_int32 to_int32 to_uint32
  split <;> omega

theorem diff_to_int32 (count : Nat) (r : Int) (h1 : r ≤ count)
    (h2 : (count : Int) - r ≤ 2147483647) :
    to_int32 (to_uint32 ((count : Int) - r)) = (count : Int) - r ∧
    wrap_int32 ((count : Int) - r) = (count : Int) - r := by
  unfold wrap_int32 to_int32 to_uint32
  constructor <;> split <;> omega

theorem wrap_int32_neg (r : Int) (hlo : -2147483648 ≤ r) (h : r < 0) : wrap_int32 r < 0 := by
  rw [wrap_int32_id r hlo (by omega)]
  exact h

theorem probe_read_result {σ : Type} (gdb_main_loop : main_loop σ) (t : target_s σ)
    (l : gdb_link) (request : semihosting_s)
    (h1 : request.params 1 ≠ TARGET_NULL) (h2 : request.params 2 ≠ 0)
    (r : Int) (t1 : target_s σ) (l1 : gdb_link)
    (hback : Probe.hostio_read gdb_main_loop t l
      (to_int32 (to_uint32 ((request.params 0 : Int) - 1))) (request.params 1) (request.params 2)
      = some (r, t1, l1)) :
    Probe.semihosting_read gdb_main_loop t l request
      = some (if r ≥ 0 then to_int32 (to_uint32 ((request.params 2 : Int) - r)) else r, t1, l1) :=
          by
  simp only [Probe.semihosting_read, h1, h2, if_false, hback]
  by_cases hr : r ≥ 0 <;> simp [hr]

theorem probe_write_result {σ : Type} (gdb_main_loop : main_loop σ) (t : target_s σ)
    (l : gdb_link) (request : semihosting_s)
    (h1 : request.params 1 ≠ TARGET_NULL) (h2 : request.params 2 ≠ 0)
    (r : Int) (t1 : target_s σ) (l1 : gdb_link)
    (hback : Probe.tc_write gdb_main_loop t l
      (to_int32 (to_uint32 ((request.params 0 : Int) - 1))) (request.params 1) (request.params 2)
      = some (r, t1, l1)) :
    Probe.semihosting_write gdb_main_loop t l request
      = some (if r ≥ 0 then to_int32 (to_uint32 ((request.params 2 : Int) - r)) else r, t1, l1) :=
          by
  simp only [Probe.semihosting_write, h1, h2, if_false, hback]
  by_cases hr : r ≥ 0 <;> simp [hr]

theorem tc_write_relayed {σ : Type} (gdb_main_loop : main_loop σ) (t : target_s σ)
    (l : gdb_link) (fd : Int) (buf count : Nat)
    (h : (t.stdout_redirected && (fd == STDOUT_FILENO || fd == STDERR_FILENO)) = false) :
    Probe.tc_write gdb_main_loop t l fd buf count
      = Probe.hostio_write gdb_main_loop t l fd buf count := by
  simp only [Probe.tc_write, h, Bool.false_eq_true, if_false]

theorem read_buffer_length (data garbage : List Nat) (count : Nat) (r : Int)
    (hg : garbage.length = count) :
    ((data.take r.toNat ++ garbage.drop (data.take r.toNat).length).take count).length = count := by
  simp only [List.length_take, List.length_append, List.length_drop]
  omega

theorem hosted_write_ok {σ : Type} (t : target_s σ) (dest : Nat) (data : List Nat) (id : Nat)
    (hacc : t.mem_write = mem_accessor.target id) (herr : t.mem_err = false)
    (hfault : range_faults t.mem_fault dest data.length = false) :
    (target_check_error (target_mem_write t dest data).2).1 = false := by
  simp [target_mem_write, hacc, hfault, target_check_error, herr]

theorem hosted_read_ok {σ : Type} (t : target_s σ) (src len : Nat) (id : Nat)
    (hacc : t.mem_read = mem_accessor.target id) (herr : t.mem_err = false)
    (hfault : range_faults t.mem_fault src len = false) :
    (target_check_error (target_mem_read t src len).2).1 = false := by
  simp [target_mem_read, hacc, hfault, target_check_error, herr]

/-- C7 (as amended): for a read or write request with a non-null buffer address and
a count greater than 0, when the backend transfers `r` bytes with
`0 ≤ r ≤ count` and `count - r ≤ 2 ^ 31 - 1` the handler returns `count - r`,
which is not negative, and when the backend fails with a negative result the
handler returns a negative value.  In the relayed build the write is one
that is relayed; in the direct build the transfer part supposes that the
buffer was allocated and the target memory access succeeded. -/
theorem read_write_return {σ : Type} (gdb_main_loop : main_loop σ) (os : Hosted.host_os)
    (t : target_s σ) (l : gdb_link) (calls : List Hosted.os_call) (request : semihosting_s)
    (h1 : request.params 1 ≠ TARGET_NULL) (h2 : request.params 2 ≠ 0) :
    (∀ (r : Int) (t1 : target_s σ) (l1 : gdb_link),
      Probe.hostio_read gdb_main_loop t l (to_int32 (to_uint32 ((request.params 0 : Int) - 1)))
          (request.params 1) (request.params 2) = some (r, t1, l1) →
      (0 ≤ r → r ≤ request.params 2 → (request.params 2 : Int) - r ≤ 2147483647 →
        Probe.semihosting_read gdb_main_loop t l request
          = some ((request.params 2 : Int) - r, t1, l1) ∧ 0 ≤ (request.params 2 : Int) - r) ∧
      (r < 0 → Probe.semihosting_read gdb_main_loop t l request = some (r, t1, l1))) ∧
    (∀ (r : Int) (t1 : target_s σ) (l1 : gdb_link),
      (t.stdout_redirected && (to_int32 (to_uint32 ((request.params 0 : Int) - 1)) == STDOUT_FILENO
        || to_int32 (to_uint32 ((request.params 0 : Int) - 1)) == STDERR_FILENO)) = false →
      Probe.hostio_write gdb_main_loop t l (to_int32 (to_uint32 ((request.params 0 : Int) - 1)))
          (request.params 1) (request.params 2) = some (r, t1, l1) →
      (0 ≤ r → r ≤ request.params 2 → (request.params 2 : Int) - r ≤ 2147483647 →
        Probe.semihosting_write gdb_main_loop t l request
          = some ((request.params 2 : Int) - r, t1, l1) ∧ 0 ≤ (request.params 2 : Int) - r) ∧
      (r < 0 → Probe.semihosting_write gdb_main_loop t l request = some (r, t1, l1))) ∧
    (∀ (garbage : List Nat) (r : Int),
      os.block calls (request.params 2) = some garbage →
      os.ret (calls ++ [Hosted.os_call.malloc (request.params 2)])
          (Hosted.os_call.read (to_int32 (to_uint32 ((request.params 0 : Int) - 1)))
            (request.params 2)) = r →
      (∀ id : Nat, garbage.length = request.params 2 → t.mem_write = mem_accessor.target id →
        t.mem_err = false →
        range_faults t.mem_fault (request.params 1) (request.params 2) = false →
        0 ≤ r → r ≤ request.params 2 → (request.params 2 : Int) - r ≤ 2147483647 →
        (Hosted.semihosting_read os t calls request).1 = (request.params 2 : Int) - r ∧
          0 ≤ (request.params 2 : Int) - r) ∧
      (-2147483648 ≤ r → r < 0 → (Hosted.semihosting_read os t calls request).1 < 0)) ∧
    (∀ (garbage : List Nat) (id : Nat) (r : Int),
      os.block calls (request.params 2) = some garbage →
      t.mem_read = mem_accessor.target id → t.mem_err = false →
      range_faults t.mem_fault (request.params 1) (request.params 2) = false →
      wrap_int32 (os.ret (calls ++ [Hosted.os_call.malloc (request.params 2)])
          (Hosted.os_call.write (to_int32 (to_uint32 ((request.params 0 : Int) - 1)))
            (target_mem_read t (request.params 1) (request.params 2)).1)) = r →
      (0 ≤ r → r ≤ request.params 2 → (request.params 2 : Int) - r ≤ 2147483647 →
        (Hosted.semihosting_write os t calls request).1 = (request.params 2 : Int) - r ∧
          0 ≤ (request.params 2 : Int) - r) ∧
      (r < 0 → (Hosted.semihosting_write os t calls request).1 = r)) := by
  refine ⟨?_, ?_, ?_, ?_⟩
  · intro r t1 l1 hback
    have hres := probe_read_result gdb_main_loop t l request h1 h2 r t1 l1 hback
    constructor
    · intro h0 hle hsmall
      have hge : r ≥ 0 := h0
      rw [hres, if_pos hge, (diff_to_int32 _ r hle hsmall).1]
      exact ⟨rfl, by omega⟩
    · intro hneg
      have hge : ¬ r ≥ 0 := by omega
      rw [hres, if_neg hge]
  · intro r t1 l1 hredir hback
    rw [← tc_write_relayed gdb_main_loop t l _ _ _ hredir] at hback
    have hres := probe_write_result gdb_main_loop t l request h1 h2 r t1 l1 hback
    constructor
    · intro h0 hle hsmall
      have hge : r ≥ 0 := h0
      rw [hres, if_pos hge, (diff_to_int32 _ r hle hsmall).1]
      exact ⟨rfl, by omega⟩
    · intro hneg
      have hge : ¬ r ≥ 0 := by omega
      rw [hres, if_neg hge]
  · intro garbage r hblock hret
    constructor
    · intro id hlen hacc herr hfault h0 hle hsmall
      have hok := hosted_write_ok t (request.params 1)
        (((os.read_data (calls ++ [Hosted.os_call.malloc (request.params 2)])
            (to_int32 (to_uint32 ((request.params 0 : Int) - 1))) (request.params 2)).take r.toNat
          ++ garbage.drop ((os.read_data (calls ++ [Hosted.os_call.malloc (request.params 2)])
            (to_int32 (to_uint32 ((request.params 0 : Int) - 1)))
            (request.params 2)).take r.toNat).length).take (request.params 2)) id hacc herr
        (by rw [read_buffer_length _ garbage _ r hlen]; exact hfault)
      have hge : r ≥ 0 := h0
      simp only [Hosted.semihosting_read, h1, h2, if_false, hblock, hret, hok, Bool.false_eq_true,
        if_pos hge, (diff_to_int32 _ r hle hsmall).2]
      exact ⟨trivial, by omega⟩
    · intro hlo hneg
      have hge : ¬ r ≥ 0 := by omega
      simp only [Hosted.semihosting_read, h1, h2, if_false, hblock, hret, if_neg hge]
      split
      · show (-1 : Int) < 0
        decide
      · exact wrap_int32_neg r hlo hneg
  · intro garbage id r hblock hacc herr hfault hret
    have hok := hosted_read_ok t (request.params 1) (request.params 2) id hacc herr hfault
    constructor
    · intro h0 hle hsmall
      have hge : r ≥ 0 := h0
      simp only [Hosted.semihosting_write, h1, h2, if_false, hblock, hok, Bool.false_eq_true, hret,
        if_pos hge, (diff_to_int32 _ r hle hsmall).1]
      exact ⟨trivial, by omega⟩
    · intro hneg
      have hge : ¬ r ≥ 0 := by omega
      simp only [Hosted.semihosting_write, h1, h2, if_false, hblock, hok, Bool.false_eq_true, hret,
        if_neg hge]

/-- C7, witness: a relayed read of 5 bytes on handle 4 to which GDB answers `F2`
(2 bytes read) returns 3; a direct write of 4 bytes that the host writes in
full returns 0. -/
theorem read_write_return_witness :
    (sample_request 6 4 4096 5 0).params 1 ≠ TARGET_NULL ∧
    (sample_request 6 4 4096 5 0).params 2 ≠ 0 ∧
    (Probe.semihosting_read (gdb_main_loop_model sample_other) sample_target
        { sample_link with inbound := [['F', '2']] } (sample_request 6 4 4096 5 0)).map
        (fun x => x.1) = some 3 ∧
    (Hosted.semihosting_write sample_os sample_target [] (sample_request 6 4 4096 5 0)).1 = 0 := by
  have h := read_write_return (gdb_main_loop_model sample_other) sample_os sample_target
    { sample_link with inbound := [['F', '2']] } [] (sample_request 6 4 4096 5 0)
    (by decide) (by decide)
  refine ⟨by decide, by decide, ?_, ?_⟩
  · rw [((h.1 2 _ _ rfl).1 (by decide) (by decide) (by decide)).1]
    decide
  · rw [((h.2.2.2 (List.replicate 5 170) 0 5 rfl rfl rfl (by decide) (by decide)).1 (by decide)
      (by decide) (by decide)).1]
    decide

/-- C7, counterexample to the claim as stated.  Relayed build: a read of `2 ^ 31` bytes
at end of file (GDB answers `F0`, zero bytes transferred) returns `-2 ^ 31`, a
negative value for a successful transfer.  Direct build: a read of 4 bytes
that the host transfers in full, into a target buffer whose access faults,
returns -1 and not `count - r = 0`. -/
theorem read_return_negative_on_success :
    (Probe.hostio_read (gdb_main_loop_model sample_other) sample_target
        { sample_link with inbound := [['F', '0']] } 3 4096 2147483648).map (fun x => x.1)
      = some 0 ∧
    (Probe.semihosting_read (gdb_main_loop_model sample_other) sample_target
        { sample_link with inbound := [['F', '0']] } (sample_request 6 4 4096 2147483648 0)).map
        (fun x => x.1) = some (-2147483648) ∧
    sample_os.ret [Hosted.os_call.malloc 4] (Hosted.os_call.read 3 4) = 4 ∧
    (Hosted.semihosting_read sample_os { sample_target with mem_fault := fun _ => true } []
        (sample_request 6 4 4096 4 0)).1 = -1 := by
  refine ⟨by decide, by decide, by decide, by decide⟩

theorem tc_write_loop_terminates {σ : Type} (fuel : Nat) (t : target_s σ) (l : gdb_link)
    (buf count : Nat) (h : count ≤ fuel) :
    ∃ r, Probe.tc_write_loop fuel t l buf count = some r := by
  induction fuel generalizing t l buf count with
  | zero =>
    have h0 : count = 0 := by omega
    subst h0
    exact ⟨(t, l), by simp [Probe.tc_write_loop]⟩
  | succ fuel ih =>
    by_cases h0 : count = 0
    · subst h0
      exact ⟨(t, l), by simp [Probe.tc_write_loop]⟩
    · unfold Probe.tc_write_loop
      simp only [h0, if_false]
      apply ih
      unfold STDOUT_READ_BUF_SIZE
      split <;> omega

/-- C8, what the code does: with console output redirected to the debug serial, a
write to the stdout or stderr handle makes `tc_write` report 0 whatever it
forwarded, so that `semihosting_write` returns the whole count (as a 32-bit
value) and not 0.  For 5 bytes: one chunk of all 5 bytes is forwarded,
`tc_write` returns 0 and `semihosting_write` returns 5. -/
theorem redirected_write_returns_count :
    (∀ (σ : Type) (gdb_main_loop : main_loop σ) (t : target_s σ) (l : gdb_link)
        (buf count p3 : Nat),
      ∃ (t1 : target_s σ) (l1 : gdb_link),
        Probe.semihosting_write gdb_main_loop { t with stdout_redirected := true } l
            { syscall := 5, r1 := 0, params := ![2, buf + 1, count + 1, p3] }
          = some (to_int32 (to_uint32 ((count : Int) + 1)), t1, l1)) ∧
    (Probe.tc_write (gdb_main_loop_model sample_other)
        { sample_target with stdout_redirected := true, mem := fun a => a % 256 } sample_link
        1 4096 5).map (fun x => (x.1, x.2.2.serial)) = some (0, [[0, 1, 2, 3, 4]]) ∧
    (Probe.semihosting_write (gdb_main_loop_model sample_other)
        { sample_target with stdout_redirected := true, mem := fun a => a % 256 } sample_link
        (sample_request 5 2 4096 5 0)).map (fun x => (x.1, x.2.2.serial, x.2.2.sent))
      = some (5, [[0, 1, 2, 3, 4]], []) ∧
    (Probe.semihosting_write (gdb_main_loop_model sample_other)
        { sample_target with stdout_redirected := true, mem := fun a => a % 256 } sample_link
        (sample_request 5 3 4096 5 0)).map (fun x => (x.1, x.2.2.serial, x.2.2.sent))
      = some (5, [[0, 1, 2, 3, 4]], []) := by
  refine ⟨?_, by decide, by decide, by decide⟩
  intro σ gdb_main_loop t l buf count p3
  obtain ⟨r, hr⟩ := tc_write_loop_terminates (count + 1) { t with stdout_redirected := true } l
    (buf + 1) (count + 1) (le_refl _)
  refine ⟨r.1, r.2, ?_⟩
  have hfd : to_int32 (to_uint32 (((2 : Nat) : Int) - 1)) = 1 := by decide
  have hb : buf + 1 ≠ TARGET_NULL := by
    unfold TARGET_NULL
    omega
  have hc : count + 1 ≠ 0 := by omega
  have htc : Probe.tc_write gdb_main_loop { t with stdout_redirected := true } l 1 (buf + 1)
      (count + 1) = some (0, r.1, r.2) := by
    simp [Probe.tc_write, STDOUT_FILENO, hr]
  simp only [Probe.semihosting_write, Matrix.cons_val_zero, Matrix.cons_val_one, Matrix.head_cons,
    Matrix.cons_val_two, Matrix.tail_cons, hfd, hb, hc, if_false, htc]
  simp

/-! ## Open -/

theorem strncmp_console (bytes : List Nat) (h : bytes = [58, 116, 116, 0]) :
    strncmp bytes console_name 4 = 0 := by
  subst h
  decide

theorem probe_table_entry (beyond : Nat → Nat) (i : Nat) (h : i < 6) :
    table_at Probe.open_mode_flags beyond i
      = open_mode_entry TARGET_O_RDONLY TARGET_O_WRONLY TARGET_O_RDWR TARGET_O_CREAT
          TARGET_O_TRUNC TARGET_O_APPEND i := by
  interval_cases i <;> rfl

theorem hosted_table_entry (beyond : Nat → Nat) (i : Nat) (h : i < 6) :
    table_at Hosted.open_mode_flags beyond i
      = open_mode_entry O_RDONLY O_WRONLY O_RDWR O_CREAT O_TRUNC O_APPEND i := by
  interval_cases i <;> rfl

theorem console_handle (beyond : Nat → Nat) (i : Nat) (h : i < 6) :
    (if table_at Probe.open_mode_flags beyond i = TARGET_O_RDONLY then STDIN_FILENO
      else if table_at Probe.open_mode_flags beyond i &&& TARGET_O_TRUNC ≠ 0 then STDOUT_FILENO
      else STDERR_FILENO) + 1
      = (if i = 0 then 1 else if i = 2 ∨ i = 3 then 2 else 3 : Int) := by
  rw [probe_table_entry beyond i h]
  interval_cases i <;> decide

/-- C9: in the relayed build, an open whose mode index is in 0..5 and whose path
address holds `:`, `t`, `t`, NUL returns handle 1 (stdin) for index 0, handle 2
(stdout) for indices 2 and 3 and handle 3 (stderr) for indices 1, 4 and 5,
with the link untouched: no request is sent and no packet is read. -/
theorem console_open_routing {σ : Type} (gdb_main_loop : main_loop σ) (beyond : Nat → Nat)
    (t : target_s σ) (l : gdb_link) (request : semihosting_s)
    (hmode : request.params 1 >>> 1 < 6)
    (hname : (target_mem_read t (request.params 0) 4).1 = [58, 116, 116, 0]) :
    Probe.semihosting_open gdb_main_loop beyond t l request
      = some (if request.params 1 >>> 1 = 0 then 1
              else if request.params 1 >>> 1 = 2 ∨ request.params 1 >>> 1 = 3 then 2
              else 3,
          (target_mem_read t (request.params 0) 4).2, l) := by
  have hcmp := strncmp_console _ hname
  simp only [Probe.semihosting_open, hcmp, if_true]
  rw [console_handle beyond _ hmode]

/-- C9, witness: `:tt` at address 4096, opened with mode argument 4 (`w`, index 2) and
with mode argument 8 (`a`, index 4). -/
theorem console_open_routing_witness :
    (sample_request 1 4096 4 3 0).params 1 >>> 1 < 6 ∧
    (Probe.semihosting_open (gdb_main_loop_model sample_other) (fun _ => 0)
        { sample_target with mem := store_bytes (fun _ => 0) 4096 [58, 116, 116, 0] } sample_link
        (sample_request 1 4096 4 3 0)).map (fun x => (x.1, x.2.2)) = some (2, sample_link) ∧
    (Probe.semihosting_open (gdb_main_loop_model sample_other) (fun _ => 0)
        { sample_target with mem := store_bytes (fun _ => 0) 4096 [58, 116, 116, 0] } sample_link
        (sample_request 1 4096 8 3 0)).map (fun x => (x.1, x.2.2)) = some (3, sample_link) := by
  refine ⟨by decide, ?_, ?_⟩
  · rw [console_open_routing (gdb_main_loop_model sample_other) (fun _ => 0)
      { sample_target with mem := store_bytes (fun _ => 0) 4096 [58, 116, 116, 0] } sample_link
      (sample_request 1 4096 4 3 0) (by decide) (by decide)]
    decide
  · rw [console_open_routing (gdb_main_loop_model sample_other) (fun _ => 0)
      { sample_target with mem := store_bytes (fun _ => 0) 4096 [58, 116, 116, 0] } sample_link
      (sample_request 1 4096 8 3 0) (by decide) (by decide)]
    decide

theorem shift_pair (i : Nat) : (2 * i) >>> 1 = i ∧ (2 * i + 1) >>> 1 = i := by
  simp only [Nat.shiftRight_eq_div_pow, pow_one]
  omega

/-- C10: for a mode argument whose index `i = m >> 1` is in 0..5 and a path that is
not the console name, `semihosting_open` passes to the backend open exactly
entry `i` of the Open-Mode Table as flags (in the relayed build over the
`TARGET_O_*` values, in the direct build over the host's `O_*` values) and
octal 0644 (decimal 420) as permission; the mode arguments `2 i` and `2 i + 1`
select the same entry. -/
theorem open_flags_from_table {σ : Type} (gdb_main_loop : main_loop σ) (os : Hosted.host_os)
    (beyond : Nat → Nat) (t : target_s σ) (l : gdb_link) (calls : List Hosted.os_call)
    (request : semihosting_s)
    (hmode : request.params 1 >>> 1 < 6)
    (hname : strncmp (target_mem_read t (request.params 0) 4).1 console_name 4 ≠ 0) :
    Probe.semihosting_open gdb_main_loop beyond t l request
      = (Probe.hostio_open gdb_main_loop (target_mem_read t (request.params 0) 4).2 l
          (request.params 0) ((request.params 2 + 1) % 4294967296)
          (open_mode_entry TARGET_O_RDONLY TARGET_O_WRONLY TARGET_O_RDWR TARGET_O_CREAT
            TARGET_O_TRUNC TARGET_O_APPEND (request.params 1 >>> 1))
          (6 * 8 ^ 2 + 4 * 8 + 4)).map
          (fun x => (if x.1 ≠ -1 then wrap_int32 (x.1 + 1) else x.1, x.2)) ∧
    (∀ (file_name : List Nat) (t1 : target_s σ) (calls1 : List Hosted.os_call),
      Hosted.semihosting_read_string os (target_mem_read t (request.params 0) 4).2 calls
          (request.params 0) (request.params 2) = (some file_name, t1, calls1) →
      (Hosted.semihosting_open os beyond t calls request).2.2
        = calls1 ++ [Hosted.os_call.open file_name
            (open_mode_entry O_RDONLY O_WRONLY O_RDWR O_CREAT O_TRUNC O_APPEND
              (request.params 1 >>> 1))
            (6 * 8 ^ 2 + 4 * 8 + 4)]) ∧
    (∀ i : Nat, i < 6 →
      table_at Probe.open_mode_flags beyond ((2 * i) >>> 1)
        = open_mode_entry TARGET_O_RDONLY TARGET_O_WRONLY TARGET_O_RDWR TARGET_O_CREAT
            TARGET_O_TRUNC TARGET_O_APPEND i ∧
      table_at Probe.open_mode_flags beyond ((2 * i + 1) >>> 1)
        = open_mode_entry TARGET_O_RDONLY TARGET_O_WRONLY TARGET_O_RDWR TARGET_O_CREAT
            TARGET_O_TRUNC TARGET_O_APPEND i ∧
      table_at Hosted.open_mode_flags beyond ((2 * i) >>> 1)
        = open_mode_entry O_RDONLY O_WRONLY O_RDWR O_CREAT O_TRUNC O_APPEND i ∧
      table_at Hosted.open_mode_flags beyond ((2 * i + 1) >>> 1)
        = open_mode_entry O_RDONLY O_WRONLY O_RDWR O_CREAT O_TRUNC O_APPEND i) := by
  have hperm : (6 * 8 ^ 2 + 4 * 8 + 4 : Nat) = 420 := by norm_num
  refine ⟨?_, ?_, ?_⟩
  · simp only [Probe.semihosting_open, hname, if_false, hperm]
    rw [probe_table_entry beyond _ hmode]
    cases Probe.hostio_open gdb_main_loop (target_mem_read t (request.params 0) 4).2 l
        (request.params 0) ((request.params 2 + 1) % 4294967296)
        (open_mode_entry TARGET_O_RDONLY TARGET_O_WRONLY TARGET_O_RDWR TARGET_O_CREAT
          TARGET_O_TRUNC TARGET_O_APPEND (request.params 1 >>> 1)) 420 with
    | none => rfl
    | some x =>
      obtain ⟨a, b, c⟩ := x
      by_cases ha : a = -1 <;> simp [ha]
  · intro file_name t1 calls1 hstr
    simp only [Hosted.semihosting_open, hname, if_false, hstr, hperm]
    rw [hosted_table_entry beyond _ hmode]
    split <;> rfl
  · intro i hi
    rw [(shift_pair i).1, (shift_pair i).2]
    exact ⟨probe_table_entry beyond i hi, probe_table_entry beyond i hi,
      hosted_table_entry beyond i hi, hosted_table_entry beyond i hi⟩

/-- C10, witness: opening a file with mode argument 4 (`w`) sends an open request with
flags write-only + create + truncate (0x601) and permission 0644 in the
relayed build, and calls the host's open with 0x241 and 0644 in the direct
build. -/
theorem open_flags_from_table_witness :
    (sample_request 1 4096 4 5 0).params 1 >>> 1 < 6 ∧
    (Probe.semihosting_open (gdb_main_loop_model sample_other) (fun _ => 0) sample_target
        { sample_link with inbound := [['F', '3']] } (sample_request 1 4096 4 5 0)).map
        (fun x => x.2.2.sent) = some [fileio_request.open 4096 6 1537 420] ∧
    (Hosted.semihosting_open sample_os (fun _ => 0) sample_target []
        (sample_request 1 4096 4 5 0)).2.2
      = [Hosted.os_call.malloc 6, Hosted.os_call.open [] 577 420] := by
  have h := open_flags_from_table (gdb_main_loop_model sample_other) sample_os (fun _ => 0)
    sample_target { sample_link with inbound := [['F', '3']] } [] (sample_request 1 4096 4 5 0)
    (by decide) (by decide)
  refine ⟨by decide, ?_, ?_⟩
  · rw [h.1]
    decide
  · rw [h.2.1 _ _ _ rfl]
    decide

/-- C11, what the code does: `semihosting_open` has no bound check on the mode index.
For a mode argument of 12 or more the table read `open_mode_flags[m >> 1]` goes
past the six entries, and the word found there is used as the open flags:
with mode argument 12 and a path that is not the console name, an open
request carrying that word is sent (relayed build) or the host's `open` is
called with it (direct build), and the handle 4 is returned, not -1. -/
theorem open_mode_index_unchecked :
    (∀ (beyond : Nat → Nat) (i : Nat),
      table_at Probe.open_mode_flags beyond (i + 6) = beyond (i + 6) ∧
      table_at Hosted.open_mode_flags beyond (i + 6) = beyond (i + 6)) ∧
    (sample_request 1 4096 12 5 0).params 1 >>> 1 = 6 ∧
    (Probe.semihosting_open (gdb_main_loop_model sample_other) (fun i => 57005 + i) sample_target
        { sample_link with inbound := [['F', '3']] } (sample_request 1 4096 12 5 0)).map
        (fun x => (x.1, x.2.2.sent)) = some (4, [fileio_request.open 4096 6 57011 420]) ∧
    ((Hosted.semihosting_open sample_os (fun i => 57005 + i) sample_target []
        (sample_request 1 4096 12 5 0)).1 = 4 ∧
      (Hosted.semihosting_open sample_os (fun i => 57005 + i) sample_target []
        (sample_request 1 4096 12 5 0)).2.2
        = [Hosted.os_call.malloc 6, Hosted.os_call.open [] 57011 420]) := by
  refine ⟨?_, by decide, by decide, by decide, by decide⟩
  intro beyond i
  constructor <;> rfl

/-! ## Clock -/

theorem clock_tail_origin (o s u : Nat) : (semihosting_clock_tail o s u).2 = min o s := by
  unfold semihosting_clock_tail
  simp only []
  split <;> omega

theorem clock_tail_nonneg (o s u : Nat) : 0 ≤ (semihosting_clock_tail o s u).1 := by
  unfold semihosting_clock_tail
  simp only []
  generalize ((to_uint32 ((s : Int) - ((if o > s then s else o : Nat) : Int)) * 100 % 4294967296
    + u / 10000) % 4294967296) = c
  have h : c &&& 2147483647 ≤ 2147483647 := Nat.and_le_right
  unfold to_int32
  split <;> omega

theorem clock_tail_value (o s u : Nat) (hs : s < 4294967296) :
    (semihosting_clock_tail o s u).1
      = (((s - min o s) * 100 + u / 10000) % 2147483648 : Nat) := by
  unfold semihosting_clock_tail
  simp only []
  have hm : (if o > s then s else o) = min o s := by split <;> omega
  rw [hm]
  have h1 : to_uint32 ((s : Int) - ((min o s : Nat) : Int)) = s - min o s := by
    unfold to_uint32
    omega
  rw [h1]
  have hand : ∀ c : Nat, c &&& 2147483647 = c % 2147483648 := fun c =>
    Nat.and_pow_two_sub_one_eq_mod c 31
  rw [hand]
  unfold to_int32
  split <;> omega

theorem clock_queries_append (o : Nat) (a : List (Nat × Nat)) (x : Nat × Nat) :
    (clock_queries o (a ++ [x])).2 = (semihosting_clock_tail (clock_queries o a).2 x.1 x.2).2 := by
  induction a generalizing o with
  | nil => rfl
  | cons y ys ih =>
    simp only [List.cons_append, clock_queries]
    exact ih _

theorem clock_queries_origin (o : Nat) (obs : List (Nat × Nat)) :
    (clock_queries o obs).2 ≤ o ∧ (∀ x ∈ obs, (clock_queries o obs).2 ≤ x.1) ∧
    ((clock_queries o obs).2 = o ∨ ∃ x ∈ obs, (clock_queries o obs).2 = x.1) := by
  induction obs generalizing o with
  | nil => simp [clock_queries]
  | cons y ys ih =>
    obtain ⟨h1, h2, h3⟩ := ih (semihosting_clock_tail o y.1 y.2).2
    have hy := clock_tail_origin o y.1 y.2
    simp only [clock_queries]
    refine ⟨by omega, ?_, ?_⟩
    · intro x hx
      rcases List.mem_cons.mp hx with rfl | hx
      · omega
      · exact h2 x hx
    · rcases h3 with h3 | ⟨x, hx, h3⟩
      · by_cases hle : o ≤ y.1
        · left
          omega
        · right
          exact ⟨y, by simp, by omega⟩
      · right
        exact ⟨x, by simp [hx], h3⟩

theorem clock_queries_nonneg (o : Nat) (obs : List (Nat × Nat)) :
    ∀ r ∈ (clock_queries o obs).1, 0 ≤ r := by
  induction obs generalizing o with
  | nil => simp [clock_queries]
  | cons y ys ih =>
    intro r hr
    simp only [clock_queries] at hr
    rcases List.mem_cons.mp hr with rfl | hr
    · exact clock_tail_nonneg o y.1 y.2
    · exact ih _ r hr

/-- A successful query in the direct build applies the end of `semihosting_clock` to the
time of day the host reports. -/
theorem hosted_clock_success {σ : Type} (os : Hosted.host_os) (t : target_s σ)
    (calls : List Hosted.os_call) (o : Nat)
    (h : os.ret calls Hosted.os_call.gettimeofday = 0) :
    Hosted.semihosting_clock os t calls o
      = ((semihosting_clock_tail o (to_uint32 (os.tv calls).1) (to_uint32 (os.tv calls).2)).1, t,
          calls ++ [Hosted.os_call.gettimeofday],
          (semihosting_clock_tail o (to_uint32 (os.tv calls).1) (to_uint32 (os.tv calls).2)).2) :=
              by
  simp [Hosted.semihosting_clock, h]

/-- A successful query in the relayed build applies the end of `semihosting_clock` to the
time of day `semihosting_get_time` delivers. -/
theorem probe_clock_success {σ : Type} (gdb_main_loop : main_loop σ) (time_value : Nat)
    (t : target_s σ) (l : gdb_link) (o : Nat) (current_time : semihosting_time_s)
    (t1 : target_s σ) (l1 : gdb_link)
    (h : Probe.semihosting_get_time gdb_main_loop time_value t l = some (current_time, t1, l1))
    (hok : ¬ (current_time.seconds = UINT32_MAX ∧ current_time.microseconds = UINT64_MAX)) :
    Probe.semihosting_clock gdb_main_loop time_value t l o
      = some ((semihosting_clock_tail o current_time.seconds
            (current_time.microseconds % 4294967296)).1, t1, l1,
          (semihosting_clock_tail o current_time.seconds
            (current_time.microseconds % 4294967296)).2) := by
  simp only [Probe.semihosting_clock, h, hok, if_false]

theorem take_succ_snoc (obs : List (Nat × Nat)) (k : Nat) (hk : k < obs.length) :
    ∃ x ∈ obs, obs.take (k + 1) = obs.take k ++ [x] := by
  refine ⟨obs[k], List.getElem_mem hk, ?_⟩
  rw [List.take_succ, List.getElem?_eq_getElem hk]
  rfl

/-- C12: over any sequence of successful clock queries with 32-bit seconds values,
started from the unset origin `UINT32_MAX`, the stored origin after each query
is not greater than before it and is the minimum of the seconds values seen
so far, and every value returned is at least 0.  A successful query of
`semihosting_clock`, in either build, is one step of such a sequence. -/
theorem clock_origin_is_minimum (obs : List (Nat × Nat)) (hobs : ∀ x ∈ obs, x.1 ≤ UINT32_MAX) :
    (∀ k : Nat, k < obs.length →
      (clock_queries UINT32_MAX (obs.take (k + 1))).2 ≤ (clock_queries UINT32_MAX (obs.take k)).2 ∧
      (∀ x ∈ obs.take (k + 1), (clock_queries UINT32_MAX (obs.take (k + 1))).2 ≤ x.1) ∧
      (∃ x ∈ obs.take (k + 1), (clock_queries UINT32_MAX (obs.take (k + 1))).2 = x.1)) ∧
    (∀ r ∈ (clock_queries UINT32_MAX obs).1, 0 ≤ r) ∧
    (∀ (σ : Type) (os : Hosted.host_os) (t : target_s σ) (calls : List Hosted.os_call) (o : Nat),
      os.ret calls Hosted.os_call.gettimeofday = 0 →
      ((Hosted.semihosting_clock os t calls o).1 :: [], (Hosted.semihosting_clock os t calls
          o).2.2.2)
        = clock_queries o [(to_uint32 (os.tv calls).1, to_uint32 (os.tv calls).2)]) ∧
    (∀ (σ : Type) (gdb_main_loop : main_loop σ) (time_value : Nat) (t : target_s σ) (l : gdb_link)
        (o : Nat) (current_time : semihosting_time_s) (t1 : target_s σ) (l1 : gdb_link),
      Probe.semihosting_get_time gdb_main_loop time_value t l = some (current_time, t1, l1) →
      ¬ (current_time.seconds = UINT32_MAX ∧ current_time.microseconds = UINT64_MAX) →
      (Probe.semihosting_clock gdb_main_loop time_value t l o).map
          (fun x => (x.1 :: [], x.2.2.2))
        = some (clock_queries o
            [(current_time.seconds, current_time.microseconds % 4294967296)])) := by
  refine ⟨?_, clock_queries_nonneg UINT32_MAX obs, ?_, ?_⟩
  · intro k hk
    obtain ⟨x, hx, htake⟩ := take_succ_snoc obs k hk
    have happ := clock_queries_append UINT32_MAX (obs.take k) x
    rw [← htake] at happ
    have hmin := clock_tail_origin (clock_queries UINT32_MAX (obs.take k)).2 x.1 x.2
    obtain ⟨h1, h2, h3⟩ := clock_queries_origin UINT32_MAX (obs.take (k + 1))
    refine ⟨by omega, h2, ?_⟩
    rcases h3 with h3 | h3
    · have hxm : x ∈ obs.take (k + 1) := by
        rw [htake]
        simp
      have hle := h2 x hxm
      have hub := hobs x hx
      exact ⟨x, hxm, by omega⟩
    · exact h3
  · intro σ os t calls o h
    rw [hosted_clock_success os t calls o h]
    rfl
  · intro σ gdb_main_loop time_value t l o current_time t1 l1 h hok
    rw [probe_clock_success gdb_main_loop time_value t l o current_time t1 l1 h hok]
    rfl

/-- C12, witness: the seconds values 1000, 990, 1005, 990 (out of order, one repeated). -/
theorem clock_origin_is_minimum_witness :
    (∀ x ∈ [((1000 : Nat), (20000 : Nat)), (990, 0), (1005, 999999), (990, 500000)],
      x.1 ≤ UINT32_MAX) ∧
    (clock_queries UINT32_MAX [(1000, 20000), (990, 0), (1005, 999999), (990, 500000)])
      = ([2, 0, 1599, 50], 990) ∧
    (∀ r ∈ (clock_queries UINT32_MAX
        [(1000, 20000), (990, 0), (1005, 999999), (990, 500000)]).1, 0 ≤ r) := by
  refine ⟨by decide, by decide, ?_⟩
  exact (clock_origin_is_minimum [(1000, 20000), (990, 0), (1005, 999999), (990, 500000)]
    (by decide)).2.1

/-- C13: for a successful time observation of `s` seconds and `u` microseconds
(`s`, `u` below `2 ^ 32`) and stored origin `o`, `semihosting_clock` returns
`((s - o') * 100 + u / 10000) mod 2 ^ 31` with `o' = min o s` the origin after the
update, in both builds; the 32-bit wrap of the product and the sum does not
show in that value.  The first query after start-up returns `u / 10000`. -/
theorem clock_returns_centiseconds (o s u : Nat) (hs : s < 4294967296) (hu : u < 4294967296) :
    (semihosting_clock_tail o s u).1
      = (((s - min o s) * 100 + u / 10000) % 2147483648 : Nat) ∧
    (semihosting_clock_tail o s u).2 = min o s ∧
    (semihosting_clock_tail UINT32_MAX s u).1 = ((u / 10000 : Nat) : Int) ∧
    (∀ (σ : Type) (os : Hosted.host_os) (t : target_s σ) (calls : List Hosted.os_call),
      os.ret calls Hosted.os_call.gettimeofday = 0 →
      to_uint32 (os.tv calls).1 = s → to_uint32 (os.tv calls).2 = u →
      (Hosted.semihosting_clock os t calls o).1
          = (((s - min o s) * 100 + u / 10000) % 2147483648 : Nat) ∧
        (Hosted.semihosting_clock os t calls o).2.2.2 = min o s) ∧
    (∀ (σ : Type) (gdb_main_loop : main_loop σ) (time_value : Nat) (t : target_s σ) (l : gdb_link)
        (t1 : target_s σ) (l1 : gdb_link),
      Probe.semihosting_get_time gdb_main_loop time_value t l
        = some ({ microseconds := u, seconds := s }, t1, l1) →
      Probe.semihosting_clock gdb_main_loop time_value t l o
        = some (((((s - min o s) * 100 + u / 10000) % 2147483648 : Nat) : Int), t1, l1,
            min o s)) := by
  have hval := clock_tail_value o s u hs
  have horg := clock_tail_origin o s u
  refine ⟨hval, horg, ?_, ?_, ?_⟩
  · rw [clock_tail_value UINT32_MAX s u hs]
    unfold UINT32_MAX
    have : min 4294967295 s = s := by omega
    rw [this]
    have h2 : (s - s) * 100 + u / 10000 = u / 10000 := by omega
    rw [h2]
    have h3 : u / 10000 % 2147483648 = u / 10000 := by omega
    rw [h3]
  · intro σ os t calls h hsec husec
    rw [hosted_clock_success os t calls o h, hsec, husec]
    exact ⟨hval, horg⟩
  · intro σ gdb_main_loop time_value t l t1 l1 h
    have hok : ¬ (({ microseconds := u, seconds := s } : semihosting_time_s).seconds = UINT32_MAX ∧
        ({ microseconds := u, seconds := s } : semihosting_time_s).microseconds = UINT64_MAX) := by
      unfold UINT64_MAX
      simp only []
      omega
    rw [probe_clock_success gdb_main_loop time_value t l o _ t1 l1 h hok]
    have hu2 : u % 4294967296 = u := Nat.mod_eq_of_lt hu
    simp only [hu2, hval, horg]

/-- C13, witness: origin 990, observation 1005 s and 999999 us gives 1599
centiseconds; in the direct build the first query at 1000 s and 250000 us
returns 25. -/
theorem clock_returns_centiseconds_witness :
    (1005 : Nat) < 4294967296 ∧ (999999 : Nat) < 4294967296 ∧
    (semihosting_clock_tail 990 1005 999999).1 = 1599 ∧
    (Hosted.semihosting_clock sample_os sample_target [] UINT32_MAX).1 = 25 := by
  refine ⟨by decide, by decide, ?_, ?_⟩
  · rw [(clock_returns_centiseconds 990 1005 999999 (by decide) (by decide)).1]
    decide
  · rw [((clock_returns_centiseconds UINT32_MAX 1000 250000 (by decide) (by decide)).2.2.2.1 Unit
      sample_os sample_target [] (by decide) (by decide) (by decide)).1]
    decide

/-- C14: in the relayed build, when the relayed `gettimeofday` returns a non-zero
result, `semihosting_get_time` returns the pair seconds = `UINT32_MAX`,
microseconds = `UINT64_MAX`, and `semihosting_clock` returns -1 and leaves
`time0_sec` as it was. -/
theorem get_time_failure {σ : Type} (gdb_main_loop : main_loop σ) (time_value : Nat)
    (t : target_s σ) (l : gdb_link) (time0_sec : Nat) (result : Int) (t1 : target_s σ)
    (l1 : gdb_link)
    (h : Probe.hostio_gettimeofday gdb_main_loop
      { t with mem_read := mem_accessor.probe, mem_write := mem_accessor.probe } l time_value
      TARGET_NULL = some (result, t1, l1))
    (hresult : result ≠ 0) :
    Probe.semihosting_get_time gdb_main_loop time_value t l
      = some ({ microseconds := UINT64_MAX, seconds := UINT32_MAX },
          { t1 with mem_read := t.mem_read, mem_write := t.mem_write }, l1) ∧
    Probe.semihosting_clock gdb_main_loop time_value t l time0_sec
      = some (-1, { t1 with mem_read := t.mem_read, mem_write := t.mem_write }, l1, time0_sec) := by
  have hget : Probe.semihosting_get_time gdb_main_loop time_value t l
      = some ({ microseconds := UINT64_MAX, seconds := UINT32_MAX },
          { t1 with mem_read := t.mem_read, mem_write := t.mem_write }, l1) := by
    simp only [Probe.semihosting_get_time, h, hresult, ne_eq, not_false_eq_true, if_true]
  refine ⟨hget, ?_⟩
  simp only [Probe.semihosting_clock, hget, and_self, if_true]
  rfl

/-- C14, witness: GDB answers the `gettimeofday` request with `F-1,16`. -/
theorem get_time_failure_witness :
    (Probe.hostio_gettimeofday (gdb_main_loop_model sample_other)
        { sample_target with mem_read := mem_accessor.probe, mem_write := mem_accessor.probe }
        { sample_link with inbound := [['F', '-', '1', ',', '1', '6']] } 512 TARGET_NULL).map
        (fun x => x.1) = some (-1) ∧
    (Probe.semihosting_get_time (gdb_main_loop_model sample_other) 512 sample_target
        { sample_link with inbound := [['F', '-', '1', ',', '1', '6']] }).map (fun x => x.1)
      = some { microseconds := 18446744073709551615, seconds := 4294967295 } ∧
    (Probe.semihosting_clock (gdb_main_loop_model sample_other) 512 sample_target
        { sample_link with inbound := [['F', '-', '1', ',', '1', '6']] } 990).map
        (fun x => (x.1, x.2.2.2)) = some (-1, 990) := by
  have hres : (Probe.hostio_gettimeofday (gdb_main_loop_model sample_other)
      { sample_target with mem_read := mem_accessor.probe, mem_write := mem_accessor.probe }
      { sample_link with inbound := [['F', '-', '1', ',', '1', '6']] } 512 TARGET_NULL).map
      (fun x => x.1) = some (-1) := by decide
  refine ⟨hres, ?_⟩
  cases hx : Probe.hostio_gettimeofday (gdb_main_loop_model sample_other)
      { sample_target with mem_read := mem_accessor.probe, mem_write := mem_accessor.probe }
      { sample_link with inbound := [['F', '-', '1', ',', '1', '6']] } 512 TARGET_NULL with
  | none =>
    rw [hx] at hres
    cases hres
  | some v =>
    obtain ⟨r, t1, l1⟩ := v
    rw [hx] at hres
    simp only [Option.map_some', Option.some.injEq] at hres
    subst hres
    have h := get_time_failure (gdb_main_loop_model sample_other) 512 sample_target
      { sample_link with inbound := [['F', '-', '1', ',', '1', '6']] } 990 (-1) t1 l1 hx
      (by decide)
    refine ⟨?_, ?_⟩
    · rw [h.1]
      rfl
    · rw [h.2]
      rfl

/-! ## The dispatcher -/

theorem read_request_frame {σ : Type} (t : target_s σ) :
    (read_request t).2.mem = t.mem ∧ (read_request t).2.probe_mem = t.probe_mem ∧
    (read_request t).2.tc.interrupted = false ∧ (read_request t).2.mem_write = t.mem_write ∧
    (read_request t).2.mem_read = t.mem_read ∧ (read_request t).2.regs = t.regs ∧
    (read_request t).2.mem_fault = t.mem_fault := by
  unfold read_request
  simp only []
  split
  · unfold target_mem_read
    split <;> simp
  · simp

theorem target_mem_write_frame {σ : Type} (t : target_s σ) (dest : Nat) (data : List Nat) :
    (target_mem_write t dest data).2.tc = t.tc ∧
    (target_mem_write t dest data).2.regs = t.regs ∧
    (target_mem_write t dest data).2.mem_read = t.mem_read ∧
    (target_mem_write t dest data).2.mem_write = t.mem_write := by
  unfold target_mem_write
  split
  · simp
  · split <;> simp

theorem target_mem_write_stores {σ : Type} (t : target_s σ) (dest : Nat) (data : List Nat)
    (id : Nat) (hacc : t.mem_write = mem_accessor.target id)
    (hok : (target_mem_write t dest data).1 = false) :
    (target_mem_write t dest data).2.mem = store_bytes t.mem dest data ∧
    (target_mem_write t dest data).2.probe_mem = t.probe_mem := by
  unfold target_mem_write at hok ⊢
  simp only [hacc] at hok ⊢
  split at hok
  · simp at hok
  · rename_i hf
    simp [hf]

theorem target_mem_write_fails {σ : Type} (t : target_s σ) (dest : Nat) (data : List Nat)
    (hfail : (target_mem_write t dest data).1 = true) :
    (target_mem_write t dest data).2.mem = t.mem ∧
    (target_mem_write t dest data).2.probe_mem = t.probe_mem := by
  unfold target_mem_write at hfail ⊢
  split at hfail
  · simp at hfail
  · split at hfail
    · rename_i hf
      simp [hf]
    · simp at hfail

theorem probe_dispatch_tmpnam {σ : Type} (gdb_main_loop : main_loop σ)
    (env : Probe.probe_locals) (fuel : Nat) (t : target_s σ) (l : gdb_link) (time0_sec : Nat)
    (request : semihosting_s) (h : request.syscall = SEMIHOSTING_SYS_TMPNAM) :
    Probe.dispatch gdb_main_loop env fuel t l time0_sec request
      = some ((sys_tmpnam t request).1, (sys_tmpnam t request).2, l, time0_sec) := by
  unfold SEMIHOSTING_SYS_TMPNAM at h
  simp [Probe.dispatch, h, SEMIHOSTING_SYS_OPEN, SEMIHOSTING_SYS_CLOSE, SEMIHOSTING_SYS_READ,
    SEMIHOSTING_SYS_WRITE, SEMIHOSTING_SYS_WRITEC, SEMIHOSTING_SYS_WRITE0, SEMIHOSTING_SYS_ISTTY,
    SEMIHOSTING_SYS_SEEK, SEMIHOSTING_SYS_RENAME, SEMIHOSTING_SYS_REMOVE, SEMIHOSTING_SYS_SYSTEM,
    SEMIHOSTING_SYS_FLEN, SEMIHOSTING_SYS_CLOCK, SEMIHOSTING_SYS_TIME, SEMIHOSTING_SYS_READC,
    SEMIHOSTING_SYS_ERRNO, SEMIHOSTING_SYS_EXIT, SEMIHOSTING_SYS_EXIT_EXTENDED,
    SEMIHOSTING_SYS_GET_CMDLINE, SEMIHOSTING_SYS_ISERROR, SEMIHOSTING_SYS_HEAPINFO,
    SEMIHOSTING_SYS_TMPNAM]

theorem hosted_dispatch_tmpnam {σ : Type} (os : Hosted.host_os) (beyond : Nat → Nat)
    (fuel : Nat) (t : target_s σ) (calls : List Hosted.os_call) (time0_sec : Nat)
    (request : semihosting_s) (h : request.syscall = SEMIHOSTING_SYS_TMPNAM) :
    Hosted.dispatch os beyond fuel t calls time0_sec request
      = some ((sys_tmpnam t request).1, (sys_tmpnam t request).2, calls, time0_sec) := by
  unfold SEMIHOSTING_SYS_TMPNAM at h
  simp [Hosted.dispatch, h, SEMIHOSTING_SYS_OPEN, SEMIHOSTING_SYS_CLOSE, SEMIHOSTING_SYS_READ,
    SEMIHOSTING_SYS_WRITE, SEMIHOSTING_SYS_WRITEC, SEMIHOSTING_SYS_WRITE0, SEMIHOSTING_SYS_ISTTY,
    SEMIHOSTING_SYS_SEEK, SEMIHOSTING_SYS_RENAME, SEMIHOSTING_SYS_REMOVE, SEMIHOSTING_SYS_SYSTEM,
    SEMIHOSTING_SYS_FLEN, SEMIHOSTING_SYS_CLOCK, SEMIHOSTING_SYS_TIME, SEMIHOSTING_SYS_READC,
    SEMIHOSTING_SYS_ERRNO, SEMIHOSTING_SYS_EXIT, SEMIHOSTING_SYS_EXIT_EXTENDED,
    SEMIHOSTING_SYS_GET_CMDLINE, SEMIHOSTING_SYS_ISERROR, SEMIHOSTING_SYS_HEAPINFO,
    SEMIHOSTING_SYS_TMPNAM]

theorem tmpnam_letters (n : Nat) (hn : n ≤ 255) :
    (65 + (n &&& 15)) % 256 = 65 + (n &&& 15) ∧ (65 + (n >>> 4 &&& 15)) % 256 = 65 + n >>> 4 ∧
    n &&& 15 ≤ 15 ∧ n >>> 4 ≤ 15 := by
  have h1 : n &&& 15 ≤ 15 := Nat.and_le_right
  have h2 : n >>> 4 ≤ 15 := by
    rw [Nat.shiftRight_eq_div_pow]
    omega
  have h3 : n >>> 4 &&& 15 = n >>> 4 := by
    have := @Nat.and_pow_two_sub_one_of_lt_two_pow 4 (n >>> 4) (by omega)
    simpa using this
  rw [h3]
  refine ⟨by omega, by omega, h1, h2⟩

theorem tmpnam_fnam (n : Nat) (hn : n ≤ 255) :
    (([116, 101, 109, 112, 88, 88, 46, 116, 109, 112, 0] : List Nat).set 5
        ((65 + (n &&& 15)) % 256)).set 4 ((65 + (n >>> 4 &&& 15)) % 256) = tmpnam_name n ∧
    strlen (tmpnam_name n) = 10 := by
  obtain ⟨h1, h2, h3, h4⟩ := tmpnam_letters n hn
  constructor
  · rw [h1, h2]
    rfl
  · have ha : (65 + n >>> 4 != 0) = true := by
      simp only [bne_iff_ne, ne_eq]
      omega
    have hb : (65 + (n &&& 15) != 0) = true := by
      simp only [bne_iff_ne, ne_eq]
      omega
    simp [strlen, tmpnam_name, List.takeWhile, ha, hb]

theorem to_int32_byte (p : Nat) (h : p ≤ 255) : to_int32 p = (p : Int) :=
  to_int32_small p (by omega)

theorem to_int32_range (n : Nat) : -2147483648 ≤ to_int32 n ∧ to_int32 n ≤ 2147483647 := by
  unfold to_int32
  split <;> omega

theorem sys_tmpnam_ok {σ : Type} (t : target_s σ) (request : semihosting_s)
    (hbuf : request.params 0 ≠ 0) (hid : request.params 1 ≤ 255)
    (hsize : 11 ≤ to_int32 (request.params 2)) :
    sys_tmpnam t request
      = (if (target_mem_write t (request.params 0) (tmpnam_name (request.params 1))).1 then -1
         else 0,
         (target_mem_write t (request.params 0) (tmpnam_name (request.params 1))).2) := by
  obtain ⟨hf, hlen⟩ := tmpnam_fnam (request.params 1) hid
  have hidv := to_int32_byte (request.params 1) hid
  have hs1 : ¬ to_int32 (request.params 2) ≤ 0 := by omega
  have hs2 : ¬ (10 + 1 > to_uint32 (to_int32 (request.params 2))) := by
    have := to_int32_range (request.params 2)
    unfold to_uint32
    omega
  have hi : ¬ ((request.params 1 : Int) < 0 ∨ (request.params 1 : Int) > 255) := by omega
  unfold sys_tmpnam
  simp only [hbuf, if_false, hs1, hidv, hi, Int.toNat_ofNat, hf, hlen, hs2]
  have htake : (tmpnam_name (request.params 1)).take (10 + 1) = tmpnam_name (request.params 1) := by
    simp [tmpnam_name]
  rw [htake]
  split <;> rfl

theorem sys_tmpnam_fail {σ : Type} (t : target_s σ) (request : semihosting_s)
    (hfail : request.params 0 = 0 ∨ to_int32 (request.params 2) ≤ 0 ∨
      to_int32 (request.params 1) < 0 ∨ to_int32 (request.params 1) > 255 ∨
      to_int32 (request.params 2) < 11) :
    sys_tmpnam t request = (-1, t) := by
  unfold sys_tmpnam
  simp only []
  by_cases h0 : request.params 0 = 0
  · simp [h0]
  · by_cases h1 : to_int32 (request.params 2) ≤ 0
    · simp [h0, h1]
    · by_cases h2 : to_int32 (request.params 1) < 0 ∨ to_int32 (request.params 1) > 255
      · simp only [h0, h1, h2, if_false, if_true]
      · have h3 : to_int32 (request.params 2) < 11 := by
          rcases hfail with h | h | h | h | h
          · exact absurd h h0
          · exact absurd h h1
          · exact absurd (Or.inl h) h2
          · exact absurd (Or.inr h) h2
          · exact h
        have hn : (to_int32 (request.params 1)).toNat ≤ 255 := by omega
        obtain ⟨hf, hlen⟩ := tmpnam_fnam _ hn
        have hs2 : 10 + 1 > to_uint32 (to_int32 (request.params 2)) := by
          unfold to_uint32
          omega
        simp only [h0, h1, h2, if_false, hf, hlen, hs2, if_true]

/-- C15: for a tmpnam request with a non-null buffer address, a target id in 0..255
and a buffer size (which the code reads as a signed 32-bit value) of at least
11, when the target memory write succeeds the dispatcher, in either build,
writes exactly the 11 bytes `temp`, c1, c2, `.tmp`, NUL at the buffer address,
with `c1 = 'A' + (id >> 4)` and `c2 = 'A' + (id & 15)`, writes 0 to register 0 and
returns false.  Id 0 gives the letters `A`, `A` and id 255 the letters `P`, `P`. -/
theorem tmpnam_writes_name {σ : Type} (gdb_main_loop : main_loop σ) (env : Probe.probe_locals)
    (os : Hosted.host_os) (beyond : Nat → Nat) (fuel : Nat) (t : target_s σ) (l : gdb_link)
    (calls : List Hosted.os_call) (time0_sec : Nat)
    (hcall : (read_request t).1.syscall = SEMIHOSTING_SYS_TMPNAM)
    (hbuf : ((read_request t).1.params 0) ≠ 0)
    (hid : ((read_request t).1.params 1) ≤ 255)
    (hsize : 11 ≤ to_int32 ((read_request t).1.params 2))
    (hwrite : (target_mem_write (read_request t).2 ((read_request t).1.params 0) (tmpnam_name
        ((read_request t).1.params 1))).1 = false) :
    Probe.cortexm_hostio_request gdb_main_loop env fuel t l time0_sec
      = some (false, target_reg_write (target_mem_write (read_request t).2 ((read_request
          t).1.params 0) (tmpnam_name ((read_request t).1.params 1))).2 0 0, l, time0_sec) ∧
    Hosted.cortexm_hostio_request os beyond fuel t calls time0_sec
      = some (false, target_reg_write (target_mem_write (read_request t).2 ((read_request
          t).1.params 0) (tmpnam_name ((read_request t).1.params 1))).2 0 0, calls, time0_sec) ∧
    (target_reg_write (target_mem_write (read_request t).2 ((read_request t).1.params 0)
        (tmpnam_name ((read_request t).1.params 1))).2 0 0).regs 0 = 0 ∧
    (∀ id : Nat, t.mem_write = mem_accessor.target id →
      (target_reg_write (target_mem_write (read_request t).2 ((read_request t).1.params 0)
          (tmpnam_name ((read_request t).1.params 1))).2 0 0).mem = store_bytes t.mem ((read_request
          t).1.params 0) (tmpnam_name ((read_request t).1.params 1))) ∧
    tmpnam_name 0 = [116, 101, 109, 112, 65, 65, 46, 116, 109, 112, 0] ∧
    tmpnam_name 255 = [116, 101, 109, 112, 80, 80, 46, 116, 109, 112, 0] := by
  have hsys := sys_tmpnam_ok (read_request t).2 (read_request t).1 hbuf hid hsize
  rw [hwrite] at hsys
  simp only [Bool.false_eq_true, if_false] at hsys
  have hint : (target_mem_write (read_request t).2 ((read_request t).1.params 0) (tmpnam_name
      ((read_request t).1.params 1))).2.tc.interrupted = false := by
    rw [(target_mem_write_frame _ _ _).1]
    exact (read_request_frame t).2.2.1
  refine ⟨?_, ?_, ?_, ?_, by decide, by decide⟩
  · simp only [Probe.cortexm_hostio_request,
      probe_dispatch_tmpnam gdb_main_loop env fuel _ l time0_sec _ hcall, hsys, hint]
    rfl
  · simp only [Hosted.cortexm_hostio_request,
      hosted_dispatch_tmpnam os beyond fuel _ calls time0_sec _ hcall, hsys, hint]
    rfl
  · simp [target_reg_write]
  · intro id hacc
    have hacc2 : (read_request t).2.mem_write = mem_accessor.target id := by
      rw [(read_request_frame t).2.2.2.1]
      exact hacc
    have hst := (target_mem_write_stores (read_request t).2 ((read_request t).1.params 0)
        (tmpnam_name ((read_request t).1.params 1)) id hacc2 hwrite).1
    rw [(read_request_frame t).1] at hst
    simpa [target_reg_write] using hst

/-- C15, witness: a tmpnam call for id 0xAB into a 16-byte buffer at address 8192
writes `tempKL.tmp` and its terminator there and 0 to register 0, in both
builds. -/
theorem tmpnam_writes_name_witness :
    (read_request (sample_call 13 8192 171 16 0)).1.syscall = SEMIHOSTING_SYS_TMPNAM ∧
    (Probe.cortexm_hostio_request (gdb_main_loop_model sample_other) sample_locals 0
        (sample_call 13 8192 171 16 0) sample_link 0).map
        (fun x => (x.1, x.2.1.regs 0, mem_bytes x.2.1.mem 8192 11))
      = some (false, 0, [116, 101, 109, 112, 75, 76, 46, 116, 109, 112, 0]) ∧
    (Hosted.cortexm_hostio_request sample_os (fun _ => 0) 0 (sample_call 13 8192 171 16 0) [] 0).map
        (fun x => (x.1, x.2.1.regs 0, mem_bytes x.2.1.mem 8192 11))
      = some (false, 0, [116, 101, 109, 112, 75, 76, 46, 116, 109, 112, 0]) := by
  have h := tmpnam_writes_name (gdb_main_loop_model sample_other) sample_locals sample_os
    (fun _ => 0) 0 (sample_call 13 8192 171 16 0) sample_link [] 0 (by decide) (by decide)
    (by decide) (by decide) (by decide)
  refine ⟨by decide, ?_, ?_⟩
  · rw [h.1]
    decide
  · rw [h.2.1]
    decide

/-- C16: for a tmpnam request whose buffer address is null, or whose buffer size as a
signed 32-bit value is not positive, or whose target id as a signed 32-bit
value is below 0 or above 255, or whose buffer size is below 11, the
dispatcher, in either build, writes -1 to register 0, returns false, and
leaves target memory as it was. -/
theorem tmpnam_rejects {σ : Type} (gdb_main_loop : main_loop σ) (env : Probe.probe_locals)
    (os : Hosted.host_os) (beyond : Nat → Nat) (fuel : Nat) (t : target_s σ) (l : gdb_link)
    (calls : List Hosted.os_call) (time0_sec : Nat)
    (hcall : (read_request t).1.syscall = SEMIHOSTING_SYS_TMPNAM)
    (hfail : ((read_request t).1.params 0) = 0 ∨ to_int32 ((read_request t).1.params 2) ≤ 0 ∨
      to_int32 ((read_request t).1.params 1) < 0 ∨ to_int32 ((read_request t).1.params 1) > 255 ∨
      to_int32 ((read_request t).1.params 2) < 11) :
    Probe.cortexm_hostio_request gdb_main_loop env fuel t l time0_sec
      = some (false, target_reg_write (read_request t).2 0 (to_uint32 (-1)), l, time0_sec) ∧
    Hosted.cortexm_hostio_request os beyond fuel t calls time0_sec
      = some (false, target_reg_write (read_request t).2 0 (to_uint32 (-1)), calls, time0_sec) ∧
    to_int32 ((target_reg_write (read_request t).2 0 (to_uint32 (-1))).regs 0) = -1 ∧
    (target_reg_write (read_request t).2 0 (to_uint32 (-1))).mem = t.mem ∧
    (target_reg_write (read_request t).2 0 (to_uint32 (-1))).probe_mem = t.probe_mem := by
  have hsys := sys_tmpnam_fail (read_request t).2 (read_request t).1 hfail
  have hint := (read_request_frame t).2.2.1
  refine ⟨?_, ?_, ?_, ?_, ?_⟩
  · simp only [Probe.cortexm_hostio_request,
      probe_dispatch_tmpnam gdb_main_loop env fuel _ l time0_sec _ hcall, hsys, hint]
  · simp only [Hosted.cortexm_hostio_request,
      hosted_dispatch_tmpnam os beyond fuel _ calls time0_sec _ hcall, hsys, hint]
  · simp only [target_reg_write, if_true]
    decide
  · simp only [target_reg_write]
    exact (read_request_frame t).1
  · simp only [target_reg_write]
    exact (read_request_frame t).2.1

/-- C16, witness: a tmpnam call with target id 256 and one with target id -1 leave
0xFFFFFFFF in register 0 and the buffer at 8192 untouched. -/
theorem tmpnam_rejects_witness :
    to_int32 ((read_request (sample_call 13 8192 256 16 0)).1.params 1) > 255 ∧
    (Probe.cortexm_hostio_request (gdb_main_loop_model sample_other) sample_locals 0
        (sample_call 13 8192 256 16 0) sample_link 0).map
        (fun x => (x.1, x.2.1.regs 0, mem_bytes x.2.1.mem 8192 11))
      = some (false, 4294967295, [0, 0, 0, 0, 0, 0, 0, 0, 0, 0, 0]) ∧
    (Hosted.cortexm_hostio_request sample_os (fun _ => 0) 0
        (sample_call 13 8192 4294967295 16 0) [] 0).map
        (fun x => (x.1, x.2.1.regs 0, mem_bytes x.2.1.mem 8192 11))
      = some (false, 4294967295, [0, 0, 0, 0, 0, 0, 0, 0, 0, 0, 0]) := by
  have h := tmpnam_rejects (gdb_main_loop_model sample_other) sample_locals sample_os
    (fun _ => 0) 0 (sample_call 13 8192 256 16 0) sample_link [] 0 (by decide)
    (Or.inr (Or.inr (Or.inr (Or.inl (by decide)))))
  have h2 := tmpnam_rejects (gdb_main_loop_model sample_other) sample_locals sample_os
    (fun _ => 0) 0 (sample_call 13 8192 4294967295 16 0) sample_link [] 0 (by decide)
    (Or.inr (Or.inr (Or.inl (by decide))))
  refine ⟨by decide, ?_, ?_⟩
  · rw [h.1]
    decide
  · rw [h2.2.1]
    decide

theorem probe_dispatch_iserror {σ : Type} (gdb_main_loop : main_loop σ)
    (env : Probe.probe_locals) (fuel : Nat) (t : target_s σ) (l : gdb_link) (time0_sec : Nat)
    (request : semihosting_s) (h : request.syscall = SEMIHOSTING_SYS_ISERROR) :
    Probe.dispatch gdb_main_loop env fuel t l time0_sec request
      = some (sys_iserror request, t, l, time0_sec) := by
  unfold SEMIHOSTING_SYS_ISERROR at h
  simp [Probe.dispatch, h, SEMIHOSTING_SYS_OPEN, SEMIHOSTING_SYS_CLOSE, SEMIHOSTING_SYS_READ,
    SEMIHOSTING_SYS_WRITE, SEMIHOSTING_SYS_WRITEC, SEMIHOSTING_SYS_WRITE0, SEMIHOSTING_SYS_ISTTY,
    SEMIHOSTING_SYS_SEEK, SEMIHOSTING_SYS_RENAME, SEMIHOSTING_SYS_REMOVE, SEMIHOSTING_SYS_SYSTEM,
    SEMIHOSTING_SYS_FLEN, SEMIHOSTING_SYS_CLOCK, SEMIHOSTING_SYS_TIME, SEMIHOSTING_SYS_READC,
    SEMIHOSTING_SYS_ERRNO, SEMIHOSTING_SYS_EXIT, SEMIHOSTING_SYS_EXIT_EXTENDED,
    SEMIHOSTING_SYS_GET_CMDLINE, SEMIHOSTING_SYS_ISERROR, SEMIHOSTING_SYS_HEAPINFO,
    SEMIHOSTING_SYS_TMPNAM]

theorem hosted_dispatch_iserror {σ : Type} (os : Hosted.host_os) (beyond : Nat → Nat)
    (fuel : Nat) (t : target_s σ) (calls : List Hosted.os_call) (time0_sec : Nat)
    (request : semihosting_s) (h : request.syscall = SEMIHOSTING_SYS_ISERROR) :
    Hosted.dispatch os beyond fuel t calls time0_sec request
      = some (sys_iserror request, t, calls, time0_sec) := by
  unfold SEMIHOSTING_SYS_ISERROR at h
  simp [Hosted.dispatch, h, SEMIHOSTING_SYS_OPEN, SEMIHOSTING_SYS_CLOSE, SEMIHOSTING_SYS_READ,
    SEMIHOSTING_SYS_WRITE, SEMIHOSTING_SYS_WRITEC, SEMIHOSTING_SYS_WRITE0, SEMIHOSTING_SYS_ISTTY,
    SEMIHOSTING_SYS_SEEK, SEMIHOSTING_SYS_RENAME, SEMIHOSTING_SYS_REMOVE, SEMIHOSTING_SYS_SYSTEM,
    SEMIHOSTING_SYS_FLEN, SEMIHOSTING_SYS_CLOCK, SEMIHOSTING_SYS_TIME, SEMIHOSTING_SYS_READC,
    SEMIHOSTING_SYS_ERRNO, SEMIHOSTING_SYS_EXIT, SEMIHOSTING_SYS_EXIT_EXTENDED,
    SEMIHOSTING_SYS_GET_CMDLINE, SEMIHOSTING_SYS_ISERROR, SEMIHOSTING_SYS_HEAPINFO,
    SEMIHOSTING_SYS_TMPNAM]

theorem le_word_lt (bytes : List Nat) (offset : Nat) : le_word bytes offset < 4294967296 := by
  unfold le_word
  omega

theorem read_request_params_lt {σ : Type} (t : target_s σ) (i : Fin 4) :
    (read_request t).1.params i < 4294967296 := by
  unfold read_request
  simp only []
  split
  · fin_cases i <;> simp [le_word_lt]
  · fin_cases i <;> simp

theorem canonical_errors_range : ∀ x ∈ canonical_errors, 0 ≤ x ∧ x ≤ 9999 := by decide

theorem sys_iserror_eq (request : semihosting_s) (h : request.params 0 < 4294967296) :
    sys_iserror request = if ((request.params 0 : Nat) : Int) ∈ canonical_errors then 1 else 0 := by
  have hmem : to_int32 (request.params 0) ∈ canonical_errors
      ↔ ((request.params 0 : Nat) : Int) ∈ canonical_errors := by
    by_cases hsmall : request.params 0 < 2147483648
    · rw [to_int32_small _ hsmall]
    · constructor
      · intro hm
        have := canonical_errors_range _ hm
        unfold to_int32 at this
        have hmod : request.params 0 % 4294967296 = request.params 0 := Nat.mod_eq_of_lt h
        rw [hmod] at this
        simp only [hsmall, if_false] at this
        omega
      · intro hm
        have := canonical_errors_range _ hm
        omega
  have hdef : sys_iserror request
      = if to_int32 (request.params 0) ∈ canonical_errors then 1 else 0 := by
    unfold sys_iserror canonical_errors
    simp only [List.mem_cons, List.mem_singleton, List.not_mem_nil, or_false]
  rw [hdef]
  by_cases hc : ((request.params 0 : Nat) : Int) ∈ canonical_errors
  · rw [if_pos hc, if_pos (hmem.mpr hc)]
  · rw [if_neg hc, if_neg (fun hx => hc (hmem.mp hx))]

/-- C17: for every 32-bit code `c` passed to the iserror call, the dispatcher, in either
build, writes 1 to register 0 when `c` is one of the 22 canonical error codes
and 0 for every other code, returns false, and leaves target memory as it
was; the code 0 is not canonical. -/
theorem iserror_classifies {σ : Type} (gdb_main_loop : main_loop σ) (env : Probe.probe_locals)
    (os : Hosted.host_os) (beyond : Nat → Nat) (fuel : Nat) (t : target_s σ) (l : gdb_link)
    (calls : List Hosted.os_call) (time0_sec : Nat)
    (hcall : (read_request t).1.syscall = SEMIHOSTING_SYS_ISERROR) :
    Probe.cortexm_hostio_request gdb_main_loop env fuel t l time0_sec
      = some (false,
          target_reg_write (read_request t).2 0
            (if (((read_request t).1.params 0 : Nat) : Int) ∈ canonical_errors then 1 else 0),
          l, time0_sec) ∧
    Hosted.cortexm_hostio_request os beyond fuel t calls time0_sec
      = some (false,
          target_reg_write (read_request t).2 0
            (if (((read_request t).1.params 0 : Nat) : Int) ∈ canonical_errors then 1 else 0),
          calls, time0_sec) ∧
    (∀ v : Nat, (target_reg_write (read_request t).2 0 v).mem = t.mem ∧
      (target_reg_write (read_request t).2 0 v).probe_mem = t.probe_mem) ∧
    canonical_errors.length = 22 ∧ canonical_errors.Nodup ∧ (0 : Int) ∉ canonical_errors := by
  have hsys := sys_iserror_eq (read_request t).1 (read_request_params_lt t 0)
  have hint := (read_request_frame t).2.2.1
  have hval : to_uint32 (if (((read_request t).1.params 0 : Nat) : Int) ∈ canonical_errors
      then (1 : Int) else 0)
      = if (((read_request t).1.params 0 : Nat) : Int) ∈ canonical_errors then 1 else 0 := by
    split <;> rfl
  refine ⟨?_, ?_, ?_, by decide, by decide, by decide⟩
  · simp only [Probe.cortexm_hostio_request,
      probe_dispatch_iserror gdb_main_loop env fuel _ l time0_sec _ hcall, hsys, hint, hval]
  · simp only [Hosted.cortexm_hostio_request,
      hosted_dispatch_iserror os beyond fuel _ calls time0_sec _ hcall, hsys, hint, hval]
  · intro v
    simp only [target_reg_write]
    exact ⟨(read_request_frame t).1, (read_request_frame t).2.1⟩

/-- C17, witness: iserror of 2 (`ENOENT`) writes 1 to register 0; iserror of 0 and of 3
write 0. -/
theorem iserror_classifies_witness :
    (read_request (sample_call 8 2 0 0 0)).1.syscall = SEMIHOSTING_SYS_ISERROR ∧
    (Probe.cortexm_hostio_request (gdb_main_loop_model sample_other) sample_locals 0
        (sample_call 8 2 0 0 0) sample_link 0).map (fun x => (x.1, x.2.1.regs 0))
      = some (false, 1) ∧
    (Hosted.cortexm_hostio_request sample_os (fun _ => 0) 0 (sample_call 8 0 0 0 0) [] 0).map
        (fun x => (x.1, x.2.1.regs 0)) = some (false, 0) ∧
    (Hosted.cortexm_hostio_request sample_os (fun _ => 0) 0 (sample_call 8 3 0 0 0) [] 0).map
        (fun x => (x.1, x.2.1.regs 0)) = some (false, 0) := by
  refine ⟨by decide, ?_, ?_, ?_⟩
  · rw [(iserror_classifies (gdb_main_loop_model sample_other) sample_locals sample_os
      (fun _ => 0) 0 (sample_call 8 2 0 0 0) sample_link [] 0 (by decide)).1]
    decide
  · rw [(iserror_classifies (gdb_main_loop_model sample_other) sample_locals sample_os
      (fun _ => 0) 0 (sample_call 8 0 0 0 0) sample_link [] 0 (by decide)).2.1]
    decide
  · rw [(iserror_classifies (gdb_main_loop_model sample_other) sample_locals sample_os
      (fun _ => 0) 0 (sample_call 8 3 0 0 0) sample_link [] 0 (by decide)).2.1]
    decide

/-! ## Calls that marshal into a local buffer -/

theorem getD_map_range (g : Nat → Nat) (n k : Nat) (h : k < n) :
    ((List.range n).map g).getD k 0 = g k := by
  simp [List.getD_eq_getElem?_getD, List.getElem?_map, List.getElem?_range h]

theorem and_top_bit (x : Nat) (h : x < 4294967296) :
    (x &&& 2147483648 ≠ 0) ↔ 2147483648 ≤ x := by
  have h1 : x &&& 2147483648 = (x.testBit 31).toNat * 2 ^ 31 := Nat.and_two_pow x 31
  rw [h1, Nat.testBit_to_div_mod]
  by_cases hx : x / 2 ^ 31 % 2 = 1
  · simp [hx]
    omega
  · simp [hx]
    omega

/-- What `semihosting_file_length` (relayed build) makes of the end of the exchange. -/
theorem probe_file_length_result {σ : Type} (gdb_main_loop : main_loop σ) (fio_stat : Nat)
    (t : target_s σ) (l : gdb_link) (request : semihosting_s) (stat_result : Int)
    (t1 : target_s σ) (l1 : gdb_link)
    (h : Probe.hostio_fstat gdb_main_loop
        { t with mem_read := mem_accessor.probe, mem_write := mem_accessor.probe } l (to_int32
        (to_uint32 ((request.params 0 : Int) - 1))) fio_stat = some (stat_result, t1, l1))
    (hbytes : ∀ a, t1.probe_mem a < 256) :
    Probe.semihosting_file_length gdb_main_loop fio_stat t l request
      = some (if stat_result = 0 ∧
            read_be8 ((List.range 64).map (fun i => t1.probe_mem (fio_stat + i))) 28 ≤ 2147483647
          then (read_be8 ((List.range 64).map (fun i => t1.probe_mem (fio_stat + i))) 28 : Int)
          else -1,
          { t1 with mem_read := t.mem_read, mem_write := t.mem_write }, l1) := by
  have g := fun k (hk : k < 64) => getD_map_range (fun i => t1.probe_mem (fio_stat + i)) 64 k hk
  have h28 := hbytes (fio_stat + 28)
  have h29 := hbytes (fio_stat + 29)
  have h30 := hbytes (fio_stat + 30)
  have h31 := hbytes (fio_stat + 31)
  have h32 := hbytes (fio_stat + 32)
  have h33 := hbytes (fio_stat + 33)
  have h34 := hbytes (fio_stat + 34)
  have h35 := hbytes (fio_stat + 35)
  have hrange : List.range 4 = [0, 1, 2, 3] := rfl
  simp only [Probe.semihosting_file_length, h, read_be8, read_be4, hrange, List.all_cons,
    List.all_nil, Bool.and_true, Nat.add_zero, g 28 (by omega), g 29 (by omega), g 30 (by omega),
    g 31 (by omega), g 32 (by omega), g 33 (by omega), g 34 (by omega), g 35 (by omega),
    Nat.reduceAdd, beq_iff_eq, Bool.and_eq_true, decide_eq_true_eq]
  generalize t1.probe_mem (fio_stat + 28) = b28 at h28 ⊢
  generalize t1.probe_mem (fio_stat + 29) = b29 at h29 ⊢
  generalize t1.probe_mem (fio_stat + 30) = b30 at h30 ⊢
  generalize t1.probe_mem (fio_stat + 31) = b31 at h31 ⊢
  generalize t1.probe_mem (fio_stat + 32) = b32 at h32 ⊢
  generalize t1.probe_mem (fio_stat + 33) = b33 at h33 ⊢
  generalize t1.probe_mem (fio_stat + 34) = b34 at h34 ⊢
  generalize t1.probe_mem (fio_stat + 35) = b35 at h35 ⊢
  have hlow : b32 * 16777216 + b33 * 65536 + b34 * 256 + b35 < 4294967296 := by omega
  have htop := and_top_bit _ hlow
  by_cases hs : stat_result = 0
  · by_cases hw : b28 % 256 = 0 ∧ b29 % 256 = 0 ∧ b30 % 256 = 0 ∧ b31 % 256 = 0
    · by_cases hb : 2147483648 ≤ b32 * 16777216 + b33 * 65536 + b34 * 256 + b35
      · have h1 : ¬ ((b28 * 16777216 + b29 * 65536 + b30 * 256 + b31) * 4294967296
            + (b32 * 16777216 + b33 * 65536 + b34 * 256 + b35) ≤ 2147483647) := by omega
        simp [hs, hw, htop.mpr hb, h1]
      · have h1 : (b28 * 16777216 + b29 * 65536 + b30 * 256 + b31) * 4294967296
            + (b32 * 16777216 + b33 * 65536 + b34 * 256 + b35) ≤ 2147483647 := by omega
        have h2 : ¬ ((b32 * 16777216 + b33 * 65536 + b34 * 256 + b35) &&& 2147483648 ≠ 0) :=
          fun hx => hb (htop.mp hx)
        have h3 : (b28 * 16777216 + b29 * 65536 + b30 * 256 + b31) * 4294967296
            + (b32 * 16777216 + b33 * 65536 + b34 * 256 + b35)
            = b32 * 16777216 + b33 * 65536 + b34 * 256 + b35 := by omega
        have h4 := to_int32_small (b32 * 16777216 + b33 * 65536 + b34 * 256 + b35) (by omega)
        have h5 : b32 * 16777216 + b33 * 65536 + b34 * 256 + b35 ≤ 2147483647 := by omega
        simp only [ne_eq, Decidable.not_not] at h2
        simp [hs, hw, h2, h1, h3, h4, h5]
    · have h1 : ¬ ((b28 * 16777216 + b29 * 65536 + b30 * 256 + b31) * 4294967296
          + (b32 * 16777216 + b33 * 65536 + b34 * 256 + b35) ≤ 2147483647) := by omega
      simp [hs, hw, h1]
  · simp [hs]

/-- C19: in the relayed build, once the relayed `fstat` has ended with result
`stat_result`, `semihosting_file_length` returns the file size `S`, the 64-bit
big-endian value at byte offset 28 of the 64-byte buffer, exactly when
`stat_result` is 0 and `S ≤ 2 ^ 31 - 1`, and -1 in every other case.  The test
of the upper word of `S` gives the same answer whether the probe reads that
word little-endian or big-endian. -/
theorem file_length_result {σ : Type} (gdb_main_loop : main_loop σ) (fio_stat : Nat)
    (t : target_s σ) (l : gdb_link) (request : semihosting_s) (stat_result : Int)
    (t1 : target_s σ) (l1 : gdb_link)
    (h : Probe.hostio_fstat gdb_main_loop
        { t with mem_read := mem_accessor.probe, mem_write := mem_accessor.probe } l (to_int32
        (to_uint32 ((request.params 0 : Int) - 1))) fio_stat = some (stat_result, t1, l1))
    (hbytes : ∀ a, t1.probe_mem a < 256) :
    Probe.semihosting_file_length gdb_main_loop fio_stat t l request
      = some (if stat_result = 0 ∧
            read_be8 ((List.range 64).map (fun i => t1.probe_mem (fio_stat + i))) 28 ≤ 2147483647
          then (read_be8 ((List.range 64).map (fun i => t1.probe_mem (fio_stat + i))) 28 : Int)
          else -1,
          { t1 with mem_read := t.mem_read, mem_write := t.mem_write }, l1) ∧
    (le_word ((List.range 64).map (fun i => t1.probe_mem (fio_stat + i))) 28 = 0
      ↔ read_be4 ((List.range 64).map (fun i => t1.probe_mem (fio_stat + i))) 28 = 0) := by
  refine ⟨probe_file_length_result gdb_main_loop fio_stat t l request stat_result t1 l1 h hbytes,
    ?_⟩
  have g := fun k (hk : k < 64) => getD_map_range (fun i => t1.probe_mem (fio_stat + i)) 64 k hk
  have h28 := hbytes (fio_stat + 28)
  have h29 := hbytes (fio_stat + 29)
  have h30 := hbytes (fio_stat + 30)
  have h31 := hbytes (fio_stat + 31)
  simp only [le_word, read_be4, g 28 (by omega), g 29 (by omega), g 30 (by omega),
    g 31 (by omega), Nat.reduceAdd]
  omega

/-- C19, witness: the buffer at 512 holds the size 0x1234 in its bytes 32..35 and GDB
answers `F0`; the file length is 4660. -/
theorem file_length_result_witness :
    (∀ a, ({ sample_target with
        mem_read := mem_accessor.probe, mem_write := mem_accessor.probe,
        probe_mem := fun a => if a = 546 then 18 else if a = 547 then 52 else 0 }
        : target_s Unit).probe_mem a < 256) ∧
    (Probe.semihosting_file_length (gdb_main_loop_model sample_other) 512
        { sample_target with
          probe_mem := fun a => if a = 546 then 18 else if a = 547 then 52 else 0 }
        { sample_link with inbound := [['F', '0']] } (sample_request 12 4 0 0 0)).map
        (fun x => (x.1, x.2.2.sent)) = some (4660, [fileio_request.fstat 3 512]) := by
  have hb : ∀ a, ({ sample_target with
      mem_read := mem_accessor.probe, mem_write := mem_accessor.probe,
      probe_mem := fun a => if a = 546 then 18 else if a = 547 then 52 else 0 }
      : target_s Unit).probe_mem a < 256 := by
    intro a
    simp only []
    split
    · decide
    · split <;> decide
  refine ⟨hb, ?_⟩
  rw [(file_length_result (gdb_main_loop_model sample_other) 512
    { sample_target with
      probe_mem := fun a => if a = 546 then 18 else if a = 547 then 52 else 0 }
    { sample_link with inbound := [['F', '0']] } (sample_request 12 4 0 0 0) 0
    { sample_target with
        mem_read := mem_accessor.probe, mem_write := mem_accessor.probe,
        probe_mem := fun a => if a = 546 then 18 else if a = 547 then 52 else 0 }
    { inbound := [], sent := [fileio_request.fstat 3 512], forwarded := [['F', '0']],
      serial := [] } rfl hb).1]
  decide

/-- C18: in the relayed build, whatever the result of the relayed exchange,
`semihosting_file_length`, `semihosting_get_time`, `semihosting_clock`, `semihosting_time` and
`semihosting_readc` return with the target's `mem_read` and `mem_write` accessors
equal to their values before the call: each returns as soon as its exchange
ends, with the target the exchange left and the two accessors put back. -/
theorem accessors_restored {σ : Type} (gdb_main_loop : main_loop σ)
    (fio_stat time_value ch : Nat) (t : target_s σ) (l : gdb_link) (time0_sec : Nat)
    (request : semihosting_s) :
    (∀ (r : Int) (t1 : target_s σ) (l1 : gdb_link),
      Probe.hostio_fstat gdb_main_loop
          { t with mem_read := mem_accessor.probe, mem_write := mem_accessor.probe } l (to_int32
          (to_uint32 ((request.params 0 : Int) - 1))) fio_stat = some (r, t1, l1) →
      ∃ res, Probe.semihosting_file_length gdb_main_loop fio_stat t l request
        = some (res, { t1 with mem_read := t.mem_read, mem_write := t.mem_write }, l1)) ∧
    (∀ (r : Int) (t1 : target_s σ) (l1 : gdb_link),
      Probe.hostio_gettimeofday gdb_main_loop
          { t with mem_read := mem_accessor.probe, mem_write := mem_accessor.probe } l time_value
          TARGET_NULL = some (r, t1, l1) →
      (∃ res, Probe.semihosting_get_time gdb_main_loop time_value t l = some (res,
          { t1 with mem_read := t.mem_read, mem_write := t.mem_write }, l1)) ∧
      (∃ res origin, Probe.semihosting_clock gdb_main_loop time_value t l time0_sec
        = some (res, { t1 with mem_read := t.mem_read, mem_write := t.mem_write }, l1, origin)) ∧
      (∃ res, Probe.semihosting_time gdb_main_loop time_value t l = some (res,
          { t1 with mem_read := t.mem_read, mem_write := t.mem_write }, l1))) ∧
    (∀ (r : Int) (t1 : target_s σ) (l1 : gdb_link),
      Probe.hostio_read gdb_main_loop
          { t with mem_read := mem_accessor.probe, mem_write := mem_accessor.probe, probe_mem := fun a => if a = ch then 63 else t.probe_mem a }
              l STDIN_FILENO ch 1 = some (r, t1, l1) →
      ∃ res, Probe.semihosting_readc gdb_main_loop ch t l = some (res,
          { t1 with mem_read := t.mem_read, mem_write := t.mem_write }, l1)) ∧
    (∀ (res : Int) (t2 : target_s σ) (l2 : gdb_link),
      Probe.semihosting_file_length gdb_main_loop fio_stat t l request = some (res, t2, l2) →
      t2.mem_read = t.mem_read ∧ t2.mem_write = t.mem_write) ∧
    (∀ (res : semihosting_time_s) (t2 : target_s σ) (l2 : gdb_link),
      Probe.semihosting_get_time gdb_main_loop time_value t l = some (res, t2, l2) →
      t2.mem_read = t.mem_read ∧ t2.mem_write = t.mem_write) ∧
    (∀ (res : Int) (t2 : target_s σ) (l2 : gdb_link) (origin : Nat),
      Probe.semihosting_clock gdb_main_loop time_value t l time0_sec = some (res, t2, l2, origin) →
      t2.mem_read = t.mem_read ∧ t2.mem_write = t.mem_write) ∧
    (∀ (res : Int) (t2 : target_s σ) (l2 : gdb_link),
      Probe.semihosting_time gdb_main_loop time_value t l = some (res, t2, l2) →
      t2.mem_read = t.mem_read ∧ t2.mem_write = t.mem_write) ∧
    (∀ (res : Int) (t2 : target_s σ) (l2 : gdb_link),
      Probe.semihosting_readc gdb_main_loop ch t l = some (res, t2, l2) →
      t2.mem_read = t.mem_read ∧ t2.mem_write = t.mem_write) := by
  have hget : ∀ (res : semihosting_time_s) (t2 : target_s σ) (l2 : gdb_link),
      Probe.semihosting_get_time gdb_main_loop time_value t l = some (res, t2, l2) →
      t2.mem_read = t.mem_read ∧ t2.mem_write = t.mem_write := by
    intro res t2 l2 h
    simp only [Probe.semihosting_get_time] at h
    cases hx : Probe.hostio_gettimeofday gdb_main_loop
        { t with mem_read := mem_accessor.probe, mem_write := mem_accessor.probe } l time_value
        TARGET_NULL with
    | none => simp [hx] at h
    | some v =>
      obtain ⟨r, t1, l1⟩ := v
      rw [hx] at h
      simp only [] at h
      split at h
      · simp only [Option.some.injEq, Prod.mk.injEq] at h
        rw [← h.2.1]
        exact ⟨rfl, rfl⟩
      · simp only [Option.some.injEq, Prod.mk.injEq] at h
        rw [← h.2.1]
        exact ⟨rfl, rfl⟩
  have hgetsome : ∀ (r : Int) (t1 : target_s σ) (l1 : gdb_link),
      Probe.hostio_gettimeofday gdb_main_loop
          { t with mem_read := mem_accessor.probe, mem_write := mem_accessor.probe } l time_value
          TARGET_NULL = some (r, t1, l1) →
      ∃ res, Probe.semihosting_get_time gdb_main_loop time_value t l = some (res,
          { t1 with mem_read := t.mem_read, mem_write := t.mem_write }, l1) := by
    intro r t1 l1 h
    simp only [Probe.semihosting_get_time, h]
    split
    · exact ⟨_, rfl⟩
    · exact ⟨_, rfl⟩
  refine ⟨?_, ?_, ?_, ?_, hget, ?_, ?_, ?_⟩
  · intro r t1 l1 h
    simp only [Probe.semihosting_file_length, h]
    split
    · exact ⟨_, rfl⟩
    · exact ⟨_, rfl⟩
  · intro r t1 l1 h
    obtain ⟨ct, hct⟩ := hgetsome r t1 l1 h
    refine ⟨⟨ct, hct⟩, ?_, ?_⟩
    · simp only [Probe.semihosting_clock, hct]
      split
      · exact ⟨_, _, rfl⟩
      · exact ⟨_, _, rfl⟩
    · simp only [Probe.semihosting_time, hct]
      exact ⟨_, rfl⟩
  · intro r t1 l1 h
    simp only [Probe.semihosting_readc, h]
    split
    · exact ⟨_, rfl⟩
    · exact ⟨_, rfl⟩
  · intro res t2 l2 h
    simp only [Probe.semihosting_file_length] at h
    cases hx : Probe.hostio_fstat gdb_main_loop
        { t with mem_read := mem_accessor.probe, mem_write := mem_accessor.probe } l (to_int32
        (to_uint32 ((request.params 0 : Int) - 1))) fio_stat with
    | none => simp [hx] at h
    | some v =>
      obtain ⟨r, t1, l1⟩ := v
      rw [hx] at h
      simp only [] at h
      split at h
      · simp only [Option.some.injEq, Prod.mk.injEq] at h
        rw [← h.2.1]
        exact ⟨rfl, rfl⟩
      · simp only [Option.some.injEq, Prod.mk.injEq] at h
        rw [← h.2.1]
        exact ⟨rfl, rfl⟩
  · intro res t2 l2 origin h
    simp only [Probe.semihosting_clock] at h
    cases hx : Probe.semihosting_get_time gdb_main_loop time_value t l with
    | none => simp [hx] at h
    | some v =>
      obtain ⟨ct, t1, l1⟩ := v
      rw [hx] at h
      have := hget ct t1 l1 hx
      simp only [] at h
      split at h
      · simp only [Option.some.injEq, Prod.mk.injEq] at h
        rw [← h.2.1]
        exact this
      · simp only [Option.some.injEq, Prod.mk.injEq] at h
        rw [← h.2.1]
        exact this
  · intro res t2 l2 h
    simp only [Probe.semihosting_time] at h
    cases hx : Probe.semihosting_get_time gdb_main_loop time_value t l with
    | none => simp [hx] at h
    | some v =>
      obtain ⟨ct, t1, l1⟩ := v
      rw [hx] at h
      have := hget ct t1 l1 hx
      simp only [Option.some.injEq, Prod.mk.injEq] at h
      rw [← h.2.1]
      exact this
  · intro res t2 l2 h
    simp only [Probe.semihosting_readc] at h
    cases hx : Probe.hostio_read gdb_main_loop
        { t with mem_read := mem_accessor.probe, mem_write := mem_accessor.probe, probe_mem := fun a => if a = ch then 63 else t.probe_mem a }
            l STDIN_FILENO ch 1 with
    | none => simp [hx] at h
    | some v =>
      obtain ⟨r, t1, l1⟩ := v
      rw [hx] at h
      simp only [] at h
      split at h
      · simp only [Option.some.injEq, Prod.mk.injEq] at h
        rw [← h.2.1]
        exact ⟨rfl, rfl⟩
      · simp only [Option.some.injEq, Prod.mk.injEq] at h
        rw [← h.2.1]
        exact ⟨rfl, rfl⟩

/-- C18, witness: the transport escape arrives while the file length call waits for
its reply; the call returns with both accessors back on the target's own
routine. -/
theorem accessors_restored_witness :
    (Probe.semihosting_file_length (gdb_main_loop_model sample_other) 512 sample_target
        { sample_link with inbound := [['\x04']] } (sample_request 12 4 0 0 0)).map
        (fun x => (x.2.1.mem_read, x.2.1.mem_write))
      = some (mem_accessor.target 0, mem_accessor.target 0) ∧
    (Probe.semihosting_readc (gdb_main_loop_model sample_other) 704 sample_target
        { sample_link with inbound := [['\x04']] }).map
        (fun x => (x.2.1.mem_read, x.2.1.mem_write))
      = some (mem_accessor.target 0, mem_accessor.target 0) := by
  have h := accessors_restored (gdb_main_loop_model sample_other) 512 640 704 sample_target
    { sample_link with inbound := [['\x04']] } 0 (sample_request 12 4 0 0 0)
  constructor
  · obtain ⟨res, hres⟩ := h.1 (-1) _ _ rfl
    rw [hres]
    rfl
  · obtain ⟨res, hres⟩ := h.2.2.1 (-1) _ _ rfl
    rw [hres]
    rfl

/-! ## Command line -/

theorem probe_dispatch_get_cmdline {σ : Type} (gdb_main_loop : main_loop σ)
    (env : Probe.probe_locals) (fuel : Nat) (t : target_s σ) (l : gdb_link) (time0_sec : Nat)
    (request : semihosting_s) (h : request.syscall = SEMIHOSTING_SYS_GET_CMDLINE) :
    Probe.dispatch gdb_main_loop env fuel t l time0_sec request
      = some ((sys_get_cmdline t request).1, (sys_get_cmdline t request).2, l, time0_sec) := by
  unfold SEMIHOSTING_SYS_GET_CMDLINE at h
  simp [Probe.dispatch, h, SEMIHOSTING_SYS_OPEN, SEMIHOSTING_SYS_CLOSE, SEMIHOSTING_SYS_READ,
    SEMIHOSTING_SYS_WRITE, SEMIHOSTING_SYS_WRITEC, SEMIHOSTING_SYS_WRITE0, SEMIHOSTING_SYS_ISTTY,
    SEMIHOSTING_SYS_SEEK, SEMIHOSTING_SYS_RENAME, SEMIHOSTING_SYS_REMOVE, SEMIHOSTING_SYS_SYSTEM,
    SEMIHOSTING_SYS_FLEN, SEMIHOSTING_SYS_CLOCK, SEMIHOSTING_SYS_TIME, SEMIHOSTING_SYS_READC,
    SEMIHOSTING_SYS_ERRNO, SEMIHOSTING_SYS_EXIT, SEMIHOSTING_SYS_EXIT_EXTENDED,
    SEMIHOSTING_SYS_GET_CMDLINE, SEMIHOSTING_SYS_ISERROR, SEMIHOSTING_SYS_HEAPINFO,
    SEMIHOSTING_SYS_TMPNAM]

theorem hosted_dispatch_get_cmdline {σ : Type} (os : Hosted.host_os) (beyond : Nat → Nat)
    (fuel : Nat) (t : target_s σ) (calls : List Hosted.os_call) (time0_sec : Nat)
    (request : semihosting_s) (h : request.syscall = SEMIHOSTING_SYS_GET_CMDLINE) :
    Hosted.dispatch os beyond fuel t calls time0_sec request
      = some ((sys_get_cmdline t request).1, (sys_get_cmdline t request).2, calls, time0_sec) := by
  unfold SEMIHOSTING_SYS_GET_CMDLINE at h
  simp [Hosted.dispatch, h, SEMIHOSTING_SYS_OPEN, SEMIHOSTING_SYS_CLOSE, SEMIHOSTING_SYS_READ,
    SEMIHOSTING_SYS_WRITE, SEMIHOSTING_SYS_WRITEC, SEMIHOSTING_SYS_WRITE0, SEMIHOSTING_SYS_ISTTY,
    SEMIHOSTING_SYS_SEEK, SEMIHOSTING_SYS_RENAME, SEMIHOSTING_SYS_REMOVE, SEMIHOSTING_SYS_SYSTEM,
    SEMIHOSTING_SYS_FLEN, SEMIHOSTING_SYS_CLOCK, SEMIHOSTING_SYS_TIME, SEMIHOSTING_SYS_READC,
    SEMIHOSTING_SYS_ERRNO, SEMIHOSTING_SYS_EXIT, SEMIHOSTING_SYS_EXIT_EXTENDED,
    SEMIHOSTING_SYS_GET_CMDLINE, SEMIHOSTING_SYS_ISERROR, SEMIHOSTING_SYS_HEAPINFO,
    SEMIHOSTING_SYS_TMPNAM]

theorem read_request_cmdline {σ : Type} (t : target_s σ) :
    (read_request t).2.cmdline = t.cmdline := by
  unfold read_request
  simp only []
  split
  · unfold target_mem_read
    split <;> simp
  · simp

/-- The outcome of the get_cmdline case in terms of its two writes: the return value
and the target it leaves. -/
theorem sys_get_cmdline_cases {σ : Type} (t : target_s σ) :
    sys_get_cmdline (read_request t).2 (read_request t).1
      = if (strlen (t.cmdline ++ [0])) + 1 > ((read_request t).1.params 1) then (-1, (read_request
          t).2)
        else if (target_mem_write (read_request t).2 ((read_request t).1.params 0) ((t.cmdline ++
            [0]).take ((strlen (t.cmdline ++ [0])) + 1))).1 = true then (-1, (target_mem_write
            (read_request t).2 ((read_request t).1.params 0) ((t.cmdline ++ [0]).take ((strlen
            (t.cmdline ++ [0])) + 1))).2)
        else if (target_mem_write (target_mem_write (read_request t).2 ((read_request t).1.params 0)
            ((t.cmdline ++ [0]).take ((strlen (t.cmdline ++ [0])) + 1))).2 (read_request t).1.r1
      (le_bytes ((read_request t).1.params 0) ++ le_bytes (((strlen (t.cmdline ++ [0])) + 1) %
          4294967296))).1 = true then (-1, (target_mem_write (target_mem_write (read_request t).2
          ((read_request t).1.params 0) ((t.cmdline ++ [0]).take ((strlen (t.cmdline ++ [0])) +
          1))).2 (read_request t).1.r1
      (le_bytes ((read_request t).1.params 0) ++ le_bytes (((strlen (t.cmdline ++ [0])) + 1) %
          4294967296))).2)
        else (0, (target_mem_write (target_mem_write (read_request t).2 ((read_request t).1.params
            0) ((t.cmdline ++ [0]).take ((strlen (t.cmdline ++ [0])) + 1))).2 (read_request t).1.r1
      (le_bytes ((read_request t).1.params 0) ++ le_bytes (((strlen (t.cmdline ++ [0])) + 1) %
          4294967296))).2) := by
  unfold sys_get_cmdline
  simp only [read_request_cmdline]

theorem get_cmdline_dispatch {σ : Type} (gdb_main_loop : main_loop σ)
    (env : Probe.probe_locals) (os : Hosted.host_os) (beyond : Nat → Nat) (fuel : Nat)
    (t : target_s σ) (l : gdb_link) (calls : List Hosted.os_call) (time0_sec : Nat)
    (hcall : (read_request t).1.syscall = SEMIHOSTING_SYS_GET_CMDLINE)
    (ret : Int) (t1 : target_s σ)
    (hsys : sys_get_cmdline (read_request t).2 (read_request t).1 = (ret, t1))
    (hint : t1.tc.interrupted = false) :
    Probe.cortexm_hostio_request gdb_main_loop env fuel t l time0_sec
      = some (false, target_reg_write t1 0 (to_uint32 ret), l, time0_sec) ∧
    Hosted.cortexm_hostio_request os beyond fuel t calls time0_sec
      = some (false, target_reg_write t1 0 (to_uint32 ret), calls, time0_sec) := by
  constructor
  · simp only [Probe.cortexm_hostio_request,
      probe_dispatch_get_cmdline gdb_main_loop env fuel _ l time0_sec _ hcall, hsys, hint]
  · simp only [Hosted.cortexm_hostio_request,
      hosted_dispatch_get_cmdline os beyond fuel _ calls time0_sec _ hcall, hsys, hint]

/-- C20: for a get_cmdline request with a stored command line of length `n`, in
either build: when `n + 1 ≤ buflen` and both target memory writes succeed,
the `n + 1` bytes of the command line with its terminator are written at
`bufaddr`, the pair `bufaddr`, `n + 1` is written at the address in register 1
and register 0 receives 0; when `n + 1 > buflen`, register 0 receives -1 and
target memory is left as it was; when either write fails, register 0
receives -1.  So the result is 0 exactly in the first case. -/
theorem get_cmdline_result {σ : Type} (gdb_main_loop : main_loop σ)
    (env : Probe.probe_locals) (os : Hosted.host_os) (beyond : Nat → Nat) (fuel : Nat)
    (t : target_s σ) (l : gdb_link) (calls : List Hosted.os_call) (time0_sec : Nat)
    (hcall : (read_request t).1.syscall = SEMIHOSTING_SYS_GET_CMDLINE)
    (n : Nat) (hn : n = strlen (t.cmdline ++ [0]))
    (w1 w2 : Bool × target_s σ)
    (hw1 : w1 = target_mem_write (read_request t).2 ((read_request t).1.params 0) ((t.cmdline ++
        [0]).take (n + 1)))
    (hw2 : w2 = target_mem_write w1.2 (read_request t).1.r1
      (le_bytes ((read_request t).1.params 0) ++ le_bytes ((n + 1) % 4294967296))) :
    (n + 1 ≤ ((read_request t).1.params 1) → w1.1 = false → w2.1 = false →
      Probe.cortexm_hostio_request gdb_main_loop env fuel t l time0_sec
        = some (false, target_reg_write w2.2 0 0, l, time0_sec) ∧
      Hosted.cortexm_hostio_request os beyond fuel t calls time0_sec
        = some (false, target_reg_write w2.2 0 0, calls, time0_sec) ∧
      (∀ id : Nat, t.mem_write = mem_accessor.target id →
        (target_reg_write w2.2 0 0).mem
          = store_bytes (store_bytes t.mem ((read_request t).1.params 0) ((t.cmdline ++ [0]).take (n
              + 1)))
              (read_request t).1.r1 (le_bytes ((read_request t).1.params 0) ++ le_bytes ((n + 1) %
                  4294967296)))) ∧
    (n + 1 > ((read_request t).1.params 1) →
      Probe.cortexm_hostio_request gdb_main_loop env fuel t l time0_sec
        = some (false, target_reg_write (read_request t).2 0 4294967295, l, time0_sec) ∧
      Hosted.cortexm_hostio_request os beyond fuel t calls time0_sec
        = some (false, target_reg_write (read_request t).2 0 4294967295, calls, time0_sec) ∧
      (target_reg_write (read_request t).2 0 4294967295).mem = t.mem ∧
      (target_reg_write (read_request t).2 0 4294967295).probe_mem = t.probe_mem) ∧
    (n + 1 ≤ ((read_request t).1.params 1) → w1.1 = true →
      Probe.cortexm_hostio_request gdb_main_loop env fuel t l time0_sec
        = some (false, target_reg_write w1.2 0 4294967295, l, time0_sec) ∧
      Hosted.cortexm_hostio_request os beyond fuel t calls time0_sec
        = some (false, target_reg_write w1.2 0 4294967295, calls, time0_sec)) ∧
    (n + 1 ≤ ((read_request t).1.params 1) → w1.1 = false → w2.1 = true →
      Probe.cortexm_hostio_request gdb_main_loop env fuel t l time0_sec
        = some (false, target_reg_write w2.2 0 4294967295, l, time0_sec) ∧
      Hosted.cortexm_hostio_request os beyond fuel t calls time0_sec
        = some (false, target_reg_write w2.2 0 4294967295, calls, time0_sec)) ∧
    to_int32 4294967295 = -1 := by
  have hcases := sys_get_cmdline_cases t
  rw [← hn, ← hw1, ← hw2] at hcases
  have hint0 := (read_request_frame t).2.2.1
  have hint1 : w1.2.tc.interrupted = false := by
    rw [hw1, (target_mem_write_frame _ _ _).1]
    exact hint0
  have hint2 : w2.2.tc.interrupted = false := by
    rw [hw2, (target_mem_write_frame _ _ _).1]
    exact hint1
  have hm1 : to_uint32 (-1) = 4294967295 := by decide
  have h0 : to_uint32 0 = 0 := by decide
  refine ⟨?_, ?_, ?_, ?_, by decide⟩
  · intro hfit hok1 hok2
    have hsys : sys_get_cmdline (read_request t).2 (read_request t).1 = (0, w2.2) := by
      rw [hcases]
      have : ¬ (n + 1 > ((read_request t).1.params 1)) := by omega
      simp [this, hok1, hok2]
    have hd := get_cmdline_dispatch gdb_main_loop env os beyond fuel t l calls time0_sec hcall
      0 w2.2 hsys hint2
    rw [h0] at hd
    refine ⟨hd.1, hd.2, ?_⟩
    intro id hacc
    have hacc0 : (read_request t).2.mem_write = mem_accessor.target id := by
      rw [(read_request_frame t).2.2.2.1]
      exact hacc
    have hacc1 : w1.2.mem_write = mem_accessor.target id := by
      rw [hw1, (target_mem_write_frame _ _ _).2.2.2]
      exact hacc0
    have hs1 := (target_mem_write_stores (read_request t).2 ((read_request t).1.params 0)
      ((t.cmdline ++ [0]).take (n + 1)) id hacc0 (by rw [← hw1]; exact hok1)).1
    rw [← hw1, (read_request_frame t).1] at hs1
    have hs2 := (target_mem_write_stores w1.2 (read_request t).1.r1
      (le_bytes ((read_request t).1.params 0) ++ le_bytes ((n + 1) % 4294967296)) id hacc1
      (by rw [← hw2]; exact hok2)).1
    rw [← hw2, hs1] at hs2
    simpa [target_reg_write] using hs2
  · intro hbig
    have hsys : sys_get_cmdline (read_request t).2 (read_request t).1
        = (-1, (read_request t).2) := by
      rw [hcases]
      simp [hbig]
    have hd := get_cmdline_dispatch gdb_main_loop env os beyond fuel t l calls time0_sec hcall
      (-1) _ hsys hint0
    rw [hm1] at hd
    refine ⟨hd.1, hd.2, ?_, ?_⟩
    · simp only [target_reg_write]
      exact (read_request_frame t).1
    · simp only [target_reg_write]
      exact (read_request_frame t).2.1
  · intro hfit hfail1
    have hsys : sys_get_cmdline (read_request t).2 (read_request t).1 = (-1, w1.2) := by
      rw [hcases]
      have : ¬ (n + 1 > ((read_request t).1.params 1)) := by omega
      simp [this, hfail1]
    have hd := get_cmdline_dispatch gdb_main_loop env os beyond fuel t l calls time0_sec hcall
      (-1) _ hsys hint1
    rw [hm1] at hd
    exact hd
  · intro hfit hok1 hfail2
    have hsys : sys_get_cmdline (read_request t).2 (read_request t).1 = (-1, w2.2) := by
      rw [hcases]
      have : ¬ (n + 1 > ((read_request t).1.params 1)) := by omega
      simp [this, hok1, hfail2]
    have hd := get_cmdline_dispatch gdb_main_loop env os beyond fuel t l calls time0_sec hcall
      (-1) _ hsys hint2
    rw [hm1] at hd
    exact hd

/-- C20, witness: the command line `ab` and a 16-byte buffer at 8192: `ab` and its
terminator land at 8192, the pair 8192, 3 at the address in register 1 (256)
and 0 in register 0; with a 2-byte buffer register 0 receives 0xFFFFFFFF
and the buffer stays untouched. -/
theorem get_cmdline_result_witness :
    (read_request { sample_call 21 8192 16 0 0 with cmdline := [97, 98] }).1.syscall
      = SEMIHOSTING_SYS_GET_CMDLINE ∧
    (Probe.cortexm_hostio_request (gdb_main_loop_model sample_other) sample_locals 0
        { sample_call 21 8192 16 0 0 with cmdline := [97, 98] } sample_link 0).map
        (fun x => (x.1, x.2.1.regs 0, mem_bytes x.2.1.mem 8192 3, mem_bytes x.2.1.mem 256 8))
      = some (false, 0, [97, 98, 0], [0, 32, 0, 0, 3, 0, 0, 0]) ∧
    (Hosted.cortexm_hostio_request sample_os (fun _ => 0) 0
        { sample_call 21 8192 2 0 0 with cmdline := [97, 98] } [] 0).map
        (fun x => (x.1, x.2.1.regs 0, mem_bytes x.2.1.mem 8192 3))
      = some (false, 4294967295, [0, 0, 0]) := by
  have h := get_cmdline_result (gdb_main_loop_model sample_other) sample_locals sample_os
    (fun _ => 0) 0 { sample_call 21 8192 16 0 0 with cmdline := [97, 98] } sample_link [] 0
    (by decide) 2 (by decide) _ _ rfl rfl
  have h2 := get_cmdline_result (gdb_main_loop_model sample_other) sample_locals sample_os
    (fun _ => 0) 0 { sample_call 21 8192 2 0 0 with cmdline := [97, 98] } sample_link [] 0
    (by decide) 2 (by decide) _ _ rfl rfl
  refine ⟨by decide, ?_, ?_⟩
  · rw [(h.1 (by decide) (by decide) (by decide)).1]
    decide
  · rw [(h2.2.1 (by decide)).2.1]
    decide

/-! ## Console routing in the direct build -/

/-- C24, what the code does: in the direct build the open-mode table holds the
host's `O_*` flags and the console test masks the entry with `TARGET_O_TRUNC`
(0x400, the value of the host's `O_APPEND`).  Opening `:tt` with the mode
indices 0..5 returns the handles 1, 3, 3, 3, 2, 2 in the direct build and
1, 3, 2, 2, 3, 3 in the relayed build; neither build calls its backend. -/
theorem console_routing_direct_build :
    (List.range 6).map (fun i =>
        ((Hosted.semihosting_open sample_os (fun _ => 0)
            { sample_target with mem := store_bytes (fun _ => 0) 4096 [58, 116, 116, 0] } []
            (sample_request 1 4096 (2 * i) 3 0)).1,
          (Hosted.semihosting_open sample_os (fun _ => 0)
            { sample_target with mem := store_bytes (fun _ => 0) 4096 [58, 116, 116, 0] } []
            (sample_request 1 4096 (2 * i) 3 0)).2.2))
      = [(1, []), (3, []), (3, []), (3, []), (2, []), (2, [])] ∧
    (List.range 6).map (fun i =>
        (Probe.semihosting_open (gdb_main_loop_model sample_other) (fun _ => 0)
            { sample_target with mem := store_bytes (fun _ => 0) 4096 [58, 116, 116, 0] }
            sample_link (sample_request 1 4096 (2 * i) 3 0)).map (fun x => (x.1, x.2.2)))
      = [some (1, sample_link), some (3, sample_link), some (2, sample_link),
         some (2, sample_link), some (3, sample_link), some (3, sample_link)] ∧
    Hosted.open_mode_flags = [0, 2, 577, 578, 1089, 1090] ∧
    (Hosted.open_mode_flags.map (fun flags => flags &&& TARGET_O_TRUNC))
      = [0, 0, 0, 0, 1024, 1024] := by
  decide

/-! ## Calls without a case -/

theorem read_request_syscall {σ : Type} (t : target_s σ) :
    (read_request t).1.syscall = target_reg_read t 0 := by
  unfold read_request
  simp only []
  split <;> rfl

theorem probe_dispatch_default {σ : Type} (gdb_main_loop : main_loop σ)
    (env : Probe.probe_locals) (fuel : Nat) (t : target_s σ) (l : gdb_link) (time0_sec : Nat)
    (request : semihosting_s) (h : request.syscall ∉ handled_calls) :
    Probe.dispatch gdb_main_loop env fuel t l time0_sec request = some (0, t, l, time0_sec) := by
  simp only [handled_calls, List.mem_cons, List.mem_singleton, List.not_mem_nil, or_false,
    not_or] at h
  simp [Probe.dispatch, h]

theorem hosted_dispatch_default {σ : Type} (os : Hosted.host_os) (beyond : Nat → Nat)
    (fuel : Nat) (t : target_s σ) (calls : List Hosted.os_call) (time0_sec : Nat)
    (request : semihosting_s) (h : request.syscall ∉ handled_calls) :
    Hosted.dispatch os beyond fuel t calls time0_sec request = some (0, t, calls, time0_sec) := by
  simp only [handled_calls, List.mem_cons, List.mem_singleton, List.not_mem_nil, or_false,
    not_or] at h
  simp [Hosted.dispatch, h]

/-- C25: when register 0 holds a call identifier that has no case in the dispatcher,
`cortexm_hostio_request` of either build returns false, leaves the link (no
request sent, no packet read, nothing on the serial port) and the log of host
calls as they were, makes no request of the target, leaves target memory and
the probe's memory unchanged and changes no register but register 0, to which
it writes 0. -/
theorem unhandled_call {σ : Type} (gdb_main_loop : main_loop σ) (env : Probe.probe_locals)
    (os : Hosted.host_os) (fuel : Nat) (t : target_s σ) (l : gdb_link)
    (calls : List Hosted.os_call) (time0_sec : Nat)
    (h : target_reg_read t 0 ∉ handled_calls) :
    Probe.cortexm_hostio_request gdb_main_loop env fuel t l time0_sec
      = some (false, target_reg_write (read_request t).2 0 0, l, time0_sec) ∧
    Hosted.cortexm_hostio_request os env.beyond fuel t calls time0_sec
      = some (false, target_reg_write (read_request t).2 0 0, calls, time0_sec) ∧
    (target_reg_write (read_request t).2 0 0).mem = t.mem ∧
    (target_reg_write (read_request t).2 0 0).probe_mem = t.probe_mem ∧
    (target_reg_write (read_request t).2 0 0).events = t.events ∧
    (target_reg_write (read_request t).2 0 0).regs 0 = 0 ∧
    ∀ r, r ≠ 0 → (target_reg_write (read_request t).2 0 0).regs r = t.regs r := by
  have hs : (read_request t).1.syscall ∉ handled_calls := by
    rw [read_request_syscall]
    exact h
  obtain ⟨hmem, hpm, hint, _, _, hregs, _⟩ := read_request_frame t
  have hev : (read_request t).2.events = t.events := by
    unfold read_request
    simp only []
    split
    · unfold target_mem_read
      split <;> simp
    · simp
  refine ⟨?_, ?_, ?_, ?_, ?_, ?_, ?_⟩
  · simp only [Probe.cortexm_hostio_request, probe_dispatch_default _ _ _ _ _ _ _ hs, hint]
    rfl
  · simp only [Hosted.cortexm_hostio_request, hosted_dispatch_default _ _ _ _ _ _ _ hs, hint]
    rfl
  · simpa [target_reg_write] using hmem
  · simpa [target_reg_write] using hpm
  · simpa [target_reg_write] using hev
  · simp [target_reg_write]
  · intro r hr
    simp [target_reg_write, hr, hregs]

/-- C25, witness: the call identifiers 0x0b, 0x14, 0x17 and 50 on the sample target. -/
theorem unhandled_call_witness :
    target_reg_read (sample_call 11 1 2 3 4) 0 ∉ handled_calls ∧
    target_reg_read (sample_call 20 1 2 3 4) 0 ∉ handled_calls ∧
    target_reg_read (sample_call 23 1 2 3 4) 0 ∉ handled_calls ∧
    target_reg_read (sample_call 50 1 2 3 4) 0 ∉ handled_calls ∧
    Probe.cortexm_hostio_request (gdb_main_loop_model sample_other) sample_locals 8
        (sample_call 11 1 2 3 4) sample_link 0
      = some (false, target_reg_write (read_request (sample_call 11 1 2 3 4)).2 0 0, sample_link,
          0) ∧
    (target_reg_write (read_request (sample_call 11 1 2 3 4)).2 0 0).mem
      = (sample_call 11 1 2 3 4).mem :=
  ⟨by decide, by decide, by decide, by decide,
    (unhandled_call (gdb_main_loop_model sample_other) sample_locals sample_os 8
      (sample_call 11 1 2 3 4) sample_link [] 0 (by decide)).1,
    (unhandled_call (gdb_main_loop_model sample_other) sample_locals sample_os 8
      (sample_call 11 1 2 3 4) sample_link [] 0 (by decide)).2.2.1⟩

/-! ## The sign of the decoded return code -/

/-- The return value of `semihosting_reply` for a packet that decodes and has no `-` after
the `F`: the stored retcode read as `int`. -/
theorem semihosting_reply_plain (tc : target_controller_s) (pbuf : List Char) (len : Int)
    (hitems : 1 ≤ reply_items pbuf) (hminus : char_at pbuf 1 ≠ '-') :
    (semihosting_reply tc pbuf len).1 = to_int32 (reply_retcode pbuf) := by
  have hneg : (char_at pbuf 1 == '-') = false := by simpa using hminus
  unfold reply_items at hitems
  unfold semihosting_reply reply_retcode
  simp only [hneg, Bool.false_eq_true, if_false] at hitems ⊢
  have hlt : ¬ (sscanf_x_x_c (c_str pbuf 1) 0 0 '\x00').items < 1 := by omega
  simp only [hlt, if_false]

/-- C26, as amended: for a reply `F` followed by a body `retcode[,errno[,C]]` whose
retcode is hexadecimal digits without a leading `-` and of value below
`2 ^ 31`, `semihosting_reply` returns that value, which is not negative; for a
body of that form with or without a leading `-`, a negative return value
means that the body has the leading `-` or that the retcode is `2 ^ 31` or
more.  For any packet at all, a negative return value means that the decode
failed (no field parsed), that the packet has a `-` right after the `F`, or
that the value `sscanf` stored for the retcode is `2 ^ 31` or more; and a packet
that decodes, has no `-` right after the `F` and a stored retcode below `2 ^ 31`
returns that stored value. -/
theorem reply_retcode_sign (tc : target_controller_s) (len : Int) (rd : List Char)
    (eo : Option (List Char)) (cc : Bool)
    (hr : is_hex_digits rd) (he : ∀ e, eo = some e → is_hex_digits e) :
    (hex_value rd < 2147483648 →
      (semihosting_reply tc ('F' :: reply_body false rd eo cc) len).1 = (hex_value rd : Int) ∧
      0 ≤ (semihosting_reply tc ('F' :: reply_body false rd eo cc) len).1) ∧
    (∀ negative : Bool,
      (semihosting_reply tc ('F' :: reply_body negative rd eo cc) len).1 < 0 →
        negative = true ∨ 2147483648 ≤ hex_value rd) ∧
    (∀ pbuf : List Char,
      (semihosting_reply tc pbuf len).1 < 0 →
        reply_items pbuf < 1 ∨ char_at pbuf 1 = '-' ∨ 2147483648 ≤ reply_retcode pbuf) ∧
    (∀ pbuf : List Char,
      1 ≤ reply_items pbuf → char_at pbuf 1 ≠ '-' → reply_retcode pbuf < 2147483648 →
        (semihosting_reply tc pbuf len).1 = (reply_retcode pbuf : Int) ∧
        0 ≤ (semihosting_reply tc pbuf len).1) := by
  refine ⟨?_, ?_, ?_, ?_⟩
  · intro hlt
    rw [semihosting_reply_body tc len false rd eo cc hr he]
    have hmin : min (hex_value rd) UINT32_MAX = hex_value rd := by
      unfold UINT32_MAX
      omega
    simp only [Bool.false_eq_true, if_false, hmin]
    rw [to_int32_small _ hlt]
    exact ⟨rfl, Int.natCast_nonneg _⟩
  · intro negative hneg
    cases negative with
    | true => exact Or.inl rfl
    | false =>
      right
      by_contra hlt
      have hlt2 : hex_value rd < 2147483648 := by omega
      rw [semihosting_reply_body tc len false rd eo cc hr he] at hneg
      have hmin : min (hex_value rd) UINT32_MAX = hex_value rd := by
        unfold UINT32_MAX
        omega
      simp only [Bool.false_eq_true, if_false, hmin] at hneg
      rw [to_int32_small _ hlt2] at hneg
      omega
  · intro pbuf hneg
    by_cases hitems : reply_items pbuf < 1
    · exact Or.inl hitems
    · by_cases hminus : char_at pbuf 1 = '-'
      · exact Or.inr (Or.inl hminus)
      · right
        right
        by_contra hlt
        have hlt2 : reply_retcode pbuf < 2147483648 := by omega
        rw [semihosting_reply_plain tc pbuf len (by omega) hminus, to_int32_small _ hlt2] at hneg
        omega
  · intro pbuf hitems hminus hlt
    rw [semihosting_reply_plain tc pbuf len hitems hminus, to_int32_small _ hlt]
    exact ⟨rfl, Int.natCast_nonneg _⟩

/-- C26, witness: the reply `F7fffffff,0` returns `2 ^ 31 - 1`; the packet `F 7f` (a space
before the digits) decodes to the stored retcode 0x7f and returns it. -/
theorem reply_retcode_sign_witness :
    is_hex_digits ['7', 'f', 'f', 'f', 'f', 'f', 'f', 'f'] ∧
    hex_value ['7', 'f', 'f', 'f', 'f', 'f', 'f', 'f'] = 2147483647 ∧
    (semihosting_reply ⟨false, 0⟩
        ('F' :: reply_body false ['7', 'f', 'f', 'f', 'f', 'f', 'f', 'f'] (some ['0']) false)
        11).1 = 2147483647 ∧
    1 ≤ reply_items ['F', ' ', '7', 'f'] ∧ char_at ['F', ' ', '7', 'f'] 1 ≠ '-' ∧
    reply_retcode ['F', ' ', '7', 'f'] = 127 ∧
    (semihosting_reply ⟨false, 0⟩ ['F', ' ', '7', 'f'] 4).1
      = (reply_retcode ['F', ' ', '7', 'f'] : Int) :=
  ⟨by decide, by decide,
    ((reply_retcode_sign ⟨false, 0⟩ 11 ['7', 'f', 'f', 'f', 'f', 'f', 'f', 'f'] (some ['0']) false
      (by decide) (fun e he => by cases he; decide)).1 (by decide)).1,
    by decide, by decide, by decide,
    ((reply_retcode_sign ⟨false, 0⟩ 4 ['7', 'f', 'f', 'f', 'f', 'f', 'f', 'f'] (some ['0']) false
      (by decide) (fun e he => by cases he; decide)).2.2.2 ['F', ' ', '7', 'f'] (by decide)
      (by decide) (by decide)).1⟩

/-- C26, counterexample to the claim as stated: the replies `FFFFFFFFF` and
`F80000000,0` have a retcode of 8 hexadecimal digits without a leading `-`,
yet `semihosting_reply` returns -1 and `-2 ^ 31`.  The packets `F80000000zz`,
`F+80000000`, `F 80000000` and `F -5` decode (one field parsed) and have no `-`
right after the `F`, yet return `-2 ^ 31` and -5: the stored retcode is
`2 ^ 31` or more. -/
theorem reply_eight_digits_negative :
    is_hex_digits ['F', 'F', 'F', 'F', 'F', 'F', 'F', 'F'] ∧
    ['F', 'F', 'F', 'F', 'F', 'F', 'F', 'F'].length = 8 ∧
    'F' :: reply_body false ['F', 'F', 'F', 'F', 'F', 'F', 'F', 'F'] none false
      = ['F', 'F', 'F', 'F', 'F', 'F', 'F', 'F', 'F'] ∧
    hex_value ['F', 'F', 'F', 'F', 'F', 'F', 'F', 'F'] = 4294967295 ∧
    (semihosting_reply ⟨false, 0⟩ ['F', 'F', 'F', 'F', 'F', 'F', 'F', 'F', 'F'] 9).1 = -1 ∧
    reply_items ['F', 'F', 'F', 'F', 'F', 'F', 'F', 'F', 'F'] = 1 ∧
    (semihosting_reply ⟨false, 0⟩ ['F', '8', '0', '0', '0', '0', '0', '0', '0', ',', '0'] 11).1
      = -2147483648 ∧
    (reply_items ['F', '8', '0', '0', '0', '0', '0', '0', '0', 'z', 'z'],
      reply_retcode ['F', '8', '0', '0', '0', '0', '0', '0', '0', 'z', 'z'],
      (semihosting_reply ⟨false, 0⟩ ['F', '8', '0', '0', '0', '0', '0', '0', '0', 'z', 'z'] 11).1)
      = (1, 2147483648, -2147483648) ∧
    (reply_items ['F', '+', '8', '0', '0', '0', '0', '0', '0', '0'],
      reply_retcode ['F', '+', '8', '0', '0', '0', '0', '0', '0', '0'],
      (semihosting_reply ⟨false, 0⟩ ['F', '+', '8', '0', '0', '0', '0', '0', '0', '0'] 10).1)
      = (1, 2147483648, -2147483648) ∧
    (reply_items ['F', ' ', '8', '0', '0', '0', '0', '0', '0', '0'],
      reply_retcode ['F', ' ', '8', '0', '0', '0', '0', '0', '0', '0'],
      (semihosting_reply ⟨false, 0⟩ ['F', ' ', '8', '0', '0', '0', '0', '0', '0', '0'] 10).1)
      = (1, 2147483648, -2147483648) ∧
    (reply_items ['F', ' ', '-', '5'], reply_retcode ['F', ' ', '-', '5'],
      (semihosting_reply ⟨false, 0⟩ ['F', ' ', '-', '5'] 4).1)
      = (1, 4294967291, -5) := by
  decide

/-! ## The temporary name as an encoding of the id -/

theorem tmpnam_decode (i : Nat) :
    16 * ((tmpnam_name i).getD 4 0 - 65) + ((tmpnam_name i).getD 5 0 - 65) = i := by
  have h1 : (tmpnam_name i).getD 4 0 = 65 + i >>> 4 := rfl
  have h2 : (tmpnam_name i).getD 5 0 = 65 + (i &&& 15) := rfl
  have h3 : i &&& 15 = i % 16 := Nat.and_pow_two_sub_one_eq_mod i 4
  rw [h1, h2, h3, Nat.shiftRight_eq_div_pow]
  omega

/-- C29: for a tmpnam request that passes the checks with target id `i` in 0..255,
the name the code writes is `temp`, c1, c2, `.tmp`, NUL with the two letters
computed from `i`; the id is recovered from it as
`16 * (name[4] - 'A') + (name[5] - 'A')`, both letters lie in `'A'..'P'` (65..80),
and the name of any other id differs from it. -/
theorem tmpnam_injective {σ : Type} (t : target_s σ) (request : semihosting_s) (j : Nat)
    (hbuf : request.params 0 ≠ 0) (hi : request.params 1 ≤ 255)
    (hsize : 11 ≤ to_int32 (request.params 2)) :
    sys_tmpnam t request
      = (if (target_mem_write t (request.params 0) (tmpnam_name (request.params 1))).1 then -1
         else 0,
         (target_mem_write t (request.params 0) (tmpnam_name (request.params 1))).2) ∧
    16 * ((tmpnam_name (request.params 1)).getD 4 0 - 65)
      + ((tmpnam_name (request.params 1)).getD 5 0 - 65) = request.params 1 ∧
    65 ≤ (tmpnam_name (request.params 1)).getD 4 0 ∧
    (tmpnam_name (request.params 1)).getD 4 0 ≤ 80 ∧
    65 ≤ (tmpnam_name (request.params 1)).getD 5 0 ∧
    (tmpnam_name (request.params 1)).getD 5 0 ≤ 80 ∧
    (request.params 1 ≠ j → tmpnam_name (request.params 1) ≠ tmpnam_name j) := by
  obtain ⟨_, _, h3, h4⟩ := tmpnam_letters (request.params 1) hi
  have h1 : (tmpnam_name (request.params 1)).getD 4 0 = 65 + request.params 1 >>> 4 := rfl
  have h2 : (tmpnam_name (request.params 1)).getD 5 0 = 65 + (request.params 1 &&& 15) := rfl
  refine ⟨sys_tmpnam_ok t request hbuf hi hsize, tmpnam_decode _, ?_, ?_, ?_, ?_, ?_⟩
  · omega
  · omega
  · omega
  · omega
  · intro hne heq
    apply hne
    rw [← tmpnam_decode (request.params 1), ← tmpnam_decode j, heq]

/-- C29, witness: the ids 0xAB and 0xBA give `tempKL.tmp` and `tempLK.tmp`, and 0xAB is
recovered from the letters `K` (75) and `L` (76). -/
theorem tmpnam_injective_witness :
    (sample_request 13 8192 171 16 0).params 1 ≤ 255 ∧
    tmpnam_name 171 = [116, 101, 109, 112, 75, 76, 46, 116, 109, 112, 0] ∧
    tmpnam_name 186 = [116, 101, 109, 112, 76, 75, 46, 116, 109, 112, 0] ∧
    16 * (75 - 65) + (76 - 65) = 171 ∧
    tmpnam_name ((sample_request 13 8192 171 16 0).params 1) ≠ tmpnam_name 186 :=
  ⟨by decide, by decide, by decide, by decide,
    (tmpnam_injective sample_target (sample_request 13 8192 171 16 0) 186 (by decide) (by decide)
      (by decide)).2.2.2.2.2.2 (by decide)⟩

/-! ## What the direct read stores -/

/-- C28, what the code does: the direct build's `semihosting_read` copies the whole
allocated buffer of `buf_len` bytes to target memory, whatever `read` returned.
With 4 bytes asked for at address 4096, which holds 1, 2, 3, 4, and a block
from `malloc` filled with 0xAA: a read of 1 byte (`A`) returns 3 and leaves
`A`, 0xAA, 0xAA, 0xAA there; a read of 0 bytes returns 4 and a failed read
returns -1, both leaving four bytes 0xAA there. -/
theorem direct_read_stores_whole_buffer :
    ((Hosted.semihosting_read
        { sample_os with ret := fun _ call =>
            match call with
            | Hosted.os_call.read _ _ => 1
            | _ => 0 }
        { sample_target with mem := store_bytes (fun _ => 0) 4096 [1, 2, 3, 4] } []
        (sample_request 6 4 4096 4 0)).1,
      mem_bytes (Hosted.semihosting_read
        { sample_os with ret := fun _ call =>
            match call with
            | Hosted.os_call.read _ _ => 1
            | _ => 0 }
        { sample_target with mem := store_bytes (fun _ => 0) 4096 [1, 2, 3, 4] } []
        (sample_request 6 4 4096 4 0)).2.1.mem 4096 4)
      = (3, [65, 170, 170, 170]) ∧
    ((Hosted.semihosting_read
        { sample_os with ret := fun _ _ => 0 }
        { sample_target with mem := store_bytes (fun _ => 0) 4096 [1, 2, 3, 4] } []
        (sample_request 6 4 4096 4 0)).1,
      mem_bytes (Hosted.semihosting_read
        { sample_os with ret := fun _ _ => 0 }
        { sample_target with mem := store_bytes (fun _ => 0) 4096 [1, 2, 3, 4] } []
        (sample_request 6 4 4096 4 0)).2.1.mem 4096 4)
      = (4, [170, 170, 170, 170]) ∧
    ((Hosted.semihosting_read
        { sample_os with ret := fun _ _ => -1 }
        { sample_target with mem := store_bytes (fun _ => 0) 4096 [1, 2, 3, 4] } []
        (sample_request 6 4 4096 4 0)).1,
      mem_bytes (Hosted.semihosting_read
        { sample_os with ret := fun _ _ => -1 }
        { sample_target with mem := store_bytes (fun _ => 0) 4096 [1, 2, 3, 4] } []
        (sample_request 6 4 4096 4 0)).2.1.mem 4096 4)
      = (-1, [170, 170, 170, 170]) ∧
    mem_bytes (store_bytes (fun _ => 0) 4096 [1, 2, 3, 4]) 4096 4 = [1, 2, 3, 4] := by
  decide

/-! ## The ESP32-C3 watchdog round trip -/

/-- C30, what the code does: `esp32c3_restore_wdts` writes `wdt_config[2]`, the word
saved from the RTC watchdog, to `RTC_SWD_CONFIG`.  On a target whose four
configuration registers hold 0x11, 0x22, 0x33, 0x44, disable saves these four
words and leaves 0, 0, 0 and the disabling value; restore then leaves 0x11,
0x22, 0x33 and 0x33: the super watchdog does not get its own word 0x44 back.
`esp32c3_halt_resume` with `step` false leaves the registers as restore does, with
`step` true as disable left them, and resumes the hart in both cases. -/
theorem esp32c3_wdt_round_trip :
    wdt_config_words sample_wdt_target = [0x11, 0x22, 0x33, 0x44] ∧
    (List.finRange 4).map (esp32c3_disable_wdts sample_wdt_target ⟨fun _ => 0⟩).2.wdt_config
      = [0x11, 0x22, 0x33, 0x44] ∧
    wdt_config_words (esp32c3_disable_wdts sample_wdt_target ⟨fun _ => 0⟩).1
      = [0, 0, 0, ESP32_C3_RTC_SWD_CONFIG_DISABLE] ∧
    wdt_config_words (esp32c3_restore_wdts (esp32c3_disable_wdts sample_wdt_target ⟨fun _ => 0⟩).1
        (esp32c3_disable_wdts sample_wdt_target ⟨fun _ => 0⟩).2)
      = [0x11, 0x22, 0x33, 0x33] ∧
    wdt_config_words (esp32c3_halt_resume (esp32c3_disable_wdts sample_wdt_target ⟨fun _ => 0⟩).1
        (esp32c3_disable_wdts sample_wdt_target ⟨fun _ => 0⟩).2 false)
      = [0x11, 0x22, 0x33, 0x33] ∧
    wdt_config_words (esp32c3_halt_resume (esp32c3_disable_wdts sample_wdt_target ⟨fun _ => 0⟩).1
        (esp32c3_disable_wdts sample_wdt_target ⟨fun _ => 0⟩).2 true)
      = [0, 0, 0, ESP32_C3_RTC_SWD_CONFIG_DISABLE] ∧
    (esp32c3_halt_resume (esp32c3_disable_wdts sample_wdt_target ⟨fun _ => 0⟩).1
        (esp32c3_disable_wdts sample_wdt_target ⟨fun _ => 0⟩).2 false).events
      = [target_event.halt_resume false] ∧
    (esp32c3_halt_resume (esp32c3_disable_wdts sample_wdt_target ⟨fun _ => 0⟩).1
        (esp32c3_disable_wdts sample_wdt_target ⟨fun _ => 0⟩).2 true).events
      = [target_event.halt_resume true] := by
  decide

/-! ## Path arguments of rename, remove and system -/

theorem read_string_rejects {σ : Type} (os : Hosted.host_os) (t : target_s σ)
    (calls : List Hosted.os_call) (string_taddr string_length : Nat)
    (h : string_taddr = TARGET_NULL ∨ string_length = 0) :
    Hosted.semihosting_read_string os t calls string_taddr string_length = (none, t, calls) := by
  simp [Hosted.semihosting_read_string, h]

theorem read_string_calls {σ : Type} (os : Hosted.host_os) (t : target_s σ)
    (calls : List Hosted.os_call) (string_taddr string_length : Nat) :
    (Hosted.semihosting_read_string os t calls string_taddr string_length).2.2 = calls ∨
    (Hosted.semihosting_read_string os t calls string_taddr string_length).2.2
      = calls ++ [Hosted.os_call.malloc ((string_length + 1) % 4294967296)] := by
  unfold Hosted.semihosting_read_string
  split
  · exact Or.inl rfl
  · right
    simp only []
    split
    · rfl
    · split <;> rfl

/-- C22, as amended: in the direct build, a rename, remove or system request whose
first path (or command) address is null or whose first declared length is 0
returns -1 with the target and the log of host calls as they were; a rename
whose second path is null or zero-length returns -1 and adds nothing to the
log of host calls but the allocation made for the first path, so the host's
`rename`, `remove` or `system` is not called.  In the relayed build the three
handlers check nothing: each is the relayed request with the addresses as
given and the lengths plus one, and its result is the reply's. -/
theorem path_argument_checked {σ : Type} (gdb_main_loop : main_loop σ) (os : Hosted.host_os)
    (t : target_s σ) (l : gdb_link) (calls : List Hosted.os_call) (request : semihosting_s) :
    ((request.params 0 = TARGET_NULL ∨ request.params 1 = 0) →
      Hosted.semihosting_remove os t calls request = (-1, t, calls) ∧
      Hosted.semihosting_system os t calls request = (-1, t, calls) ∧
      Hosted.semihosting_rename os t calls request = (-1, t, calls)) ∧
    ((request.params 2 = TARGET_NULL ∨ request.params 3 = 0) →
      (Hosted.semihosting_rename os t calls request).1 = -1 ∧
      ((Hosted.semihosting_rename os t calls request).2.2 = calls ∨
       (Hosted.semihosting_rename os t calls request).2.2
         = calls ++ [Hosted.os_call.malloc ((request.params 1 + 1) % 4294967296)])) ∧
    Probe.semihosting_remove gdb_main_loop t l request
      = semihosting_get_gdb_response gdb_main_loop t
          { l with sent := l.sent ++ [fileio_request.unlink (request.params 0)
            ((request.params 1 + 1) % 4294967296)] } ∧
    Probe.semihosting_system gdb_main_loop t l request
      = semihosting_get_gdb_response gdb_main_loop t
          { l with sent := l.sent ++ [fileio_request.system (request.params 0)
            ((request.params 1 + 1) % 4294967296)] } ∧
    Probe.semihosting_rename gdb_main_loop t l request
      = semihosting_get_gdb_response gdb_main_loop t
          { l with sent := l.sent ++ [fileio_request.rename (request.params 0)
            ((request.params 1 + 1) % 4294967296) (request.params 2)
            ((request.params 3 + 1) % 4294967296)] } := by
  refine ⟨?_, ?_, rfl, rfl, rfl⟩
  · intro h
    have hs := read_string_rejects os t calls _ _ h
    refine ⟨?_, ?_, ?_⟩
    · simp only [Hosted.semihosting_remove, hs]
    · simp only [Hosted.semihosting_system, hs]
    · simp only [Hosted.semihosting_rename, hs]
  · intro h
    have hc := read_string_calls os t calls (request.params 0) (request.params 1)
    unfold Hosted.semihosting_rename
    generalize hx : Hosted.semihosting_read_string os t calls (request.params 0)
      (request.params 1) = x at hc
    obtain ⟨o, t1, calls1⟩ := x
    cases o with
    | none => exact ⟨rfl, hc⟩
    | some old_file_name =>
      simp only [read_string_rejects os t1 calls1 _ _ h]
      exact ⟨trivial, hc⟩

/-- C22, witness: on the sample target of the direct build, remove and system with a
null address and rename with a zero-length second path return -1; the first
two call nothing, the rename only allocates the block for its first path. -/
theorem path_argument_checked_witness :
    ((sample_request 14 0 5 0 0).params 0 = TARGET_NULL ∨
      (sample_request 14 0 5 0 0).params 1 = 0) ∧
    Hosted.semihosting_remove sample_os sample_target [] (sample_request 14 0 5 0 0)
      = (-1, sample_target, []) ∧
    ((sample_request 15 4096 5 8192 0).params 2 = TARGET_NULL ∨
      (sample_request 15 4096 5 8192 0).params 3 = 0) ∧
    (Hosted.semihosting_rename sample_os sample_target [] (sample_request 15 4096 5 8192 0)).1
      = -1 ∧
    (Hosted.semihosting_rename sample_os sample_target [] (sample_request 15 4096 5 8192 0)).2.2
      = [Hosted.os_call.malloc 6] :=
  ⟨by decide,
    ((path_argument_checked (gdb_main_loop_model sample_other) sample_os sample_target sample_link
      [] (sample_request 14 0 5 0 0)).1 (by decide)).1,
    by decide,
    ((path_argument_checked (gdb_main_loop_model sample_other) sample_os sample_target sample_link
      [] (sample_request 15 4096 5 8192 0)).2.1 (by decide)).1,
    by decide⟩

/-- C22, counterexample to the claim as stated: in the relayed build a remove with a
null path address and length 0, answered `F0` by GDB, sends the request
`unlink` with address 0 and length 1 and returns 0; a system with a null
command does the same, and so does a rename whose two paths are null. -/
theorem relayed_null_path_is_sent :
    (sample_request 14 0 0 0 0).params 0 = TARGET_NULL ∧
    (sample_request 14 0 0 0 0).params 1 = 0 ∧
    (Probe.semihosting_remove (gdb_main_loop_model sample_other) sample_target
        { sample_link with inbound := [['F', '0']] } (sample_request 14 0 0 0 0)).map
        (fun x => (x.1, x.2.2.sent)) = some (0, [fileio_request.unlink 0 1]) ∧
    (Probe.semihosting_system (gdb_main_loop_model sample_other) sample_target
        { sample_link with inbound := [['F', '0']] } (sample_request 18 0 0 0 0)).map
        (fun x => (x.1, x.2.2.sent)) = some (0, [fileio_request.system 0 1]) ∧
    (Probe.semihosting_rename (gdb_main_loop_model sample_other) sample_target
        { sample_link with inbound := [['F', '0']] } (sample_request 15 0 0 0 0)).map
        (fun x => (x.1, x.2.2.sent)) = some (0, [fileio_request.rename 0 1 0 1]) := by
  decide

/-! ## The chunks of a redirected console write -/

theorem mem_bytes_append (mem : Nat → Nat) (buf a b : Nat) :
    mem_bytes mem buf (a + b)
      = mem_bytes mem buf a ++ mem_bytes mem ((buf + a) % 4294967296) b := by
  unfold mem_bytes
  rw [List.range_add, List.map_append, List.map_map]
  congr 1
  apply List.map_congr_left
  intro i _
  simp only [Function.comp]
  congr 1
  omega

theorem tc_write_loop_chunks {σ : Type} (fuel : Nat) (t : target_s σ) (l : gdb_link)
    (buf count id : Nat) (h : count ≤ fuel) (hacc : t.mem_read = mem_accessor.target id) :
    ∃ (t1 : target_s σ) (chunks : List (List Nat)),
      Probe.tc_write_loop fuel t l buf count
        = some (t1, { l with serial := l.serial ++ chunks }) ∧
      t1.mem = t.mem ∧
      chunks.flatten = mem_bytes t.mem buf count ∧
      (∀ c ∈ chunks, 1 ≤ c.length ∧ c.length ≤ STDOUT_READ_BUF_SIZE) ∧
      (count = 0 → chunks = []) := by
  induction fuel generalizing t l buf count with
  | zero =>
    have h0 : count = 0 := by omega
    subst h0
    exact ⟨t, [], by simp [Probe.tc_write_loop], rfl, by simp [mem_bytes], by simp, fun _ => rfl⟩
  | succ fuel ih =>
    by_cases h0 : count = 0
    · subst h0
      exact ⟨t, [], by simp [Probe.tc_write_loop], rfl, by simp [mem_bytes], by simp,
        fun _ => rfl⟩
    · have hrd : ∀ cnt, target_mem_read t buf cnt
          = (mem_bytes t.mem buf cnt,
              { t with mem_err := t.mem_err || range_faults t.mem_fault buf cnt }) := by
        intro cnt
        simp [target_mem_read, hacc]
      have hcnt : ∃ cnt, (if STDOUT_READ_BUF_SIZE > count then count else STDOUT_READ_BUF_SIZE)
          = cnt ∧ 1 ≤ cnt ∧ cnt ≤ STDOUT_READ_BUF_SIZE ∧ cnt ≤ count := by
        refine ⟨_, rfl, ?_, ?_, ?_⟩ <;> unfold STDOUT_READ_BUF_SIZE <;> split <;> omega
      obtain ⟨cnt, hc, hc1, hc2, hc3⟩ := hcnt
      obtain ⟨t1, chunks, hloop, hmem, hjoin, hlen, _⟩ :=
        ih { t with mem_err := t.mem_err || range_faults t.mem_fault buf cnt }
          (Probe.debug_serial_send_stdout l (mem_bytes t.mem buf cnt)) ((buf + cnt) % 4294967296)
          (count - cnt) (by omega) hacc
      refine ⟨t1, mem_bytes t.mem buf cnt :: chunks, ?_, hmem, ?_, ?_, fun hz => absurd hz h0⟩
      · unfold Probe.tc_write_loop
        simp only [h0, if_false, hc, hrd, hloop]
        simp [Probe.debug_serial_send_stdout]
      · have hsplit : count = cnt + (count - cnt) := by omega
        rw [List.flatten_cons, hjoin]
        conv_rhs => rw [hsplit]
        rw [mem_bytes_append]
      · intro c hcmem
        rcases List.mem_cons.mp hcmem with hh | hh
        · subst hh
          simp only [mem_bytes, List.length_map, List.length_range]
          exact ⟨hc1, hc2⟩
        · exact hlen c hh

/-- C27: with console output redirected, a write to stdout or stderr of `count` bytes
at `buf` (target memory read through the target's own accessor) always
returns: the chunks it hands to the debug serial, appended in order to those
sent before, concatenate to the `count` bytes of target memory from `buf`
(addresses wrapping at `2 ^ 32`), each chunk holds between 1 and
`STDOUT_READ_BUF_SIZE` bytes, and for `count = 0` no chunk is sent.  Nothing is
sent to GDB and target memory is unchanged. -/
theorem redirected_write_chunks {σ : Type} (gdb_main_loop : main_loop σ) (t : target_s σ)
    (l : gdb_link) (fd : Int) (buf count id : Nat)
    (hred : t.stdout_redirected = true) (hfd : fd = STDOUT_FILENO ∨ fd = STDERR_FILENO)
    (hacc : t.mem_read = mem_accessor.target id) :
    ∃ (t1 : target_s σ) (chunks : List (List Nat)),
      Probe.tc_write gdb_main_loop t l fd buf count
        = some (0, t1, { l with serial := l.serial ++ chunks }) ∧
      t1.mem = t.mem ∧
      chunks.flatten = mem_bytes t.mem buf count ∧
      (∀ c ∈ chunks, 1 ≤ c.length ∧ c.length ≤ STDOUT_READ_BUF_SIZE) ∧
      (count = 0 → chunks = []) := by
  obtain ⟨t1, chunks, hloop, hrest⟩ := tc_write_loop_chunks count t l buf count id (le_refl _) hacc
  refine ⟨t1, chunks, ?_, hrest⟩
  have hcond : (t.stdout_redirected && (fd == STDOUT_FILENO || fd == STDERR_FILENO)) = true := by
    rcases hfd with hh | hh <;> simp [hred, hh]
  simp only [Probe.tc_write, hcond, if_true, hloop]

/-- C27, witness: 70 bytes at address 4096 of a memory that holds `a % 256` at address
`a` go out as a chunk of 64 bytes and a chunk of 6. -/
theorem redirected_write_chunks_witness :
    (∃ (t1 : target_s Unit) (chunks : List (List Nat)),
      Probe.tc_write (gdb_main_loop_model sample_other)
          { sample_target with stdout_redirected := true, mem := fun a => a % 256 } sample_link
          1 4096 70
        = some (0, t1, { sample_link with serial := sample_link.serial ++ chunks }) ∧
      t1.mem = (fun a => a % 256) ∧
      chunks.flatten = mem_bytes (fun a => a % 256) 4096 70 ∧
      (∀ c ∈ chunks, 1 ≤ c.length ∧ c.length ≤ STDOUT_READ_BUF_SIZE) ∧
      (70 = 0 → chunks = [])) ∧
    (Probe.tc_write (gdb_main_loop_model sample_other)
        { sample_target with stdout_redirected := true, mem := fun a => a % 256 } sample_link
        1 4096 70).map (fun x => (x.2.2.serial.map List.length, x.2.2.sent)) = some ([64, 6], []) :=
  ⟨redirected_write_chunks (gdb_main_loop_model sample_other)
      { sample_target with stdout_redirected := true, mem := fun a => a % 256 } sample_link
      1 4096 70 0 rfl (Or.inl rfl) rfl,
    by decide⟩

/-! ## The string write of the relayed build -/

theorem target_mem_read8_ok {σ : Type} (t : target_s σ) (addr id : Nat)
    (hacc : t.mem_read = mem_accessor.target id) (herr : t.mem_err = false)
    (hfault : t.mem_fault (addr % 4294967296) = false) :
    target_mem_read8 t addr = (t.mem (addr % 4294967296), t) := by
  cases t
  simp only at hacc herr hfault
  subst herr
  have hr : List.range 1 = [0] := rfl
  simp [target_mem_read8, target_mem_read, hacc, mem_bytes, range_faults, hfault, hr]

theorem write0_scan_finds {σ : Type} (n : Nat) (fuel : Nat) (t : target_s σ) (a id : Nat)
    (hacc : t.mem_read = mem_accessor.target id) (herr : t.mem_err = false)
    (hfault : ∀ i, i ≤ n → t.mem_fault ((a + i) % 4294967296) = false)
    (hnz : ∀ i, i < n → t.mem ((a + i) % 4294967296) ≠ 0)
    (hz : t.mem ((a + n) % 4294967296) = 0) (ha : a < 4294967296) (hfuel : n < fuel) :
    Probe.write0_scan fuel t a = some ((a + n) % 4294967296, t) := by
  induction n generalizing fuel a with
  | zero =>
    obtain ⟨fuel, rfl⟩ : ∃ k, fuel = k + 1 := ⟨fuel - 1, by omega⟩
    have hrd := target_mem_read8_ok t a id hacc herr (by simpa using hfault 0 (le_refl _))
    have hz0 : t.mem (a % 4294967296) = 0 := by simpa using hz
    have ha0 : a % 4294967296 = a := Nat.mod_eq_of_lt ha
    simp only [Nat.add_zero, ha0]
    unfold Probe.write0_scan
    simp only [hrd, hz0, ne_eq, not_true_eq_false, if_false]
  | succ n ih =>
    obtain ⟨fuel, rfl⟩ : ∃ k, fuel = k + 1 := ⟨fuel - 1, by omega⟩
    have hrd := target_mem_read8_ok t a id hacc herr (by simpa using hfault 0 (Nat.zero_le _))
    have hnz0 : t.mem (a % 4294967296) ≠ 0 := by simpa using hnz 0 (Nat.succ_pos _)
    have hchk : target_check_error t = (false, t) := by
      cases t
      simp only at herr
      subst herr
      rfl
    have hrec := ih fuel ((a + 1) % 4294967296)
      (fun i hi => by
        have := hfault (i + 1) (by omega)
        have he : ((a + 1) % 4294967296 + i) % 4294967296 = (a + (i + 1)) % 4294967296 := by omega
        rw [he]
        exact this)
      (fun i hi => by
        have := hnz (i + 1) (by omega)
        have he : ((a + 1) % 4294967296 + i) % 4294967296 = (a + (i + 1)) % 4294967296 := by omega
        rw [he]
        exact this)
      (by
        have he : ((a + 1) % 4294967296 + n) % 4294967296 = (a + (n + 1)) % 4294967296 := by omega
        rw [he]
        exact hz)
      (Nat.mod_lt _ (by decide)) (by omega)
    have he : ((a + 1) % 4294967296 + n) % 4294967296 = (a + (n + 1)) % 4294967296 := by omega
    rw [he] at hrec
    unfold Probe.write0_scan
    simp only [hrd, hnz0, ne_eq, not_false_eq_true, if_true, hchk, Bool.false_eq_true, if_false,
      hrec]

theorem write0_length (a n : Nat) (hn : n < 4294967296) :
    to_uint32 ((((a + n) % 4294967296 : Nat) : Int) - (a : Int)) = n := by
  unfold to_uint32
  omega

theorem write0_too_long {σ : Type} (gdb_main_loop : main_loop σ) (fuel : Nat)
    (t : target_s σ) (l : gdb_link) (request : semihosting_s) (n id : Nat)
    (hacc : t.mem_read = mem_accessor.target id) (herr : t.mem_err = false)
    (hfault : ∀ i, i ≤ n → t.mem_fault ((request.r1 + i) % 4294967296) = false)
    (hnz : ∀ i, i < n → t.mem ((request.r1 + i) % 4294967296) ≠ 0)
    (hz : t.mem ((request.r1 + n) % 4294967296) = 0)
    (ha : request.r1 < 4294967296) (hn : 2147483648 ≤ n) (hn2 : n < 4294967296)
    (hfuel : n < fuel) (hnn : request.r1 ≠ TARGET_NULL) :
    Probe.semihosting_write0 gdb_main_loop fuel t l request = some (0, t, l) := by
  have hscan := write0_scan_finds n fuel t request.r1 id hacc herr hfault hnz hz ha hfuel
  have hlen := write0_length request.r1 n hn2
  have hneg : ¬ (to_int32 n ≥ 0) := by
    unfold to_int32
    split <;> omega
  unfold Probe.semihosting_write0
  simp only [hnn, if_false, hscan, hlen, hneg]

/-- C23, as amended: in the relayed build, when register 1 holds a non-null address
`a` such that target memory holds a NUL at `a + n` and none in `[a, a + n)`
(addresses wrapping at `2 ^ 32`), with `n < 2 ^ 31` and all memory reads
succeeding, `semihosting_write0` makes exactly the console write
`tc_write(target, STDERR_FILENO, a, n)` and returns 0 when that call returns `n`
and -1 otherwise; when console output is not redirected this write is the
relayed request `write` of descriptor 2, address `a` and length `n`.  A null
address yields -1 with nothing written. -/
theorem write0_single_write {σ : Type} (gdb_main_loop : main_loop σ) (fuel : Nat)
    (t : target_s σ) (l : gdb_link) (request : semihosting_s) (n id : Nat)
    (hacc : t.mem_read = mem_accessor.target id) (herr : t.mem_err = false)
    (hfault : ∀ i, i ≤ n → t.mem_fault ((request.r1 + i) % 4294967296) = false)
    (hnz : ∀ i, i < n → t.mem ((request.r1 + i) % 4294967296) ≠ 0)
    (hz : t.mem ((request.r1 + n) % 4294967296) = 0)
    (ha : request.r1 < 4294967296) (hn : n < 2147483648) (hfuel : n < fuel) :
    (request.r1 ≠ TARGET_NULL →
      Probe.semihosting_write0 gdb_main_loop fuel t l request
        = (Probe.tc_write gdb_main_loop t l STDERR_FILENO request.r1 n).map
            (fun x => (if x.1 = (n : Int) then 0 else -1, x.2.1, x.2.2)) ∧
      (t.stdout_redirected = false →
        Probe.tc_write gdb_main_loop t l STDERR_FILENO request.r1 n
          = semihosting_get_gdb_response gdb_main_loop t
              { l with sent := l.sent ++ [fileio_request.write 2 request.r1 n] })) ∧
    (request.r1 = TARGET_NULL →
      Probe.semihosting_write0 gdb_main_loop fuel t l request = some (-1, t, l)) := by
  constructor
  · intro hnn
    have hscan := write0_scan_finds n fuel t request.r1 id hacc herr hfault hnz hz ha hfuel
    have hlen := write0_length request.r1 n (by omega)
    have hint : to_int32 n = (n : Int) := to_int32_small n hn
    constructor
    · unfold Probe.semihosting_write0
      simp only [hnn, if_false, hscan, hlen, hint, Int.toNat_ofNat]
      have hge : (n : Int) ≥ 0 := Int.natCast_nonneg _
      simp only [hge, if_true]
      cases Probe.tc_write gdb_main_loop t l STDERR_FILENO request.r1 n with
      | none => rfl
      | some x =>
        obtain ⟨r, t2, l2⟩ := x
        by_cases hr : r = (n : Int)
        · simp [hr]
        · simp [hr]
    · intro hred
      simp [Probe.tc_write, hred, Probe.hostio_write, Probe.gdb_putpacket_f, STDERR_FILENO]
  · intro hnull
    simp [Probe.semihosting_write0, hnull]

/-- C23, witness: the string `hi` at address 4096, GDB answering `F2`: one request
`write` of descriptor 2, address 4096, length 2 is sent and 0 is returned. -/
theorem write0_single_write_witness :
    Probe.semihosting_write0 (gdb_main_loop_model sample_other) 8
        { sample_target with mem := store_bytes (fun _ => 0) 4096 [104, 105, 0] }
        { sample_link with inbound := [['F', '2']] }
        { syscall := 4, r1 := 4096, params := ![0, 0, 0, 0] }
      = (Probe.tc_write (gdb_main_loop_model sample_other)
          { sample_target with mem := store_bytes (fun _ => 0) 4096 [104, 105, 0] }
          { sample_link with inbound := [['F', '2']] } STDERR_FILENO 4096 2).map
            (fun x => (if x.1 = ((2 : Nat) : Int) then 0 else -1, x.2.1, x.2.2)) ∧
    (Probe.semihosting_write0 (gdb_main_loop_model sample_other) 8
        { sample_target with mem := store_bytes (fun _ => 0) 4096 [104, 105, 0] }
        { sample_link with inbound := [['F', '2']] }
        { syscall := 4, r1 := 4096, params := ![0, 0, 0, 0] }).map
          (fun x => (x.1, x.2.2.sent, x.2.2.serial))
      = some (0, [fileio_request.write 2 4096 2], []) :=
  ⟨((write0_single_write (gdb_main_loop_model sample_other) 8
      { sample_target with mem := store_bytes (fun _ => 0) 4096 [104, 105, 0] }
      { sample_link with inbound := [['F', '2']] }
      { syscall := 4, r1 := 4096, params := ![0, 0, 0, 0] } 2 0 rfl rfl
      (fun _ _ => rfl)
      (fun i hi => by interval_cases i <;> decide)
      (by decide) (by decide) (by decide) (by decide)).1 (by decide)).1,
    by decide⟩

/-- C23, counterexample to the claim as stated.  A string of `2 ^ 31` bytes at address
4096 (every byte of memory is 1, but the NUL at `4096 + 2 ^ 31`): the length does
not fit the `int32_t len`, no write is issued and 0 is returned.  And with
console output redirected, the string `hi` is handed to the debug serial in
full, yet -1 is returned. -/
theorem write0_long_or_redirected :
    (Probe.semihosting_write0 (gdb_main_loop_model sample_other) 2147483649
        { sample_target with mem := fun a => if a = 2147487744 then 0 else 1 }
        sample_link { syscall := 4, r1 := 4096, params := ![0, 0, 0, 0] })
      = some (0, { sample_target with mem := fun a => if a = 2147487744 then 0 else 1 },
          sample_link) ∧
    (Probe.semihosting_write0 (gdb_main_loop_model sample_other) 8
        { sample_target with stdout_redirected := true,
                             mem := store_bytes (fun _ => 0) 4096 [104, 105, 0] }
        sample_link { syscall := 4, r1 := 4096, params := ![0, 0, 0, 0] }).map
          (fun x => (x.1, x.2.2.sent, x.2.2.serial))
      = some (-1, [], [[104, 105]]) := by
  refine ⟨?_, by decide⟩
  exact write0_too_long (gdb_main_loop_model sample_other) 2147483649
    { sample_target with mem := fun a => if a = 2147487744 then 0 else 1 } sample_link
    { syscall := 4, r1 := 4096, params := ![0, 0, 0, 0] } 2147483648 0 rfl rfl
    (fun _ _ => rfl)
    (fun i hi => by
      have hne : (4096 + i) % 4294967296 ≠ 2147487744 := by omega
      show (if (4096 + i) % 4294967296 = 2147487744 then 0 else 1) ≠ 0
      rw [if_neg hne]
      decide)
    (by decide) (by decide) (by decide) (by decide) (by decide) (by decide)

/-! ## The interrupted flag across a dispatch -/

theorem target_mem_read_tc {σ : Type} (t : target_s σ) (src len : Nat) :
    (target_mem_read t src len).2.tc = t.tc := by
  unfold target_mem_read
  split <;> rfl

theorem target_mem_read8_tc {σ : Type} (t : target_s σ) (addr : Nat) :
    (target_mem_read8 t addr).2.tc = t.tc :=
  target_mem_read_tc t addr 1

theorem target_mem_write_tc {σ : Type} (t : target_s σ) (dest : Nat) (data : List Nat) :
    (target_mem_write t dest data).2.tc = t.tc :=
  (target_mem_write_frame t dest data).1

theorem read_string_tc {σ : Type} (os : Hosted.host_os) (t : target_s σ)
    (calls : List Hosted.os_call) (string_taddr string_length : Nat) :
    (Hosted.semihosting_read_string os t calls string_taddr string_length).2.1.tc = t.tc := by
  unfold Hosted.semihosting_read_string
  split
  · rfl
  · simp only []
    split
    · rfl
    · split <;> exact target_mem_read_tc t _ _

theorem sys_get_cmdline_tc {σ : Type} (t : target_s σ) (request : semihosting_s) :
    (sys_get_cmdline t request).2.tc = t.tc := by
  unfold sys_get_cmdline
  simp only []
  split
  · rfl
  · split
    · exact target_mem_write_tc _ _ _
    · split
      · rw [target_mem_write_tc, target_mem_write_tc]
      · rw [target_mem_write_tc, target_mem_write_tc]

theorem sys_heapinfo_tc {σ : Type} (t : target_s σ) (request : semihosting_s) :
    (sys_heapinfo t request).2.tc = t.tc :=
  target_mem_write_tc _ _ _

theorem sys_tmpnam_tc {σ : Type} (t : target_s σ) (request : semihosting_s) :
    (sys_tmpnam t request).2.tc = t.tc := by
  unfold sys_tmpnam
  simp only []
  split
  · rfl
  · split
    · rfl
    · split
      · rfl
      · split
        · rfl
        · split <;> exact target_mem_write_tc _ _ _

theorem hosted_open_tc {σ : Type} (os : Hosted.host_os) (beyond : Nat → Nat) (t : target_s σ)
    (calls : List Hosted.os_call) (request : semihosting_s) :
    (Hosted.semihosting_open os beyond t calls request).2.1.tc = t.tc := by
  unfold Hosted.semihosting_open
  simp only []
  split
  · exact target_mem_read_tc _ _ _
  · have h := read_string_tc os (target_mem_read t (request.params 0) 4).2 calls
      (request.params 0) (request.params 2)
    rw [target_mem_read_tc] at h
    split
    · rename_i heq
      rw [heq] at h
      exact h
    · rename_i heq
      rw [heq] at h
      split <;> exact h

theorem hosted_read_tc {σ : Type} (os : Hosted.host_os) (t : target_s σ)
    (calls : List Hosted.os_call) (request : semihosting_s) :
    (Hosted.semihosting_read os t calls request).2.1.tc = t.tc := by
  unfold Hosted.semihosting_read
  simp only []
  split
  · rfl
  · split
    · rfl
    · split
      · rfl
      · split
        · exact target_mem_write_tc _ _ _
        · split <;> exact target_mem_write_tc _ _ _

theorem hosted_write_tc {σ : Type} (os : Hosted.host_os) (t : target_s σ)
    (calls : List Hosted.os_call) (request : semihosting_s) :
    (Hosted.semihosting_write os t calls request).2.1.tc = t.tc := by
  unfold Hosted.semihosting_write
  simp only []
  split
  · rfl
  · split
    · rfl
    · split
      · rfl
      · split
        · exact target_mem_read_tc _ _ _
        · split <;> exact target_mem_read_tc _ _ _

theorem hosted_writec_tc {σ : Type} (t : target_s σ) (calls : List Hosted.os_call)
    (request : semihosting_s) :
    (Hosted.semihosting_writec t calls request).2.1.tc = t.tc := by
  unfold Hosted.semihosting_writec
  simp only []
  split
  · rfl
  · split <;> exact target_mem_read8_tc _ _

theorem hosted_write0_loop_tc {σ : Type} (fuel : Nat) (t : target_s σ)
    (calls : List Hosted.os_call) (char_taddr : Nat) (t1 : target_s σ)
    (calls1 : List Hosted.os_call)
    (h : Hosted.write0_loop fuel t calls char_taddr = some (t1, calls1)) : t1.tc = t.tc := by
  induction fuel generalizing t calls char_taddr with
  | zero => simp [Hosted.write0_loop] at h
  | succ fuel ih =>
    unfold Hosted.write0_loop at h
    simp only [] at h
    split at h
    · simp only [Option.some.injEq, Prod.mk.injEq] at h
      rw [← h.1]
      rfl
    · split at h
      · simp only [Option.some.injEq, Prod.mk.injEq] at h
        rw [← h.1]
        exact target_mem_read8_tc _ _
      · have := ih _ _ _ h
        rw [this]
        exact target_mem_read8_tc _ _

theorem hosted_write0_tc {σ : Type} (fuel : Nat) (t : target_s σ) (calls : List Hosted.os_call)
    (request : semihosting_s) (ret : Int) (t1 : target_s σ) (calls1 : List Hosted.os_call)
    (h : Hosted.semihosting_write0 fuel t calls request = some (ret, t1, calls1)) :
    t1.tc = t.tc := by
  unfold Hosted.semihosting_write0 at h
  simp only [] at h
  split at h
  · simp only [Option.some.injEq, Prod.mk.injEq] at h
    rw [← h.2.1]
  · cases hx : Hosted.write0_loop fuel t calls request.r1 with
    | none => simp [hx] at h
    | some v =>
      obtain ⟨t2, calls2⟩ := v
      rw [hx] at h
      simp only [Option.some.injEq, Prod.mk.injEq] at h
      rw [← h.2.1]
      exact hosted_write0_loop_tc fuel t calls request.r1 t2 calls2 hx

theorem hosted_rename_tc {σ : Type} (os : Hosted.host_os) (t : target_s σ)
    (calls : List Hosted.os_call) (request : semihosting_s) :
    (Hosted.semihosting_rename os t calls request).2.1.tc = t.tc := by
  unfold Hosted.semihosting_rename
  have h := read_string_tc os t calls (request.params 0) (request.params 1)
  split
  · rename_i heq
    rw [heq] at h
    exact h
  · rename_i o t1 calls1 heq
    rw [heq] at h
    have h2 := read_string_tc os t1 calls1 (request.params 2) (request.params 3)
    split
    · rename_i heq2
      rw [heq2] at h2
      exact h2.trans h
    · rename_i heq2
      rw [heq2] at h2
      exact h2.trans h

theorem hosted_remove_tc {σ : Type} (os : Hosted.host_os) (t : target_s σ)
    (calls : List Hosted.os_call) (request : semihosting_s) :
    (Hosted.semihosting_remove os t calls request).2.1.tc = t.tc := by
  unfold Hosted.semihosting_remove
  have h := read_string_tc os t calls (request.params 0) (request.params 1)
  split
  · rename_i heq
    rw [heq] at h
    exact h
  · rename_i heq
    rw [heq] at h
    exact h

theorem hosted_system_tc {σ : Type} (os : Hosted.host_os) (t : target_s σ)
    (calls : List Hosted.os_call) (request : semihosting_s) :
    (Hosted.semihosting_system os t calls request).2.1.tc = t.tc := by
  unfold Hosted.semihosting_system
  have h := read_string_tc os t calls (request.params 0) (request.params 1)
  split
  · rename_i heq
    rw [heq] at h
    exact h
  · rename_i heq
    rw [heq] at h
    exact h

theorem hosted_dispatch_tc {σ : Type} (os : Hosted.host_os) (beyond : Nat → Nat) (fuel : Nat)
    (t : target_s σ) (calls : List Hosted.os_call) (time0_sec : Nat) (request : semihosting_s)
    (ret : Int) (t1 : target_s σ) (calls1 : List Hosted.os_call) (time0 : Nat)
    (h : Hosted.dispatch os beyond fuel t calls time0_sec request
      = some (ret, t1, calls1, time0)) : t1.tc = t.tc := by
  unfold Hosted.dispatch at h
  simp only [] at h
  by_cases c0 : request.syscall = SEMIHOSTING_SYS_OPEN
  · rw [if_pos c0] at h
    have h2 := congrArg (fun x => x.2.1) (Option.some.inj h)
    simp only [] at h2
    subst h2
    exact hosted_open_tc _ _ _ _ _
  rw [if_neg c0] at h
  by_cases c1 : request.syscall = SEMIHOSTING_SYS_CLOSE
  · rw [if_pos c1] at h
    have h2 := congrArg (fun x => x.2.1) (Option.some.inj h)
    simp only [] at h2
    subst h2
    rfl
  rw [if_neg c1] at h
  by_cases c2 : request.syscall = SEMIHOSTING_SYS_READ
  · rw [if_pos c2] at h
    have h2 := congrArg (fun x => x.2.1) (Option.some.inj h)
    simp only [] at h2
    subst h2
    exact hosted_read_tc _ _ _ _
  rw [if_neg c2] at h
  by_cases c3 : request.syscall = SEMIHOSTING_SYS_WRITE
  · rw [if_pos c3] at h
    have h2 := congrArg (fun x => x.2.1) (Option.some.inj h)
    simp only [] at h2
    subst h2
    exact hosted_write_tc _ _ _ _
  rw [if_neg c3] at h
  by_cases c4 : request.syscall = SEMIHOSTING_SYS_WRITEC
  · rw [if_pos c4] at h
    have h2 := congrArg (fun x => x.2.1) (Option.some.inj h)
    simp only [] at h2
    subst h2
    exact hosted_writec_tc _ _ _
  rw [if_neg c4] at h
  by_cases c5 : request.syscall = SEMIHOSTING_SYS_WRITE0
  · rw [if_pos c5] at h
    obtain ⟨x, hx, hk⟩ := Option.map_eq_some'.mp h
    obtain ⟨r, t2, c2⟩ := x
    simp only [Prod.mk.injEq] at hk
    rw [← hk.2.1]
    exact hosted_write0_tc _ _ _ _ _ _ _ hx
  rw [if_neg c5] at h
  by_cases c6 : request.syscall = SEMIHOSTING_SYS_ISTTY
  · rw [if_pos c6] at h
    have h2 := congrArg (fun x => x.2.1) (Option.some.inj h)
    simp only [] at h2
    subst h2
    rfl
  rw [if_neg c6] at h
  by_cases c7 : request.syscall = SEMIHOSTING_SYS_SEEK
  · rw [if_pos c7] at h
    have h2 := congrArg (fun x => x.2.1) (Option.some.inj h)
    simp only [] at h2
    subst h2
    rfl
  rw [if_neg c7] at h
  by_cases c8 : request.syscall = SEMIHOSTING_SYS_RENAME
  · rw [if_pos c8] at h
    have h2 := congrArg (fun x => x.2.1) (Option.some.inj h)
    simp only [] at h2
    subst h2
    exact hosted_rename_tc _ _ _ _
  rw [if_neg c8] at h
  by_cases c9 : request.syscall = SEMIHOSTING_SYS_REMOVE
  · rw [if_pos c9] at h
    have h2 := congrArg (fun x => x.2.1) (Option.some.inj h)
    simp only [] at h2
    subst h2
    exact hosted_remove_tc _ _ _ _
  rw [if_neg c9] at h
  by_cases c10 : request.syscall = SEMIHOSTING_SYS_SYSTEM
  · rw [if_pos c10] at h
    have h2 := congrArg (fun x => x.2.1) (Option.some.inj h)
    simp only [] at h2
    subst h2
    exact hosted_system_tc _ _ _ _
  rw [if_neg c10] at h
  by_cases c11 : request.syscall = SEMIHOSTING_SYS_FLEN
  · rw [if_pos c11] at h
    have h2 := congrArg (fun x => x.2.1) (Option.some.inj h)
    simp only [] at h2
    subst h2
    unfold Hosted.semihosting_file_length
    simp only []
    split <;> rfl
  rw [if_neg c11] at h
  by_cases c12 : request.syscall = SEMIHOSTING_SYS_CLOCK
  · rw [if_pos c12] at h
    have h2 := congrArg (fun x => x.2.1) (Option.some.inj h)
    simp only [] at h2
    subst h2
    unfold Hosted.semihosting_clock
    simp only []
    split <;> rfl
  rw [if_neg c12] at h
  by_cases c13 : request.syscall = SEMIHOSTING_SYS_TIME
  · rw [if_pos c13] at h
    have h2 := congrArg (fun x => x.2.1) (Option.some.inj h)
    simp only [] at h2
    subst h2
    rfl
  rw [if_neg c13] at h
  by_cases c14 : request.syscall = SEMIHOSTING_SYS_READC
  · rw [if_pos c14] at h
    have h2 := congrArg (fun x => x.2.1) (Option.some.inj h)
    simp only [] at h2
    subst h2
    rfl
  rw [if_neg c14] at h
  by_cases c15 : request.syscall = SEMIHOSTING_SYS_ERRNO
  · rw [if_pos c15] at h
    have h2 := congrArg (fun x => x.2.1) (Option.some.inj h)
    simp only [] at h2
    subst h2
    rfl
  rw [if_neg c15] at h
  by_cases c16 : request.syscall = SEMIHOSTING_SYS_EXIT
  · rw [if_pos c16] at h
    have h2 := congrArg (fun x => x.2.1) (Option.some.inj h)
    simp only [] at h2
    subst h2
    rfl
  rw [if_neg c16] at h
  by_cases c17 : request.syscall = SEMIHOSTING_SYS_EXIT_EXTENDED
  · rw [if_pos c17] at h
    have h2 := congrArg (fun x => x.2.1) (Option.some.inj h)
    simp only [] at h2
    subst h2
    rfl
  rw [if_neg c17] at h
  by_cases c18 : request.syscall = SEMIHOSTING_SYS_GET_CMDLINE
  · rw [if_pos c18] at h
    have h2 := congrArg (fun x => x.2.1) (Option.some.inj h)
    simp only [] at h2
    subst h2
    exact sys_get_cmdline_tc _ _
  rw [if_neg c18] at h
  by_cases c19 : request.syscall = SEMIHOSTING_SYS_ISERROR
  · rw [if_pos c19] at h
    have h2 := congrArg (fun x => x.2.1) (Option.some.inj h)
    simp only [] at h2
    subst h2
    rfl
  rw [if_neg c19] at h
  by_cases c20 : request.syscall = SEMIHOSTING_SYS_HEAPINFO
  · rw [if_pos c20] at h
    have h2 := congrArg (fun x => x.2.1) (Option.some.inj h)
    simp only [] at h2
    subst h2
    exact sys_heapinfo_tc _ _
  rw [if_neg c20] at h
  by_cases c21 : request.syscall = SEMIHOSTING_SYS_TMPNAM
  · rw [if_pos c21] at h
    have h2 := congrArg (fun x => x.2.1) (Option.some.inj h)
    simp only [] at h2
    subst h2
    exact sys_tmpnam_tc _ _
  rw [if_neg c21] at h
  by_cases c : request.syscall = SEMIHOSTING_SYS_ELAPSED ∨
      request.syscall = SEMIHOSTING_SYS_TICKFREQ
  · rw [if_pos c] at h
    have h2 := congrArg (fun x => x.2.1) (Option.some.inj h)
    simp only [] at h2
    subst h2
    rfl
  rw [if_neg c] at h
  have h2 := congrArg (fun x => x.2.1) (Option.some.inj h)
  simp only [] at h2
  subst h2
  rfl
theorem semihosting_reply_flag (tc : target_controller_s) (pbuf : List Char) (len : Int) :
    (semihosting_reply tc pbuf len).2.interrupted = carries_break_marker pbuf := by
  unfold semihosting_reply carries_break_marker reply_items reply_third
  simp only []
  generalize sscanf_x_x_c (c_str pbuf (if (char_at pbuf 1 == '-') = true then 2 else 1)) 0 0
    '\x00' = scan
  by_cases h : scan.items < 1
  · have hne : ¬ scan.items = 3 := by omega
    simp [h, hne]
  · simp [h]

theorem all_unrelated_of_forall {σ : Type} (ml : main_loop σ) (pre : List (List Char))
    (t : target_s σ)
    (h : ∀ p ∈ pre, is_escape p = false ∧ ∀ t0, char_at (ml t0 p p.length).packet_buffer 0 ≠ 'F') :
    all_unrelated ml t pre := by
  induction pre generalizing t with
  | nil => trivial
  | cons p ps ih =>
    refine ⟨(h p (List.mem_cons_self _ _)).1, (h p (List.mem_cons_self _ _)).2 t, ?_⟩
    exact ih _ (fun q hq => h q (List.mem_cons_of_mem _ hq))

theorem model_response_reply {σ : Type} (other : main_loop σ) (pre later : List (List Char))
    (reply : List Char) (t0 : target_s σ) (l0 : gdb_link)
    (hin : l0.inbound = pre ++ reply :: later)
    (hpre : ∀ p ∈ pre, is_escape p = false ∧
      ∀ t, char_at (gdb_main_loop_model other t p p.length).packet_buffer 0 ≠ 'F')
    (hesc : is_escape reply = false) (hF : char_at reply 0 = 'F') :
    ∃ (r : Int) (t2 : target_s σ) (l2 : gdb_link),
      semihosting_get_gdb_response (gdb_main_loop_model other) t0 l0 = some (r, t2, l2) ∧
      t2.tc.interrupted = carries_break_marker reply ∧ l2.inbound = later := by
  have hun := all_unrelated_of_forall (gdb_main_loop_model other) pre t0 hpre
  have hloop := get_gdb_response_loop_unrelated (gdb_main_loop_model other) pre (reply :: later)
    t0 l0.forwarded hun
  have hF2 : (char_at reply 0 == 'F') = true := by simp [hF]
  refine ⟨(semihosting_reply (target_after (gdb_main_loop_model other) t0 pre).tc reply
      reply.length).1,
    { target_after (gdb_main_loop_model other) t0 pre with
      tc := (semihosting_reply (target_after (gdb_main_loop_model other) t0 pre).tc reply
        reply.length).2 },
    { l0 with inbound := later, forwarded := l0.forwarded ++ pre ++ [reply] }, ?_, ?_, ?_⟩
  · unfold semihosting_get_gdb_response
    rw [hin, hloop]
    simp only [get_gdb_response_loop, hesc, Bool.false_eq_true, if_false, gdb_main_loop_model,
      hF2, if_true]
  · exact semihosting_reply_flag _ _ _
  · rfl

theorem model_target_after_flag {σ : Type} (other : main_loop σ) (pre : List (List Char))
    (t0 : target_s σ)
    (hpre : ∀ p ∈ pre, is_escape p = false ∧
      ∀ t, char_at (gdb_main_loop_model other t p p.length).packet_buffer 0 ≠ 'F')
    (hother : ∀ t p n, (other t p n).target.tc.interrupted = t.tc.interrupted) :
    (target_after (gdb_main_loop_model other) t0 pre).tc.interrupted = t0.tc.interrupted := by
  induction pre generalizing t0 with
  | nil => rfl
  | cons p ps ih =>
    unfold target_after
    rw [ih _ (fun q hq => hpre q (List.mem_cons_of_mem _ hq))]
    have hp := (hpre p (List.mem_cons_self _ _)).2 t0
    unfold gdb_main_loop_model at hp ⊢
    by_cases hF : (char_at p 0 == 'F') = true
    · simp only [hF, if_true] at hp
      exact absurd (by simpa using hF) hp
    · simp only [hF, if_false]
      exact hother _ _ _

theorem model_response_escape {σ : Type} (other : main_loop σ) (pre later : List (List Char))
    (escape : List Char) (t0 : target_s σ) (l0 : gdb_link)
    (hin : l0.inbound = pre ++ escape :: later)
    (hpre : ∀ p ∈ pre, is_escape p = false ∧
      ∀ t, char_at (gdb_main_loop_model other t p p.length).packet_buffer 0 ≠ 'F')
    (hesc : is_escape escape = true)
    (hother : ∀ t p n, (other t p n).target.tc.interrupted = t.tc.interrupted) :
    ∃ (r : Int) (t2 : target_s σ) (l2 : gdb_link),
      semihosting_get_gdb_response (gdb_main_loop_model other) t0 l0 = some (r, t2, l2) ∧
      t2.tc.interrupted = t0.tc.interrupted ∧ l2.inbound = later := by
  have hun := all_unrelated_of_forall (gdb_main_loop_model other) pre t0 hpre
  have hloop := get_gdb_response_loop_unrelated (gdb_main_loop_model other) pre (escape :: later)
    t0 l0.forwarded hun
  refine ⟨-1, target_after (gdb_main_loop_model other) t0 pre,
    { l0 with inbound := later, forwarded := l0.forwarded ++ pre }, ?_, ?_, ?_⟩
  · unfold semihosting_get_gdb_response
    rw [hin, hloop]
    simp only [get_gdb_response_loop, hesc, if_true]
  · exact model_target_after_flag other pre t0 hpre hother
  · rfl

theorem exchange_outcome_congr {σ : Type} (ml : main_loop σ) (t t0 : target_s σ)
    (l l0 : gdb_link) (t1 : target_s σ) (l1 : gdb_link) (ht : t0.tc = t.tc)
    (hl : l0.inbound = l.inbound) (h : exchange_outcome ml t0 l0 t1 l1) :
    exchange_outcome ml t l t1 l1 := by
  unfold exchange_outcome at h ⊢
  rw [ht, hl] at h
  exact h

theorem outcome_of_exchange {σ : Type} (ml : main_loop σ) (t : target_s σ) (l : gdb_link)
    (t1 : target_s σ) (l1 : gdb_link) (t0 : target_s σ) (l0 : gdb_link) (r : Int)
    (t2 : target_s σ) (l2 : gdb_link)
    (hx : semihosting_get_gdb_response ml t0 l0 = some (r, t2, l2))
    (ht : t0.tc = t.tc) (hl : l0.inbound = l.inbound) (h1 : t1.tc = t2.tc)
    (h2 : l1.inbound = l2.inbound) : exchange_outcome ml t l t1 l1 :=
  Or.inr ⟨t0, l0, r, t2, l2, ht, hl, hx, h1, h2⟩

theorem tc_write_loop_frame {σ : Type} (fuel : Nat) (t : target_s σ) (l : gdb_link)
    (buf count : Nat) (t1 : target_s σ) (l1 : gdb_link)
    (h : Probe.tc_write_loop fuel t l buf count = some (t1, l1)) :
    t1.tc = t.tc ∧ l1.inbound = l.inbound := by
  induction fuel generalizing t l buf count with
  | zero =>
    unfold Probe.tc_write_loop at h
    split at h
    · simp only [Option.some.injEq, Prod.mk.injEq] at h
      rw [← h.1, ← h.2]
      exact ⟨rfl, rfl⟩
    · simp at h
  | succ fuel ih =>
    unfold Probe.tc_write_loop at h
    split at h
    · simp only [Option.some.injEq, Prod.mk.injEq] at h
      rw [← h.1, ← h.2]
      exact ⟨rfl, rfl⟩
    · simp only [] at h
      obtain ⟨h1, h2⟩ := ih _ _ _ _ h
      rw [h1, h2, target_mem_read_tc]
      exact ⟨rfl, rfl⟩

theorem tc_write_outcome {σ : Type} (ml : main_loop σ) (t : target_s σ) (l : gdb_link)
    (fd : Int) (buf count : Nat) (ret : Int) (t1 : target_s σ) (l1 : gdb_link)
    (h : Probe.tc_write ml t l fd buf count = some (ret, t1, l1)) :
    exchange_outcome ml t l t1 l1 := by
  unfold Probe.tc_write at h
  split at h
  · cases hx : Probe.tc_write_loop count t l buf count with
    | none => simp [hx] at h
    | some v =>
      obtain ⟨t2, l2⟩ := v
      rw [hx] at h
      simp only [Option.some.injEq, Prod.mk.injEq] at h
      obtain ⟨_, rfl, rfl⟩ := h
      exact Or.inl (tc_write_loop_frame _ _ _ _ _ _ _ hx)
  · exact outcome_of_exchange ml t l t1 l1 _ _ ret t1 l1 h rfl rfl rfl rfl

theorem write0_scan_tc {σ : Type} (fuel : Nat) (t : target_s σ) (addr : Nat) (str_end : Nat)
    (t1 : target_s σ) (h : Probe.write0_scan fuel t addr = some (str_end, t1)) :
    t1.tc = t.tc := by
  induction fuel generalizing t addr with
  | zero => simp [Probe.write0_scan] at h
  | succ fuel ih =>
    unfold Probe.write0_scan at h
    simp only [] at h
    split at h
    · split at h
      · simp only [Option.some.injEq, Prod.mk.injEq] at h
        rw [← h.2]
        exact target_mem_read8_tc _ _
      · rw [ih _ _ h]
        exact target_mem_read8_tc _ _
    · simp only [Option.some.injEq, Prod.mk.injEq] at h
      rw [← h.2]
      exact target_mem_read8_tc _ _

theorem probe_open_outcome {σ : Type} (ml : main_loop σ) (beyond : Nat → Nat) (t : target_s σ)
    (l : gdb_link) (request : semihosting_s) (ret : Int) (t1 : target_s σ) (l1 : gdb_link)
    (h : Probe.semihosting_open ml beyond t l request = some (ret, t1, l1)) :
    exchange_outcome ml t l t1 l1 := by
  unfold Probe.semihosting_open at h
  simp only [] at h
  split at h
  · simp only [Option.some.injEq, Prod.mk.injEq] at h
    obtain ⟨_, rfl, rfl⟩ := h
    exact Or.inl ⟨target_mem_read_tc _ _ _, rfl⟩
  · cases hx : Probe.hostio_open ml (target_mem_read t (request.params 0) 4).2 l
        (request.params 0) ((request.params 2 + 1) % 4294967296)
        (table_at Probe.open_mode_flags beyond (request.params 1 >>> 1)) 420 with
    | none => simp [hx] at h
    | some v =>
      obtain ⟨r, t2, l2⟩ := v
      rw [hx] at h
      simp only [] at h
      have key : exchange_outcome ml t l t2 l2 :=
        outcome_of_exchange ml t l t2 l2 _ _ r t2 l2 hx (target_mem_read_tc _ _ _) rfl rfl rfl
      split at h
      · simp only [Option.some.injEq, Prod.mk.injEq] at h
        obtain ⟨_, rfl, rfl⟩ := h
        exact key
      · simp only [Option.some.injEq, Prod.mk.injEq] at h
        obtain ⟨_, rfl, rfl⟩ := h
        exact key

theorem probe_read_outcome {σ : Type} (ml : main_loop σ) (t : target_s σ)
    (l : gdb_link) (request : semihosting_s) (ret : Int) (t1 : target_s σ) (l1 : gdb_link)
    (h : Probe.semihosting_read ml t l request = some (ret, t1, l1)) :
    exchange_outcome ml t l t1 l1 := by
  unfold Probe.semihosting_read at h
  simp only [] at h
  split at h
  · simp only [Option.some.injEq, Prod.mk.injEq] at h
    obtain ⟨_, rfl, rfl⟩ := h
    exact Or.inl ⟨rfl, rfl⟩
  · split at h
    · simp only [Option.some.injEq, Prod.mk.injEq] at h
      obtain ⟨_, rfl, rfl⟩ := h
      exact Or.inl ⟨rfl, rfl⟩
    · cases hx : Probe.hostio_read ml t l (to_int32 (to_uint32 ((request.params 0 : Int) - 1)))
          (request.params 1) (request.params 2) with
      | none => simp [hx] at h
      | some v =>
        obtain ⟨r, t2, l2⟩ := v
        rw [hx] at h
        simp only [] at h
        have key : exchange_outcome ml t l t2 l2 :=
          outcome_of_exchange ml t l _ _ _ _ r t2 l2 hx rfl rfl rfl rfl
        split at h
        · simp only [Option.some.injEq, Prod.mk.injEq] at h
          obtain ⟨_, rfl, rfl⟩ := h
          exact key
        · simp only [Option.some.injEq, Prod.mk.injEq] at h
          obtain ⟨_, rfl, rfl⟩ := h
          exact key

theorem probe_write_outcome {σ : Type} (ml : main_loop σ) (t : target_s σ)
    (l : gdb_link) (request : semihosting_s) (ret : Int) (t1 : target_s σ) (l1 : gdb_link)
    (h : Probe.semihosting_write ml t l request = some (ret, t1, l1)) :
    exchange_outcome ml t l t1 l1 := by
  unfold Probe.semihosting_write at h
  simp only [] at h
  split at h
  · simp only [Option.some.injEq, Prod.mk.injEq] at h
    obtain ⟨_, rfl, rfl⟩ := h
    exact Or.inl ⟨rfl, rfl⟩
  · split at h
    · simp only [Option.some.injEq, Prod.mk.injEq] at h
      obtain ⟨_, rfl, rfl⟩ := h
      exact Or.inl ⟨rfl, rfl⟩
    · cases hx : Probe.tc_write ml t l (to_int32 (to_uint32 ((request.params 0 : Int) - 1)))
          (request.params 1) (request.params 2) with
      | none => simp [hx] at h
      | some v =>
        obtain ⟨r, t2, l2⟩ := v
        rw [hx] at h
        simp only [] at h
        have key := tc_write_outcome ml t l _ _ _ r t2 l2 hx
        split at h
        · simp only [Option.some.injEq, Prod.mk.injEq] at h
          obtain ⟨_, rfl, rfl⟩ := h
          exact key
        · simp only [Option.some.injEq, Prod.mk.injEq] at h
          obtain ⟨_, rfl, rfl⟩ := h
          exact key

theorem probe_writec_outcome {σ : Type} (ml : main_loop σ) (t : target_s σ)
    (l : gdb_link) (request : semihosting_s) (ret : Int) (t1 : target_s σ) (l1 : gdb_link)
    (h : Probe.semihosting_writec ml t l request = some (ret, t1, l1)) :
    exchange_outcome ml t l t1 l1 := by
  unfold Probe.semihosting_writec at h
  simp only [] at h
  split at h
  · simp only [Option.some.injEq, Prod.mk.injEq] at h
    obtain ⟨_, rfl, rfl⟩ := h
    exact Or.inl ⟨rfl, rfl⟩
  · exact tc_write_outcome ml t l _ _ _ ret t1 l1 h

theorem probe_write0_outcome {σ : Type} (ml : main_loop σ) (fuel : Nat) (t : target_s σ)
    (l : gdb_link) (request : semihosting_s) (ret : Int) (t1 : target_s σ) (l1 : gdb_link)
    (h : Probe.semihosting_write0 ml fuel t l request = some (ret, t1, l1)) :
    exchange_outcome ml t l t1 l1 := by
  unfold Probe.semihosting_write0 at h
  simp only [] at h
  split at h
  · simp only [Option.some.injEq, Prod.mk.injEq] at h
    obtain ⟨_, rfl, rfl⟩ := h
    exact Or.inl ⟨rfl, rfl⟩
  · cases hs : Probe.write0_scan fuel t request.r1 with
    | none => simp [hs] at h
    | some w =>
      obtain ⟨str_end, t0⟩ := w
      rw [hs] at h
      simp only [] at h
      have htc := write0_scan_tc fuel t request.r1 str_end t0 hs
      split at h
      · cases hx : Probe.tc_write ml t0 l STDERR_FILENO request.r1
            (to_int32 (to_uint32 ((str_end : Int) - (request.r1 : Int)))).toNat with
        | none => simp [hx] at h
        | some v =>
          obtain ⟨r, t2, l2⟩ := v
          rw [hx] at h
          simp only [] at h
          have key := exchange_outcome_congr ml t t0 l l t2 l2 htc rfl
            (tc_write_outcome ml t0 l _ _ _ r t2 l2 hx)
          split at h
          · simp only [Option.some.injEq, Prod.mk.injEq] at h
            obtain ⟨_, rfl, rfl⟩ := h
            exact key
          · simp only [Option.some.injEq, Prod.mk.injEq] at h
            obtain ⟨_, rfl, rfl⟩ := h
            exact key
      · simp only [Option.some.injEq, Prod.mk.injEq] at h
        obtain ⟨_, rfl, rfl⟩ := h
        exact Or.inl ⟨htc, rfl⟩

theorem probe_seek_outcome {σ : Type} (ml : main_loop σ) (t : target_s σ)
    (l : gdb_link) (request : semihosting_s) (ret : Int) (t1 : target_s σ) (l1 : gdb_link)
    (h : Probe.semihosting_seek ml t l request = some (ret, t1, l1)) :
    exchange_outcome ml t l t1 l1 := by
  unfold Probe.semihosting_seek at h
  simp only [] at h
  cases hx : Probe.hostio_lseek ml t l (to_int32 (to_uint32 ((request.params 0 : Int) - 1)))
      (to_int32 (request.params 1)) TARGET_SEEK_SET with
  | none => simp [hx] at h
  | some v =>
    obtain ⟨r, t2, l2⟩ := v
    rw [hx] at h
    simp only [Option.some.injEq, Prod.mk.injEq] at h
    obtain ⟨_, rfl, rfl⟩ := h
    exact outcome_of_exchange ml t l _ _ _ _ r t2 l2 hx rfl rfl rfl rfl

theorem probe_file_length_outcome {σ : Type} (ml : main_loop σ) (fio_stat : Nat)
    (t : target_s σ) (l : gdb_link) (request : semihosting_s) (ret : Int) (t1 : target_s σ)
    (l1 : gdb_link)
    (h : Probe.semihosting_file_length ml fio_stat t l request = some (ret, t1, l1)) :
    exchange_outcome ml t l t1 l1 := by
  unfold Probe.semihosting_file_length at h
  simp only [] at h
  cases hx : Probe.hostio_fstat ml
      { t with mem_read := mem_accessor.probe, mem_write := mem_accessor.probe } l
      (to_int32 (to_uint32 ((request.params 0 : Int) - 1))) fio_stat with
  | none => simp [hx] at h
  | some v =>
    obtain ⟨r, t2, l2⟩ := v
    rw [hx] at h
    simp only [] at h
    split at h
    · simp only [Option.some.injEq, Prod.mk.injEq] at h
      obtain ⟨_, rfl, rfl⟩ := h
      exact outcome_of_exchange ml t l _ _ _ _ r t2 l2 hx rfl rfl rfl rfl
    · simp only [Option.some.injEq, Prod.mk.injEq] at h
      obtain ⟨_, rfl, rfl⟩ := h
      exact outcome_of_exchange ml t l _ _ _ _ r t2 l2 hx rfl rfl rfl rfl

theorem probe_get_time_outcome {σ : Type} (ml : main_loop σ) (time_value : Nat)
    (t : target_s σ) (l : gdb_link) (ret : semihosting_time_s) (t1 : target_s σ)
    (l1 : gdb_link)
    (h : Probe.semihosting_get_time ml time_value t l = some (ret, t1, l1)) :
    exchange_outcome ml t l t1 l1 := by
  unfold Probe.semihosting_get_time at h
  simp only [] at h
  cases hx : Probe.hostio_gettimeofday ml
      { t with mem_read := mem_accessor.probe, mem_write := mem_accessor.probe } l
      time_value TARGET_NULL with
  | none => simp [hx] at h
  | some v =>
    obtain ⟨r, t2, l2⟩ := v
    rw [hx] at h
    simp only [] at h
    split at h
    · simp only [Option.some.injEq, Prod.mk.injEq] at h
      obtain ⟨_, rfl, rfl⟩ := h
      exact outcome_of_exchange ml t l _ _ _ _ r t2 l2 hx rfl rfl rfl rfl
    · simp only [Option.some.injEq, Prod.mk.injEq] at h
      obtain ⟨_, rfl, rfl⟩ := h
      exact outcome_of_exchange ml t l _ _ _ _ r t2 l2 hx rfl rfl rfl rfl

theorem probe_clock_outcome {σ : Type} (ml : main_loop σ) (time_value : Nat)
    (t : target_s σ) (l : gdb_link) (time0_sec : Nat) (ret : Int) (t1 : target_s σ)
    (l1 : gdb_link) (time0 : Nat)
    (h : Probe.semihosting_clock ml time_value t l time0_sec = some (ret, t1, l1, time0)) :
    exchange_outcome ml t l t1 l1 := by
  unfold Probe.semihosting_clock at h
  cases hx : Probe.semihosting_get_time ml time_value t l with
  | none => simp [hx] at h
  | some v =>
    obtain ⟨ct, t2, l2⟩ := v
    rw [hx] at h
    simp only [] at h
    have key := probe_get_time_outcome ml time_value t l ct t2 l2 hx
    split at h
    · simp only [Option.some.injEq, Prod.mk.injEq] at h
      obtain ⟨_, rfl, rfl, _⟩ := h
      exact key
    · simp only [Option.some.injEq, Prod.mk.injEq] at h
      obtain ⟨_, rfl, rfl, _⟩ := h
      exact key

theorem probe_time_outcome {σ : Type} (ml : main_loop σ) (time_value : Nat)
    (t : target_s σ) (l : gdb_link) (ret : Int) (t1 : target_s σ) (l1 : gdb_link)
    (h : Probe.semihosting_time ml time_value t l = some (ret, t1, l1)) :
    exchange_outcome ml t l t1 l1 := by
  unfold Probe.semihosting_time at h
  cases hx : Probe.semihosting_get_time ml time_value t l with
  | none => simp [hx] at h
  | some v =>
    obtain ⟨ct, t2, l2⟩ := v
    rw [hx] at h
    simp only [Option.some.injEq, Prod.mk.injEq] at h
    obtain ⟨_, rfl, rfl⟩ := h
    exact probe_get_time_outcome ml time_value t l ct t2 l2 hx

theorem probe_readc_outcome {σ : Type} (ml : main_loop σ) (ch : Nat)
    (t : target_s σ) (l : gdb_link) (ret : Int) (t1 : target_s σ) (l1 : gdb_link)
    (h : Probe.semihosting_readc ml ch t l = some (ret, t1, l1)) :
    exchange_outcome ml t l t1 l1 := by
  unfold Probe.semihosting_readc at h
  simp only [] at h
  cases hx : Probe.hostio_read ml
      { t with mem_read := mem_accessor.probe, mem_write := mem_accessor.probe,
               probe_mem := fun a => if a = ch then 63 else t.probe_mem a } l STDIN_FILENO ch 1 with
  | none => simp [hx] at h
  | some v =>
    obtain ⟨r, t2, l2⟩ := v
    rw [hx] at h
    simp only [] at h
    split at h
    · simp only [Option.some.injEq, Prod.mk.injEq] at h
      obtain ⟨_, rfl, rfl⟩ := h
      exact outcome_of_exchange ml t l _ _ _ _ r t2 l2 hx rfl rfl rfl rfl
    · simp only [Option.some.injEq, Prod.mk.injEq] at h
      obtain ⟨_, rfl, rfl⟩ := h
      exact outcome_of_exchange ml t l _ _ _ _ r t2 l2 hx rfl rfl rfl rfl
theorem tc_write_returns {σ : Type} (ml : main_loop σ) (t : target_s σ) (l : gdb_link)
    (fd : Int) (buf count : Nat)
    (hresp : ∀ (t0 : target_s σ) (l0 : gdb_link), l0.inbound = l.inbound →
      ∃ v, semihosting_get_gdb_response ml t0 l0 = some v) :
    ∃ v, Probe.tc_write ml t l fd buf count = some v := by
  unfold Probe.tc_write
  split
  · obtain ⟨⟨t1, l1⟩, hr⟩ := tc_write_loop_terminates count t l buf count (le_refl _)
    rw [hr]
    exact ⟨_, rfl⟩
  · exact hresp t _ rfl

theorem probe_open_returns {σ : Type} (ml : main_loop σ) (beyond : Nat → Nat) (t : target_s σ)
    (l : gdb_link) (request : semihosting_s)
    (hresp : ∀ (t0 : target_s σ) (l0 : gdb_link), l0.inbound = l.inbound →
      ∃ v, semihosting_get_gdb_response ml t0 l0 = some v) :
    ∃ v, Probe.semihosting_open ml beyond t l request = some v := by
  unfold Probe.semihosting_open
  simp only []
  split
  · exact ⟨_, rfl⟩
  · obtain ⟨⟨r, t2, l2⟩, hv⟩ := hresp (target_mem_read t (request.params 0) 4).2
      (Probe.gdb_putpacket_f l (fileio_request.open (request.params 0)
        ((request.params 2 + 1) % 4294967296)
        (table_at Probe.open_mode_flags beyond (request.params 1 >>> 1)) 420)) rfl
    have hv2 : Probe.hostio_open ml (target_mem_read t (request.params 0) 4).2 l
        (request.params 0) ((request.params 2 + 1) % 4294967296)
        (table_at Probe.open_mode_flags beyond (request.params 1 >>> 1)) 420
          = some (r, t2, l2) := hv
    rw [hv2]
    simp only []
    split <;> exact ⟨_, rfl⟩

theorem probe_read_returns {σ : Type} (ml : main_loop σ) (t : target_s σ)
    (l : gdb_link) (request : semihosting_s)
    (hresp : ∀ (t0 : target_s σ) (l0 : gdb_link), l0.inbound = l.inbound →
      ∃ v, semihosting_get_gdb_response ml t0 l0 = some v) :
    ∃ v, Probe.semihosting_read ml t l request = some v := by
  unfold Probe.semihosting_read
  simp only []
  split
  · exact ⟨_, rfl⟩
  · split
    · exact ⟨_, rfl⟩
    · obtain ⟨⟨r, t2, l2⟩, hv⟩ := hresp t
        (Probe.gdb_putpacket_f l (fileio_request.read
          (to_int32 (to_uint32 ((request.params 0 : Int) - 1))) (request.params 1)
          (request.params 2))) rfl
      have hv2 : Probe.hostio_read ml t l (to_int32 (to_uint32 ((request.params 0 : Int) - 1)))
          (request.params 1) (request.params 2) = some (r, t2, l2) := hv
      rw [hv2]
      simp only []
      split <;> exact ⟨_, rfl⟩

theorem probe_write_returns {σ : Type} (ml : main_loop σ) (t : target_s σ)
    (l : gdb_link) (request : semihosting_s)
    (hresp : ∀ (t0 : target_s σ) (l0 : gdb_link), l0.inbound = l.inbound →
      ∃ v, semihosting_get_gdb_response ml t0 l0 = some v) :
    ∃ v, Probe.semihosting_write ml t l request = some v := by
  unfold Probe.semihosting_write
  simp only []
  split
  · exact ⟨_, rfl⟩
  · split
    · exact ⟨_, rfl⟩
    · obtain ⟨⟨r, t2, l2⟩, hv⟩ := tc_write_returns ml t l
        (to_int32 (to_uint32 ((request.params 0 : Int) - 1))) (request.params 1)
        (request.params 2) hresp
      rw [hv]
      simp only []
      split <;> exact ⟨_, rfl⟩

theorem probe_writec_returns {σ : Type} (ml : main_loop σ) (t : target_s σ)
    (l : gdb_link) (request : semihosting_s)
    (hresp : ∀ (t0 : target_s σ) (l0 : gdb_link), l0.inbound = l.inbound →
      ∃ v, semihosting_get_gdb_response ml t0 l0 = some v) :
    ∃ v, Probe.semihosting_writec ml t l request = some v := by
  unfold Probe.semihosting_writec
  simp only []
  split
  · exact ⟨_, rfl⟩
  · exact tc_write_returns ml t l _ _ _ hresp

theorem probe_seek_returns {σ : Type} (ml : main_loop σ) (t : target_s σ)
    (l : gdb_link) (request : semihosting_s)
    (hresp : ∀ (t0 : target_s σ) (l0 : gdb_link), l0.inbound = l.inbound →
      ∃ v, semihosting_get_gdb_response ml t0 l0 = some v) :
    ∃ v, Probe.semihosting_seek ml t l request = some v := by
  unfold Probe.semihosting_seek
  simp only []
  obtain ⟨⟨r, t2, l2⟩, hv⟩ := hresp t
    (Probe.gdb_putpacket_f l (fileio_request.lseek
      (to_int32 (to_uint32 ((request.params 0 : Int) - 1))) (to_int32 (request.params 1))
      TARGET_SEEK_SET)) rfl
  have hv2 : Probe.hostio_lseek ml t l (to_int32 (to_uint32 ((request.params 0 : Int) - 1)))
      (to_int32 (request.params 1)) TARGET_SEEK_SET = some (r, t2, l2) := hv
  rw [hv2]
  exact ⟨_, rfl⟩

theorem probe_file_length_returns {σ : Type} (ml : main_loop σ) (fio_stat : Nat)
    (t : target_s σ) (l : gdb_link) (request : semihosting_s)
    (hresp : ∀ (t0 : target_s σ) (l0 : gdb_link), l0.inbound = l.inbound →
      ∃ v, semihosting_get_gdb_response ml t0 l0 = some v) :
    ∃ v, Probe.semihosting_file_length ml fio_stat t l request = some v := by
  unfold Probe.semihosting_file_length
  simp only []
  obtain ⟨⟨r, t2, l2⟩, hv⟩ := hresp
    { t with mem_read := mem_accessor.probe, mem_write := mem_accessor.probe }
    (Probe.gdb_putpacket_f l (fileio_request.fstat
      (to_int32 (to_uint32 ((request.params 0 : Int) - 1))) fio_stat)) rfl
  have hv2 : Probe.hostio_fstat ml
      { t with mem_read := mem_accessor.probe, mem_write := mem_accessor.probe } l
      (to_int32 (to_uint32 ((request.params 0 : Int) - 1))) fio_stat = some (r, t2, l2) := hv
  rw [hv2]
  simp only []
  split <;> exact ⟨_, rfl⟩

theorem probe_get_time_returns {σ : Type} (ml : main_loop σ) (time_value : Nat)
    (t : target_s σ) (l : gdb_link)
    (hresp : ∀ (t0 : target_s σ) (l0 : gdb_link), l0.inbound = l.inbound →
      ∃ v, semihosting_get_gdb_response ml t0 l0 = some v) :
    ∃ v, Probe.semihosting_get_time ml time_value t l = some v := by
  unfold Probe.semihosting_get_time
  simp only []
  obtain ⟨⟨r, t2, l2⟩, hv⟩ := hresp
    { t with mem_read := mem_accessor.probe, mem_write := mem_accessor.probe }
    (Probe.gdb_putpacket_f l (fileio_request.gettimeofday time_value TARGET_NULL)) rfl
  have hv2 : Probe.hostio_gettimeofday ml
      { t with mem_read := mem_accessor.probe, mem_write := mem_accessor.probe } l
      time_value TARGET_NULL = some (r, t2, l2) := hv
  rw [hv2]
  simp only []
  split <;> exact ⟨_, rfl⟩

theorem probe_clock_returns {σ : Type} (ml : main_loop σ) (time_value : Nat)
    (t : target_s σ) (l : gdb_link) (time0_sec : Nat)
    (hresp : ∀ (t0 : target_s σ) (l0 : gdb_link), l0.inbound = l.inbound →
      ∃ v, semihosting_get_gdb_response ml t0 l0 = some v) :
    ∃ v, Probe.semihosting_clock ml time_value t l time0_sec = some v := by
  unfold Probe.semihosting_clock
  obtain ⟨⟨ct, t2, l2⟩, hv⟩ := probe_get_time_returns ml time_value t l hresp
  rw [hv]
  simp only []
  split <;> exact ⟨_, rfl⟩

theorem probe_time_returns {σ : Type} (ml : main_loop σ) (time_value : Nat)
    (t : target_s σ) (l : gdb_link)
    (hresp : ∀ (t0 : target_s σ) (l0 : gdb_link), l0.inbound = l.inbound →
      ∃ v, semihosting_get_gdb_response ml t0 l0 = some v) :
    ∃ v, Probe.semihosting_time ml time_value t l = some v := by
  unfold Probe.semihosting_time
  obtain ⟨⟨ct, t2, l2⟩, hv⟩ := probe_get_time_returns ml time_value t l hresp
  rw [hv]
  exact ⟨_, rfl⟩

theorem probe_readc_returns {σ : Type} (ml : main_loop σ) (ch : Nat)
    (t : target_s σ) (l : gdb_link)
    (hresp : ∀ (t0 : target_s σ) (l0 : gdb_link), l0.inbound = l.inbound →
      ∃ v, semihosting_get_gdb_response ml t0 l0 = some v) :
    ∃ v, Probe.semihosting_readc ml ch t l = some v := by
  unfold Probe.semihosting_readc
  simp only []
  obtain ⟨⟨r, t2, l2⟩, hv⟩ := hresp
    { t with mem_read := mem_accessor.probe, mem_write := mem_accessor.probe,
             probe_mem := fun a => if a = ch then 63 else t.probe_mem a }
    (Probe.gdb_putpacket_f l (fileio_request.read STDIN_FILENO ch 1)) rfl
  have hv2 : Probe.hostio_read ml
      { t with mem_read := mem_accessor.probe, mem_write := mem_accessor.probe,
               probe_mem := fun a => if a = ch then 63 else t.probe_mem a } l STDIN_FILENO ch 1
        = some (r, t2, l2) := hv
  rw [hv2]
  simp only []
  split <;> exact ⟨_, rfl⟩

theorem probe_dispatch_outcome {σ : Type} (ml : main_loop σ) (env : Probe.probe_locals)
    (fuel : Nat) (t : target_s σ) (l : gdb_link) (time0_sec : Nat) (request : semihosting_s)
    (ret : Int) (t1 : target_s σ) (l1 : gdb_link) (time0 : Nat)
    (h : Probe.dispatch ml env fuel t l time0_sec request = some (ret, t1, l1, time0)) :
    exchange_outcome ml t l t1 l1 := by
  unfold Probe.dispatch at h
  simp only [] at h
  by_cases c0 : request.syscall = SEMIHOSTING_SYS_OPEN
  · rw [if_pos c0] at h
    obtain ⟨x, hx, hk⟩ := Option.map_eq_some'.mp h
    obtain ⟨r, t2, l2⟩ := x
    simp only [Prod.mk.injEq] at hk
    obtain ⟨_, rfl, rfl, _⟩ := hk
    exact probe_open_outcome ml _ t l request r t2 l2 hx
  rw [if_neg c0] at h
  by_cases c1 : request.syscall = SEMIHOSTING_SYS_CLOSE
  · rw [if_pos c1] at h
    obtain ⟨x, hx, hk⟩ := Option.map_eq_some'.mp h
    obtain ⟨r, t2, l2⟩ := x
    simp only [Prod.mk.injEq] at hk
    obtain ⟨_, rfl, rfl, _⟩ := hk
    exact outcome_of_exchange ml t l _ _ _ _ r t2 l2 hx rfl rfl rfl rfl
  rw [if_neg c1] at h
  by_cases c2 : request.syscall = SEMIHOSTING_SYS_READ
  · rw [if_pos c2] at h
    obtain ⟨x, hx, hk⟩ := Option.map_eq_some'.mp h
    obtain ⟨r, t2, l2⟩ := x
    simp only [Prod.mk.injEq] at hk
    obtain ⟨_, rfl, rfl, _⟩ := hk
    exact probe_read_outcome ml t l request r t2 l2 hx
  rw [if_neg c2] at h
  by_cases c3 : request.syscall = SEMIHOSTING_SYS_WRITE
  · rw [if_pos c3] at h
    obtain ⟨x, hx, hk⟩ := Option.map_eq_some'.mp h
    obtain ⟨r, t2, l2⟩ := x
    simp only [Prod.mk.injEq] at hk
    obtain ⟨_, rfl, rfl, _⟩ := hk
    exact probe_write_outcome ml t l request r t2 l2 hx
  rw [if_neg c3] at h
  by_cases c4 : request.syscall = SEMIHOSTING_SYS_WRITEC
  · rw [if_pos c4] at h
    obtain ⟨x, hx, hk⟩ := Option.map_eq_some'.mp h
    obtain ⟨r, t2, l2⟩ := x
    simp only [Prod.mk.injEq] at hk
    obtain ⟨_, rfl, rfl, _⟩ := hk
    exact probe_writec_outcome ml t l request r t2 l2 hx
  rw [if_neg c4] at h
  by_cases c5 : request.syscall = SEMIHOSTING_SYS_WRITE0
  · rw [if_pos c5] at h
    obtain ⟨x, hx, hk⟩ := Option.map_eq_some'.mp h
    obtain ⟨r, t2, l2⟩ := x
    simp only [Prod.mk.injEq] at hk
    obtain ⟨_, rfl, rfl, _⟩ := hk
    exact probe_write0_outcome ml fuel t l request r t2 l2 hx
  rw [if_neg c5] at h
  by_cases c6 : request.syscall = SEMIHOSTING_SYS_ISTTY
  · rw [if_pos c6] at h
    obtain ⟨x, hx, hk⟩ := Option.map_eq_some'.mp h
    obtain ⟨r, t2, l2⟩ := x
    simp only [Prod.mk.injEq] at hk
    obtain ⟨_, rfl, rfl, _⟩ := hk
    exact outcome_of_exchange ml t l _ _ _ _ r t2 l2 hx rfl rfl rfl rfl
  rw [if_neg c6] at h
  by_cases c7 : request.syscall = SEMIHOSTING_SYS_SEEK
  · rw [if_pos c7] at h
    obtain ⟨x, hx, hk⟩ := Option.map_eq_some'.mp h
    obtain ⟨r, t2, l2⟩ := x
    simp only [Prod.mk.injEq] at hk
    obtain ⟨_, rfl, rfl, _⟩ := hk
    exact probe_seek_outcome ml t l request r t2 l2 hx
  rw [if_neg c7] at h
  by_cases c8 : request.syscall = SEMIHOSTING_SYS_RENAME
  · rw [if_pos c8] at h
    obtain ⟨x, hx, hk⟩ := Option.map_eq_some'.mp h
    obtain ⟨r, t2, l2⟩ := x
    simp only [Prod.mk.injEq] at hk
    obtain ⟨_, rfl, rfl, _⟩ := hk
    exact outcome_of_exchange ml t l _ _ _ _ r t2 l2 hx rfl rfl rfl rfl
  rw [if_neg c8] at h
  by_cases c9 : request.syscall = SEMIHOSTING_SYS_REMOVE
  · rw [if_pos c9] at h
    obtain ⟨x, hx, hk⟩ := Option.map_eq_some'.mp h
    obtain ⟨r, t2, l2⟩ := x
    simp only [Prod.mk.injEq] at hk
    obtain ⟨_, rfl, rfl, _⟩ := hk
    exact outcome_of_exchange ml t l _ _ _ _ r t2 l2 hx rfl rfl rfl rfl
  rw [if_neg c9] at h
  by_cases c10 : request.syscall = SEMIHOSTING_SYS_SYSTEM
  · rw [if_pos c10] at h
    obtain ⟨x, hx, hk⟩ := Option.map_eq_some'.mp h
    obtain ⟨r, t2, l2⟩ := x
    simp only [Prod.mk.injEq] at hk
    obtain ⟨_, rfl, rfl, _⟩ := hk
    exact outcome_of_exchange ml t l _ _ _ _ r t2 l2 hx rfl rfl rfl rfl
  rw [if_neg c10] at h
  by_cases c11 : request.syscall = SEMIHOSTING_SYS_FLEN
  · rw [if_pos c11] at h
    obtain ⟨x, hx, hk⟩ := Option.map_eq_some'.mp h
    obtain ⟨r, t2, l2⟩ := x
    simp only [Prod.mk.injEq] at hk
    obtain ⟨_, rfl, rfl, _⟩ := hk
    exact probe_file_length_outcome ml _ t l request r t2 l2 hx
  rw [if_neg c11] at h
  by_cases c12 : request.syscall = SEMIHOSTING_SYS_CLOCK
  · rw [if_pos c12] at h
    exact probe_clock_outcome ml _ t l time0_sec ret t1 l1 time0 h
  rw [if_neg c12] at h
  by_cases c13 : request.syscall = SEMIHOSTING_SYS_TIME
  · rw [if_pos c13] at h
    obtain ⟨x, hx, hk⟩ := Option.map_eq_some'.mp h
    obtain ⟨r, t2, l2⟩ := x
    simp only [Prod.mk.injEq] at hk
    obtain ⟨_, rfl, rfl, _⟩ := hk
    exact probe_time_outcome ml _ t l r t2 l2 hx
  rw [if_neg c13] at h
  by_cases c14 : request.syscall = SEMIHOSTING_SYS_READC
  · rw [if_pos c14] at h
    obtain ⟨x, hx, hk⟩ := Option.map_eq_some'.mp h
    obtain ⟨r, t2, l2⟩ := x
    simp only [Prod.mk.injEq] at hk
    obtain ⟨_, rfl, rfl, _⟩ := hk
    exact probe_readc_outcome ml _ t l r t2 l2 hx
  rw [if_neg c14] at h
  by_cases c15 : request.syscall = SEMIHOSTING_SYS_ERRNO
  · rw [if_pos c15] at h
    simp only [Option.some.injEq, Prod.mk.injEq] at h
    obtain ⟨_, rfl, rfl, _⟩ := h
    exact Or.inl ⟨rfl, rfl⟩
  rw [if_neg c15] at h
  by_cases c16 : request.syscall = SEMIHOSTING_SYS_EXIT
  · rw [if_pos c16] at h
    simp only [Option.some.injEq, Prod.mk.injEq] at h
    obtain ⟨_, rfl, rfl, _⟩ := h
    exact Or.inl ⟨rfl, rfl⟩
  rw [if_neg c16] at h
  by_cases c17 : request.syscall = SEMIHOSTING_SYS_EXIT_EXTENDED
  · rw [if_pos c17] at h
    simp only [Option.some.injEq, Prod.mk.injEq] at h
    obtain ⟨_, rfl, rfl, _⟩ := h
    exact Or.inl ⟨rfl, rfl⟩
  rw [if_neg c17] at h
  by_cases c18 : request.syscall = SEMIHOSTING_SYS_GET_CMDLINE
  · rw [if_pos c18] at h
    simp only [Option.some.injEq, Prod.mk.injEq] at h
    obtain ⟨_, rfl, rfl, _⟩ := h
    exact Or.inl ⟨sys_get_cmdline_tc _ _, rfl⟩
  rw [if_neg c18] at h
  by_cases c19 : request.syscall = SEMIHOSTING_SYS_ISERROR
  · rw [if_pos c19] at h
    simp only [Option.some.injEq, Prod.mk.injEq] at h
    obtain ⟨_, rfl, rfl, _⟩ := h
    exact Or.inl ⟨rfl, rfl⟩
  rw [if_neg c19] at h
  by_cases c20 : request.syscall = SEMIHOSTING_SYS_HEAPINFO
  · rw [if_pos c20] at h
    simp only [Option.some.injEq, Prod.mk.injEq] at h
    obtain ⟨_, rfl, rfl, _⟩ := h
    exact Or.inl ⟨sys_heapinfo_tc _ _, rfl⟩
  rw [if_neg c20] at h
  by_cases c21 : request.syscall = SEMIHOSTING_SYS_TMPNAM
  · rw [if_pos c21] at h
    simp only [Option.some.injEq, Prod.mk.injEq] at h
    obtain ⟨_, rfl, rfl, _⟩ := h
    exact Or.inl ⟨sys_tmpnam_tc _ _, rfl⟩
  rw [if_neg c21] at h
  by_cases c : request.syscall = SEMIHOSTING_SYS_ELAPSED ∨
      request.syscall = SEMIHOSTING_SYS_TICKFREQ
  · rw [if_pos c] at h
    simp only [Option.some.injEq, Prod.mk.injEq] at h
    obtain ⟨_, rfl, rfl, _⟩ := h
    exact Or.inl ⟨rfl, rfl⟩
  rw [if_neg c] at h
  simp only [Option.some.injEq, Prod.mk.injEq] at h
  obtain ⟨_, rfl, rfl, _⟩ := h
  exact Or.inl ⟨rfl, rfl⟩

theorem probe_dispatch_returns {σ : Type} (ml : main_loop σ) (env : Probe.probe_locals)
    (fuel : Nat) (t : target_s σ) (l : gdb_link) (time0_sec : Nat) (request : semihosting_s)
    (hresp : ∀ (t0 : target_s σ) (l0 : gdb_link), l0.inbound = l.inbound →
      ∃ v, semihosting_get_gdb_response ml t0 l0 = some v)
    (hne : request.syscall ≠ SEMIHOSTING_SYS_WRITE0) :
    ∃ v, Probe.dispatch ml env fuel t l time0_sec request = some v := by
  unfold Probe.dispatch
  simp only []
  by_cases c0 : request.syscall = SEMIHOSTING_SYS_OPEN
  · rw [if_pos c0]
    obtain ⟨v, hv⟩ := probe_open_returns ml env.beyond t l request hresp
    exact ⟨_, congrArg (Option.map _) hv⟩
  rw [if_neg c0]
  by_cases c1 : request.syscall = SEMIHOSTING_SYS_CLOSE
  · rw [if_pos c1]
    obtain ⟨v, hv⟩ := (show ∃ v, Probe.semihosting_close ml t l request = some v from
      hresp t (Probe.gdb_putpacket_f l _) rfl)
    exact ⟨_, congrArg (Option.map _) hv⟩
  rw [if_neg c1]
  by_cases c2 : request.syscall = SEMIHOSTING_SYS_READ
  · rw [if_pos c2]
    obtain ⟨v, hv⟩ := probe_read_returns ml t l request hresp
    exact ⟨_, congrArg (Option.map _) hv⟩
  rw [if_neg c2]
  by_cases c3 : request.syscall = SEMIHOSTING_SYS_WRITE
  · rw [if_pos c3]
    obtain ⟨v, hv⟩ := probe_write_returns ml t l request hresp
    exact ⟨_, congrArg (Option.map _) hv⟩
  rw [if_neg c3]
  by_cases c4 : request.syscall = SEMIHOSTING_SYS_WRITEC
  · rw [if_pos c4]
    obtain ⟨v, hv⟩ := probe_writec_returns ml t l request hresp
    exact ⟨_, congrArg (Option.map _) hv⟩
  rw [if_neg c4]
  by_cases c5 : request.syscall = SEMIHOSTING_SYS_WRITE0
  · exact absurd c5 hne
  rw [if_neg c5]
  by_cases c6 : request.syscall = SEMIHOSTING_SYS_ISTTY
  · rw [if_pos c6]
    obtain ⟨v, hv⟩ := (show ∃ v, Probe.semihosting_isatty ml t l request = some v from
      hresp t (Probe.gdb_putpacket_f l _) rfl)
    exact ⟨_, congrArg (Option.map _) hv⟩
  rw [if_neg c6]
  by_cases c7 : request.syscall = SEMIHOSTING_SYS_SEEK
  · rw [if_pos c7]
    obtain ⟨v, hv⟩ := probe_seek_returns ml t l request hresp
    exact ⟨_, congrArg (Option.map _) hv⟩
  rw [if_neg c7]
  by_cases c8 : request.syscall = SEMIHOSTING_SYS_RENAME
  · rw [if_pos c8]
    obtain ⟨v, hv⟩ := (show ∃ v, Probe.semihosting_rename ml t l request = some v from
      hresp t (Probe.gdb_putpacket_f l _) rfl)
    exact ⟨_, congrArg (Option.map _) hv⟩
  rw [if_neg c8]
  by_cases c9 : request.syscall = SEMIHOSTING_SYS_REMOVE
  · rw [if_pos c9]
    obtain ⟨v, hv⟩ := (show ∃ v, Probe.semihosting_remove ml t l request = some v from
      hresp t (Probe.gdb_putpacket_f l _) rfl)
    exact ⟨_, congrArg (Option.map _) hv⟩
  rw [if_neg c9]
  by_cases c10 : request.syscall = SEMIHOSTING_SYS_SYSTEM
  · rw [if_pos c10]
    obtain ⟨v, hv⟩ := (show ∃ v, Probe.semihosting_system ml t l request = some v from
      hresp t (Probe.gdb_putpacket_f l _) rfl)
    exact ⟨_, congrArg (Option.map _) hv⟩
  rw [if_neg c10]
  by_cases c11 : request.syscall = SEMIHOSTING_SYS_FLEN
  · rw [if_pos c11]
    obtain ⟨v, hv⟩ := probe_file_length_returns ml env.fio_stat t l request hresp
    exact ⟨_, congrArg (Option.map _) hv⟩
  rw [if_neg c11]
  by_cases c12 : request.syscall = SEMIHOSTING_SYS_CLOCK
  · rw [if_pos c12]
    exact probe_clock_returns ml env.time_value t l time0_sec hresp
  rw [if_neg c12]
  by_cases c13 : request.syscall = SEMIHOSTING_SYS_TIME
  · rw [if_pos c13]
    obtain ⟨v, hv⟩ := probe_time_returns ml env.time_value t l hresp
    exact ⟨_, congrArg (Option.map _) hv⟩
  rw [if_neg c13]
  by_cases c14 : request.syscall = SEMIHOSTING_SYS_READC
  · rw [if_pos c14]
    obtain ⟨v, hv⟩ := probe_readc_returns ml env.ch t l hresp
    exact ⟨_, congrArg (Option.map _) hv⟩
  rw [if_neg c14]
  by_cases c15 : request.syscall = SEMIHOSTING_SYS_ERRNO
  · rw [if_pos c15]
    exact ⟨_, rfl⟩
  rw [if_neg c15]
  by_cases c16 : request.syscall = SEMIHOSTING_SYS_EXIT
  · rw [if_pos c16]
    exact ⟨_, rfl⟩
  rw [if_neg c16]
  by_cases c17 : request.syscall = SEMIHOSTING_SYS_EXIT_EXTENDED
  · rw [if_pos c17]
    exact ⟨_, rfl⟩
  rw [if_neg c17]
  by_cases c18 : request.syscall = SEMIHOSTING_SYS_GET_CMDLINE
  · rw [if_pos c18]
    exact ⟨_, rfl⟩
  rw [if_neg c18]
  by_cases c19 : request.syscall = SEMIHOSTING_SYS_ISERROR
  · rw [if_pos c19]
    exact ⟨_, rfl⟩
  rw [if_neg c19]
  by_cases c20 : request.syscall = SEMIHOSTING_SYS_HEAPINFO
  · rw [if_pos c20]
    exact ⟨_, rfl⟩
  rw [if_neg c20]
  by_cases c21 : request.syscall = SEMIHOSTING_SYS_TMPNAM
  · rw [if_pos c21]
    exact ⟨_, rfl⟩
  rw [if_neg c21]
  by_cases c : request.syscall = SEMIHOSTING_SYS_ELAPSED ∨
      request.syscall = SEMIHOSTING_SYS_TICKFREQ
  · rw [if_pos c]
    exact ⟨_, rfl⟩
  rw [if_neg c]
  exact ⟨_, rfl⟩

theorem hosted_dispatch_returns {σ : Type} (os : Hosted.host_os) (beyond : Nat → Nat)
    (fuel : Nat) (t : target_s σ) (calls : List Hosted.os_call) (time0_sec : Nat)
    (request : semihosting_s) (hne : request.syscall ≠ SEMIHOSTING_SYS_WRITE0) :
    ∃ v, Hosted.dispatch os beyond fuel t calls time0_sec request = some v := by
  unfold Hosted.dispatch
  simp only []
  by_cases c0 : request.syscall = SEMIHOSTING_SYS_OPEN
  · rw [if_pos c0]
    exact ⟨_, rfl⟩
  rw [if_neg c0]
  by_cases c1 : request.syscall = SEMIHOSTING_SYS_CLOSE
  · rw [if_pos c1]
    exact ⟨_, rfl⟩
  rw [if_neg c1]
  by_cases c2 : request.syscall = SEMIHOSTING_SYS_READ
  · rw [if_pos c2]
    exact ⟨_, rfl⟩
  rw [if_neg c2]
  by_cases c3 : request.syscall = SEMIHOSTING_SYS_WRITE
  · rw [if_pos c3]
    exact ⟨_, rfl⟩
  rw [if_neg c3]
  by_cases c4 : request.syscall = SEMIHOSTING_SYS_WRITEC
  · rw [if_pos c4]
    exact ⟨_, rfl⟩
  rw [if_neg c4]
  by_cases c5 : request.syscall = SEMIHOSTING_SYS_WRITE0
  · exact absurd c5 hne
  rw [if_neg c5]
  by_cases c6 : request.syscall = SEMIHOSTING_SYS_ISTTY
  · rw [if_pos c6]
    exact ⟨_, rfl⟩
  rw [if_neg c6]
  by_cases c7 : request.syscall = SEMIHOSTING_SYS_SEEK
  · rw [if_pos c7]
    exact ⟨_, rfl⟩
  rw [if_neg c7]
  by_cases c8 : request.syscall = SEMIHOSTING_SYS_RENAME
  · rw [if_pos c8]
    exact ⟨_, rfl⟩
  rw [if_neg c8]
  by_cases c9 : request.syscall = SEMIHOSTING_SYS_REMOVE
  · rw [if_pos c9]
    exact ⟨_, rfl⟩
  rw [if_neg c9]
  by_cases c10 : request.syscall = SEMIHOSTING_SYS_SYSTEM
  · rw [if_pos c10]
    exact ⟨_, rfl⟩
  rw [if_neg c10]
  by_cases c11 : request.syscall = SEMIHOSTING_SYS_FLEN
  · rw [if_pos c11]
    exact ⟨_, rfl⟩
  rw [if_neg c11]
  by_cases c12 : request.syscall = SEMIHOSTING_SYS_CLOCK
  · rw [if_pos c12]
    exact ⟨_, rfl⟩
  rw [if_neg c12]
  by_cases c13 : request.syscall = SEMIHOSTING_SYS_TIME
  · rw [if_pos c13]
    exact ⟨_, rfl⟩
  rw [if_neg c13]
  by_cases c14 : request.syscall = SEMIHOSTING_SYS_READC
  · rw [if_pos c14]
    exact ⟨_, rfl⟩
  rw [if_neg c14]
  by_cases c15 : request.syscall = SEMIHOSTING_SYS_ERRNO
  · rw [if_pos c15]
    exact ⟨_, rfl⟩
  rw [if_neg c15]
  by_cases c16 : request.syscall = SEMIHOSTING_SYS_EXIT
  · rw [if_pos c16]
    exact ⟨_, rfl⟩
  rw [if_neg c16]
  by_cases c17 : request.syscall = SEMIHOSTING_SYS_EXIT_EXTENDED
  · rw [if_pos c17]
    exact ⟨_, rfl⟩
  rw [if_neg c17]
  by_cases c18 : request.syscall = SEMIHOSTING_SYS_GET_CMDLINE
  · rw [if_pos c18]
    exact ⟨_, rfl⟩
  rw [if_neg c18]
  by_cases c19 : request.syscall = SEMIHOSTING_SYS_ISERROR
  · rw [if_pos c19]
    exact ⟨_, rfl⟩
  rw [if_neg c19]
  by_cases c20 : request.syscall = SEMIHOSTING_SYS_HEAPINFO
  · rw [if_pos c20]
    exact ⟨_, rfl⟩
  rw [if_neg c20]
  by_cases c21 : request.syscall = SEMIHOSTING_SYS_TMPNAM
  · rw [if_pos c21]
    exact ⟨_, rfl⟩
  rw [if_neg c21]
  by_cases c : request.syscall = SEMIHOSTING_SYS_ELAPSED ∨
      request.syscall = SEMIHOSTING_SYS_TICKFREQ
  · rw [if_pos c]
    exact ⟨_, rfl⟩
  rw [if_neg c]
  exact ⟨_, rfl⟩

theorem probe_dispatch_local {σ : Type} (ml : main_loop σ) (env : Probe.probe_locals)
    (fuel : Nat) (t : target_s σ) (l : gdb_link) (time0_sec : Nat) (request : semihosting_s)
    (h : request.syscall ∈ local_calls) :
    ∃ (ret : Int) (t1 : target_s σ),
      Probe.dispatch ml env fuel t l time0_sec request = some (ret, t1, l, time0_sec) ∧
      t1.tc = t.tc := by
  simp only [local_calls, List.mem_cons, List.mem_singleton, List.not_mem_nil, or_false] at h
  rcases h with h | h | h | h | h | h | h
  · exact ⟨_, _, probe_dispatch_iserror ml env fuel t l time0_sec request h, rfl⟩
  · exact ⟨_, _, probe_dispatch_tmpnam ml env fuel t l time0_sec request h, sys_tmpnam_tc _ _⟩
  · exact ⟨_, _, probe_dispatch_get_cmdline ml env fuel t l time0_sec request h,
      sys_get_cmdline_tc _ _⟩
  · refine ⟨(sys_heapinfo t request).1, (sys_heapinfo t request).2, ?_, sys_heapinfo_tc _ _⟩
    unfold SEMIHOSTING_SYS_HEAPINFO at h
    simp [Probe.dispatch, h, SEMIHOSTING_SYS_OPEN, SEMIHOSTING_SYS_CLOSE, SEMIHOSTING_SYS_READ,
      SEMIHOSTING_SYS_WRITE, SEMIHOSTING_SYS_WRITEC, SEMIHOSTING_SYS_WRITE0,
      SEMIHOSTING_SYS_ISTTY, SEMIHOSTING_SYS_SEEK, SEMIHOSTING_SYS_RENAME,
      SEMIHOSTING_SYS_REMOVE, SEMIHOSTING_SYS_SYSTEM, SEMIHOSTING_SYS_FLEN,
      SEMIHOSTING_SYS_CLOCK, SEMIHOSTING_SYS_TIME, SEMIHOSTING_SYS_READC, SEMIHOSTING_SYS_ERRNO,
      SEMIHOSTING_SYS_EXIT, SEMIHOSTING_SYS_EXIT_EXTENDED, SEMIHOSTING_SYS_GET_CMDLINE,
      SEMIHOSTING_SYS_ISERROR, SEMIHOSTING_SYS_HEAPINFO]
  · refine ⟨to_int32 t.tc.errno_, t, ?_, rfl⟩
    unfold SEMIHOSTING_SYS_ERRNO at h
    simp [Probe.dispatch, h, SEMIHOSTING_SYS_OPEN, SEMIHOSTING_SYS_CLOSE, SEMIHOSTING_SYS_READ,
      SEMIHOSTING_SYS_WRITE, SEMIHOSTING_SYS_WRITEC, SEMIHOSTING_SYS_WRITE0,
      SEMIHOSTING_SYS_ISTTY, SEMIHOSTING_SYS_SEEK, SEMIHOSTING_SYS_RENAME,
      SEMIHOSTING_SYS_REMOVE, SEMIHOSTING_SYS_SYSTEM, SEMIHOSTING_SYS_FLEN,
      SEMIHOSTING_SYS_CLOCK, SEMIHOSTING_SYS_TIME, SEMIHOSTING_SYS_READC, SEMIHOSTING_SYS_ERRNO]
  · refine ⟨-1, t, ?_, rfl⟩
    unfold SEMIHOSTING_SYS_ELAPSED at h
    simp [Probe.dispatch, h, SEMIHOSTING_SYS_OPEN, SEMIHOSTING_SYS_CLOSE, SEMIHOSTING_SYS_READ,
      SEMIHOSTING_SYS_WRITE, SEMIHOSTING_SYS_WRITEC, SEMIHOSTING_SYS_WRITE0,
      SEMIHOSTING_SYS_ISTTY, SEMIHOSTING_SYS_SEEK, SEMIHOSTING_SYS_RENAME,
      SEMIHOSTING_SYS_REMOVE, SEMIHOSTING_SYS_SYSTEM, SEMIHOSTING_SYS_FLEN,
      SEMIHOSTING_SYS_CLOCK, SEMIHOSTING_SYS_TIME, SEMIHOSTING_SYS_READC, SEMIHOSTING_SYS_ERRNO,
      SEMIHOSTING_SYS_EXIT, SEMIHOSTING_SYS_EXIT_EXTENDED, SEMIHOSTING_SYS_GET_CMDLINE,
      SEMIHOSTING_SYS_ISERROR, SEMIHOSTING_SYS_HEAPINFO, SEMIHOSTING_SYS_TMPNAM,
      SEMIHOSTING_SYS_ELAPSED]
  · refine ⟨-1, t, ?_, rfl⟩
    unfold SEMIHOSTING_SYS_TICKFREQ at h
    simp [Probe.dispatch, h, SEMIHOSTING_SYS_OPEN, SEMIHOSTING_SYS_CLOSE, SEMIHOSTING_SYS_READ,
      SEMIHOSTING_SYS_WRITE, SEMIHOSTING_SYS_WRITEC, SEMIHOSTING_SYS_WRITE0,
      SEMIHOSTING_SYS_ISTTY, SEMIHOSTING_SYS_SEEK, SEMIHOSTING_SYS_RENAME,
      SEMIHOSTING_SYS_REMOVE, SEMIHOSTING_SYS_SYSTEM, SEMIHOSTING_SYS_FLEN,
      SEMIHOSTING_SYS_CLOCK, SEMIHOSTING_SYS_TIME, SEMIHOSTING_SYS_READC, SEMIHOSTING_SYS_ERRNO,
      SEMIHOSTING_SYS_EXIT, SEMIHOSTING_SYS_EXIT_EXTENDED, SEMIHOSTING_SYS_GET_CMDLINE,
      SEMIHOSTING_SYS_ISERROR, SEMIHOSTING_SYS_HEAPINFO, SEMIHOSTING_SYS_TMPNAM,
      SEMIHOSTING_SYS_ELAPSED, SEMIHOSTING_SYS_TICKFREQ]

theorem probe_request_outcome {σ : Type} (ml : main_loop σ) (env : Probe.probe_locals)
    (fuel : Nat) (t : target_s σ) (l : gdb_link) (time0_sec : Nat) (b : Bool)
    (t1 : target_s σ) (l1 : gdb_link) (time0 : Nat)
    (h : Probe.cortexm_hostio_request ml env fuel t l time0_sec = some (b, t1, l1, time0)) :
    ∃ t2 : target_s σ, b = t2.tc.interrupted ∧ exchange_outcome ml (read_request t).2 l t2 l1 := by
  unfold Probe.cortexm_hostio_request at h
  simp only [] at h
  cases hd : Probe.dispatch ml env fuel (read_request t).2 l time0_sec (read_request t).1 with
  | none => simp [hd] at h
  | some v =>
    obtain ⟨ret, t2, l2, o2⟩ := v
    rw [hd] at h
    simp only [Option.some.injEq, Prod.mk.injEq] at h
    obtain ⟨hb, _, hl, _⟩ := h
    subst hl
    exact ⟨t2, hb.symm, probe_dispatch_outcome ml env fuel _ l time0_sec _ ret t2 l2 o2 hd⟩

/-- C21: `cortexm_hostio_request` clears the interrupted flag before it dispatches,
whatever the flag held.  In the direct build it returns false whenever it
returns, and it does return for every call but write0 (whose scan for the
terminator is bounded by `fuel` in the model).  In the relayed build a call
that performs no exchange (iserror, tmpnam, get_cmdline, heapinfo, errno,
elapsed, tickfreq) returns false with the link untouched.  When the main
loop decodes `F` packets with `semihosting_reply` and the inbound packets are
`pre`, which the main loop treats as unrelated, then `last`: if `last` is a
reply, a call either performed no exchange and returns false, or consumed the
packets up to `last` and returns true exactly when `last` carries the break
marker (three fields, the third `C`), and every call but write0 returns; if
`last` is the escape packet and the handling of unrelated packets leaves the
flag alone, the call returns false. -/
theorem interrupted_flag_returned {σ : Type} (gdb_main_loop other : main_loop σ)
    (env : Probe.probe_locals) (os : Hosted.host_os) (fuel : Nat) (t : target_s σ)
    (l : gdb_link) (calls : List Hosted.os_call) (time0_sec : Nat)
    (pre later : List (List Char)) (last : List Char) :
    (read_request t).2.tc.interrupted = false ∧
    (∀ (b : Bool) (t1 : target_s σ) (calls1 : List Hosted.os_call) (time0 : Nat),
      Hosted.cortexm_hostio_request os env.beyond fuel t calls time0_sec
        = some (b, t1, calls1, time0) → b = false) ∧
    (target_reg_read t 0 ≠ SEMIHOSTING_SYS_WRITE0 →
      ∃ (t1 : target_s σ) (calls1 : List Hosted.os_call) (time0 : Nat),
        Hosted.cortexm_hostio_request os env.beyond fuel t calls time0_sec
          = some (false, t1, calls1, time0)) ∧
    (target_reg_read t 0 ∈ local_calls →
      ∃ t1 : target_s σ,
        Probe.cortexm_hostio_request gdb_main_loop env fuel t l time0_sec
          = some (false, t1, l, time0_sec)) ∧
    (l.inbound = pre ++ last :: later →
      (∀ p ∈ pre, is_escape p = false ∧
        ∀ t0, char_at (gdb_main_loop_model other t0 p p.length).packet_buffer 0 ≠ 'F') →
      (is_escape last = false → char_at last 0 = 'F' →
        (∀ (b : Bool) (t1 : target_s σ) (l1 : gdb_link) (time0 : Nat),
          Probe.cortexm_hostio_request (gdb_main_loop_model other) env fuel t l time0_sec
            = some (b, t1, l1, time0) →
          (l1.inbound = l.inbound ∧ b = false) ∨
          (l1.inbound = later ∧ b = carries_break_marker last)) ∧
        (target_reg_read t 0 ≠ SEMIHOSTING_SYS_WRITE0 →
          ∃ v, Probe.cortexm_hostio_request (gdb_main_loop_model other) env fuel t l time0_sec
            = some v)) ∧
      (is_escape last = true →
        (∀ t0 p n, (other t0 p n).target.tc.interrupted = t0.tc.interrupted) →
        ∀ (b : Bool) (t1 : target_s σ) (l1 : gdb_link) (time0 : Nat),
          Probe.cortexm_hostio_request (gdb_main_loop_model other) env fuel t l time0_sec
            = some (b, t1, l1, time0) → b = false)) := by
  have hint : (read_request t).2.tc.interrupted = false := (read_request_frame t).2.2.1
  have hhosted : ∀ (ret : Int) (t2 : target_s σ) (c2 : List Hosted.os_call) (o2 : Nat),
      Hosted.dispatch os env.beyond fuel (read_request t).2 calls time0_sec (read_request t).1
        = some (ret, t2, c2, o2) → t2.tc.interrupted = false := by
    intro ret t2 c2 o2 hd
    rw [hosted_dispatch_tc os env.beyond fuel _ calls time0_sec _ ret t2 c2 o2 hd]
    exact hint
  refine ⟨hint, ?_, ?_, ?_, ?_⟩
  · intro b t1 calls1 time0 h
    unfold Hosted.cortexm_hostio_request at h
    simp only [] at h
    cases hd : Hosted.dispatch os env.beyond fuel (read_request t).2 calls time0_sec
        (read_request t).1 with
    | none => simp [hd] at h
    | some v =>
      obtain ⟨ret, t2, c2, o2⟩ := v
      rw [hd] at h
      simp only [Option.some.injEq, Prod.mk.injEq] at h
      rw [← h.1]
      exact hhosted ret t2 c2 o2 hd
  · intro hne
    obtain ⟨⟨ret, t2, c2, o2⟩, hd⟩ := hosted_dispatch_returns os env.beyond fuel
      (read_request t).2 calls time0_sec (read_request t).1 (by
        rw [read_request_syscall]
        exact hne)
    refine ⟨target_reg_write t2 0 (to_uint32 ret), c2, o2, ?_⟩
    unfold Hosted.cortexm_hostio_request
    simp only [hd, hhosted ret t2 c2 o2 hd]
  · intro hloc
    obtain ⟨ret, t2, hd, htc⟩ := probe_dispatch_local gdb_main_loop env fuel (read_request t).2 l
      time0_sec (read_request t).1 (by
        rw [read_request_syscall]
        exact hloc)
    refine ⟨target_reg_write t2 0 (to_uint32 ret), ?_⟩
    unfold Probe.cortexm_hostio_request
    have hf : t2.tc.interrupted = false := by
      rw [htc]
      exact hint
    simp only [hd, hf]
  · intro hin hpre
    refine ⟨?_, ?_⟩
    · intro hesc hF
      refine ⟨?_, ?_⟩
      · intro b t1 l1 time0 h
        obtain ⟨t2, hb, hout⟩ := probe_request_outcome _ env fuel t l time0_sec b t1 l1 time0 h
        rcases hout with ⟨htc, hl⟩ | ⟨t0, l0, r, t3, l3, _, hl0, hx, htc, hl⟩
        · left
          refine ⟨hl, ?_⟩
          rw [hb, htc]
          exact hint
        · right
          obtain ⟨r2, t4, l4, hx2, hflag, hlater⟩ := model_response_reply other pre later last t0
            l0 (hl0.trans hin) hpre hesc hF
          rw [hx] at hx2
          simp only [Option.some.injEq, Prod.mk.injEq] at hx2
          obtain ⟨_, h3, h4⟩ := hx2
          subst h3
          subst h4
          exact ⟨hl.trans hlater, by rw [hb, htc, hflag]⟩
      · intro hne
        have hresp : ∀ (t0 : target_s σ) (l0 : gdb_link), l0.inbound = l.inbound →
            ∃ v, semihosting_get_gdb_response (gdb_main_loop_model other) t0 l0 = some v := by
          intro t0 l0 hl0
          obtain ⟨r2, t4, l4, hx2, _, _⟩ := model_response_reply other pre later last t0 l0
            (hl0.trans hin) hpre hesc hF
          exact ⟨_, hx2⟩
        obtain ⟨⟨ret, t2, l2, o2⟩, hd⟩ := probe_dispatch_returns (gdb_main_loop_model other) env
          fuel (read_request t).2 l time0_sec (read_request t).1 hresp (by
            rw [read_request_syscall]
            exact hne)
        unfold Probe.cortexm_hostio_request
        simp only [hd]
        exact ⟨_, rfl⟩
    · intro hesc hother b t1 l1 time0 h
      obtain ⟨t2, hb, hout⟩ := probe_request_outcome _ env fuel t l time0_sec b t1 l1 time0 h
      rcases hout with ⟨htc, _⟩ | ⟨t0, l0, r, t3, l3, ht0, hl0, hx, htc, _⟩
      · rw [hb, htc]
        exact hint
      · obtain ⟨r2, t4, l4, hx2, hflag, _⟩ := model_response_escape other pre later last t0
          l0 (hl0.trans hin) hpre hesc hother
        rw [hx] at hx2
        simp only [Option.some.injEq, Prod.mk.injEq] at hx2
        obtain ⟨_, h3, _⟩ := hx2
        subst h3
        rw [hb, htc, hflag, ht0]
        exact hint
/-- C21, witness: a close call made with the flag still set from an earlier call.  GDB
sends an unrelated packet and then the reply `F0,0,C`: the call returns true.
With the reply `F0` it returns false, and an iserror call returns false
without reading a packet. -/
theorem interrupted_flag_returned_witness :
    carries_break_marker ['F', '0', ',', '0', ',', 'C'] = true ∧
    (Probe.cortexm_hostio_request (gdb_main_loop_model sample_other) sample_locals 8
        { sample_call 2 4 0 0 0 with tc := ⟨true, 7⟩ }
        { sample_link with inbound := [['g'], ['F', '0', ',', '0', ',', 'C']] } 0).map
        (fun x => x.1) = some true ∧
    (Probe.cortexm_hostio_request (gdb_main_loop_model sample_other) sample_locals 8
        { sample_call 2 4 0 0 0 with tc := ⟨true, 7⟩ }
        { sample_link with inbound := [['g'], ['F', '0']] } 0).map
        (fun x => (x.1, x.2.2.1.inbound)) = some (false, []) ∧
    (∃ t1 : target_s Unit,
      Probe.cortexm_hostio_request (gdb_main_loop_model sample_other) sample_locals 8
        { sample_call 8 2 0 0 0 with tc := ⟨true, 7⟩ }
        { sample_link with inbound := [['g'], ['F', '0', ',', '0', ',', 'C']] } 0
        = some (false, t1, { sample_link with inbound := [['g'], ['F', '0', ',', '0', ',', 'C']] },
            0)) ∧
    (Hosted.cortexm_hostio_request sample_os sample_locals.beyond 8
        { sample_call 2 4 0 0 0 with tc := ⟨true, 7⟩ } [] 0).map (fun x => x.1) = some false := by
  have h := interrupted_flag_returned (gdb_main_loop_model sample_other) sample_other
    sample_locals sample_os 8 { sample_call 2 4 0 0 0 with tc := ⟨true, 7⟩ }
    { sample_link with inbound := [['g'], ['F', '0', ',', '0', ',', 'C']] } [] 0 [['g']] []
    ['F', '0', ',', '0', ',', 'C']
  have h8 := interrupted_flag_returned (gdb_main_loop_model sample_other) sample_other
    sample_locals sample_os 8 { sample_call 8 2 0 0 0 with tc := ⟨true, 7⟩ }
    { sample_link with inbound := [['g'], ['F', '0', ',', '0', ',', 'C']] } [] 0 [['g']] []
    ['F', '0', ',', '0', ',', 'C']
  have hpre : ∀ p ∈ [['g']], is_escape p = false ∧
      ∀ t0 : target_s Unit,
        char_at (gdb_main_loop_model sample_other t0 p p.length).packet_buffer 0 ≠ 'F' := by
    intro p hp
    simp only [List.mem_singleton] at hp
    subst hp
    exact ⟨by decide, fun t0 => by simp [gdb_main_loop_model, sample_other, char_at]⟩
  obtain ⟨hflag, hret⟩ := (h.2.2.2.2 rfl hpre).1 (by decide) (by decide)
  refine ⟨by decide, ?_, by decide, h8.2.2.2.1 (by decide), ?_⟩
  · have hin : (Probe.cortexm_hostio_request (gdb_main_loop_model sample_other) sample_locals 8
        { sample_call 2 4 0 0 0 with tc := ⟨true, 7⟩ }
        { sample_link with inbound := [['g'], ['F', '0', ',', '0', ',', 'C']] } 0).map
        (fun x => x.2.2.1.inbound) = some [] := by decide
    obtain ⟨⟨b, t1, l1, o1⟩, hv⟩ := hret (by decide)
    rw [hv] at hin ⊢
    simp only [Option.map_some', Option.some.injEq] at hin ⊢
    rcases hflag b t1 l1 o1 hv with ⟨hl, _⟩ | ⟨_, hb⟩
    · rw [hin] at hl
      exact absurd hl (by decide)
    · rw [hb]
      decide
  · obtain ⟨t1, c1, o1, hv⟩ := h.2.2.1 (by decide)
    rw [hv]
    rfl

end Semihosting
